import Mathlib

/-! # MAT 7.3 variable writer and header reader (`src/mat73.c`)

A shallow embedding of the functions of `mat73.c`:

* the type registry (`Mat_class_names`, `Mat_class_str_to_id`,
  `Mat_class_type_to_hid_t`, `Mat_data_type_to_hid_t`);
* the two encoders `Mat_WriteNextStructField73` and `Mat_VarWrite73`;
* the header decoder `Mat_VarReadNextInfo73`.

The container engine (HDF5) is not part of the repository.  It is modelled as a
flat list of objects, each carrying its absolute path, in creation order; the
operations follow the capability interface of the specification (§6).
Sizes (`hsize_t`, `unsigned long`) are unbounded naturals; allocation
(`malloc`, `Mat_VarCalloc`) always succeeds.
-/

namespace Mat73

/-! ## Class and storage-type tags -/

/-- Class tags of `enum matio_classes`; the numbering is the one
`Mat_class_names` is indexed by. -/
def MAT_C_CELL : Nat := 1
def MAT_C_STRUCT : Nat := 2
def MAT_C_OBJECT : Nat := 3
def MAT_C_CHAR : Nat := 4
def MAT_C_SPARSE : Nat := 5
def MAT_C_DOUBLE : Nat := 6
def MAT_C_SINGLE : Nat := 7
def MAT_C_INT8 : Nat := 8
def MAT_C_UINT8 : Nat := 9
def MAT_C_INT16 : Nat := 10
def MAT_C_UINT16 : Nat := 11
def MAT_C_INT32 : Nat := 12
def MAT_C_UINT32 : Nat := 13
def MAT_C_INT64 : Nat := 14
def MAT_C_UINT64 : Nat := 15
def MAT_C_FUNCTION : Nat := 16

/-- Modelled from the spec: the storage-type tags of `enum matio_types`
(declared in `matio.h`, which is not among the sources): double, single,
intN, uintN, utf8, utf16, utf32, and one tag for anything else. -/
inductive matio_types where
  | MAT_T_UNKNOWN
  | MAT_T_INT8
  | MAT_T_UINT8
  | MAT_T_INT16
  | MAT_T_UINT16
  | MAT_T_INT32
  | MAT_T_UINT32
  | MAT_T_SINGLE
  | MAT_T_DOUBLE
  | MAT_T_INT64
  | MAT_T_UINT64
  | MAT_T_UTF8
  | MAT_T_UTF16
  | MAT_T_UTF32
  deriving DecidableEq, Repr

open matio_types

/-- The table `Mat_class_names` (lines 36-54). -/
def Mat_class_names : List String :=
  ["", "cell", "struct", "object", "char", "sparse", "double", "single",
   "int8", "uint8", "int16", "uint16", "int32", "uint32", "int64", "uint64",
   "function"]

/-- The loop of `Mat_class_str_to_id` (lines 68-73), `k` running up to 16. -/
def Mat_class_str_to_id_loop (name : String) : Nat → Nat → Nat
  | 0, _ => 0
  | fuel + 1, k =>
    if k < 17 then
      if name = Mat_class_names.getD k "" then k
      else Mat_class_str_to_id_loop name fuel (k + 1)
    else 0

/-- The function `Mat_class_str_to_id` (lines 62-76); `none` is the NULL name. -/
def Mat_class_str_to_id (name : Option String) : Nat :=
  match name with
  | none => 0
  | some n => Mat_class_str_to_id_loop n 16 1

/-! ## Build configuration and native element types -/

/-- The configuration macros the preprocessor branches of lines 78-266 test.
They come from the build configuration, which is not among the sources. -/
structure CConfig where
  CHAR_BIT : Nat
  SIZEOF_SHORT : Nat
  SIZEOF_INT : Nat
  SIZEOF_LONG : Nat
  SIZEOF_LONG_LONG : Nat
  deriving DecidableEq, Repr

/-- Element types of the container engine; `invalid` is the error value `-1`,
`compound base` the two-member record with members `real` and `imag`. -/
inductive H5T where
  | H5T_NATIVE_DOUBLE
  | H5T_NATIVE_FLOAT
  | H5T_NATIVE_SCHAR
  | H5T_NATIVE_UCHAR
  | H5T_NATIVE_SHORT
  | H5T_NATIVE_USHORT
  | H5T_NATIVE_INT
  | H5T_NATIVE_UINT
  | H5T_NATIVE_LONG
  | H5T_NATIVE_ULONG
  | H5T_NATIVE_LLONG
  | H5T_NATIVE_ULLONG
  | H5T_STD_REF_OBJ
  | compound (base : H5T)
  | invalid
  deriving DecidableEq, Repr

open H5T

/-- Width in bits of a native integer element type under a configuration
(0 for the types that are not native integers). -/
def H5T.int_bits (cfg : CConfig) : H5T → Nat
  | H5T_NATIVE_SCHAR => cfg.CHAR_BIT
  | H5T_NATIVE_UCHAR => cfg.CHAR_BIT
  | H5T_NATIVE_SHORT => cfg.CHAR_BIT * cfg.SIZEOF_SHORT
  | H5T_NATIVE_USHORT => cfg.CHAR_BIT * cfg.SIZEOF_SHORT
  | H5T_NATIVE_INT => cfg.CHAR_BIT * cfg.SIZEOF_INT
  | H5T_NATIVE_UINT => cfg.CHAR_BIT * cfg.SIZEOF_INT
  | H5T_NATIVE_LONG => cfg.CHAR_BIT * cfg.SIZEOF_LONG
  | H5T_NATIVE_ULONG => cfg.CHAR_BIT * cfg.SIZEOF_LONG
  | H5T_NATIVE_LLONG => cfg.CHAR_BIT * cfg.SIZEOF_LONG_LONG
  | H5T_NATIVE_ULLONG => cfg.CHAR_BIT * cfg.SIZEOF_LONG_LONG
  | _ => 0

/-- The body of `case MAT_C_INT64` (lines 86-95): `none` when no branch of the
preprocessor chain is compiled in, so that control falls into the next case. -/
def case_int64 (cfg : CConfig) : Option H5T :=
  if cfg.CHAR_BIT * cfg.SIZEOF_SHORT = 64 then some H5T_NATIVE_SHORT
  else if cfg.CHAR_BIT * cfg.SIZEOF_INT = 64 then some H5T_NATIVE_INT
  else if cfg.CHAR_BIT * cfg.SIZEOF_LONG = 64 then some H5T_NATIVE_LONG
  else if cfg.CHAR_BIT * cfg.SIZEOF_LONG_LONG = 64 then some H5T_NATIVE_LLONG
  else none

/-- The body of the signed cases for `w` = 32, 16, 8 (lines 96-107, 120-131,
144-155). -/
def case_signed (cfg : CConfig) (w : Nat) : Option H5T :=
  if cfg.CHAR_BIT = w then some H5T_NATIVE_SCHAR
  else if cfg.CHAR_BIT * cfg.SIZEOF_SHORT = w then some H5T_NATIVE_SHORT
  else if cfg.CHAR_BIT * cfg.SIZEOF_INT = w then some H5T_NATIVE_INT
  else if cfg.CHAR_BIT * cfg.SIZEOF_LONG = w then some H5T_NATIVE_LONG
  else if cfg.CHAR_BIT * cfg.SIZEOF_LONG_LONG = w then some H5T_NATIVE_LLONG
  else none

/-- The body of the unsigned cases for `w` = 32, 16, 8 (lines 108-119,
132-143, 156-167). -/
def case_unsigned (cfg : CConfig) (w : Nat) : Option H5T :=
  if cfg.CHAR_BIT = w then some H5T_NATIVE_UCHAR
  else if cfg.CHAR_BIT * cfg.SIZEOF_SHORT = w then some H5T_NATIVE_USHORT
  else if cfg.CHAR_BIT * cfg.SIZEOF_INT = w then some H5T_NATIVE_UINT
  else if cfg.CHAR_BIT * cfg.SIZEOF_LONG = w then some H5T_NATIVE_ULONG
  else if cfg.CHAR_BIT * cfg.SIZEOF_LONG_LONG = w then some H5T_NATIVE_ULLONG
  else none

/-- The integer case bodies in source order: INT64, INT32, UINT32, INT16,
UINT16, INT8, UINT8. -/
def int_cases (cfg : CConfig) : List (Option H5T) :=
  [case_int64 cfg, case_signed cfg 32, case_unsigned cfg 32, case_signed cfg 16,
   case_unsigned cfg 16, case_signed cfg 8, case_unsigned cfg 8]

/-- Execution of a `switch` from a case label on: the first body that returns
decides, and `default` returns `-1`. -/
def fall_through : List (Option H5T) → H5T
  | [] => H5T.invalid
  | some t :: _ => t
  | none :: rest => fall_through rest

/-- The function `Mat_class_type_to_hid_t` (lines 78-171). -/
def Mat_class_type_to_hid_t (cfg : CConfig) (class_type : Nat) : H5T :=
  if class_type = MAT_C_DOUBLE then H5T_NATIVE_DOUBLE
  else if class_type = MAT_C_SINGLE then H5T_NATIVE_FLOAT
  else if class_type = MAT_C_INT64 then fall_through ((int_cases cfg).drop 0)
  else if class_type = MAT_C_INT32 then fall_through ((int_cases cfg).drop 1)
  else if class_type = MAT_C_UINT32 then fall_through ((int_cases cfg).drop 2)
  else if class_type = MAT_C_INT16 then fall_through ((int_cases cfg).drop 3)
  else if class_type = MAT_C_UINT16 then fall_through ((int_cases cfg).drop 4)
  else if class_type = MAT_C_INT8 then fall_through ((int_cases cfg).drop 5)
  else if class_type = MAT_C_UINT8 then fall_through ((int_cases cfg).drop 6)
  else H5T.invalid

/-- The function `Mat_data_type_to_hid_t` (lines 173-266). -/
def Mat_data_type_to_hid_t (cfg : CConfig) (data_type : matio_types) : H5T :=
  match data_type with
  | MAT_T_DOUBLE => H5T_NATIVE_DOUBLE
  | MAT_T_SINGLE => H5T_NATIVE_FLOAT
  | MAT_T_INT64 => fall_through ((int_cases cfg).drop 0)
  | MAT_T_INT32 => fall_through ((int_cases cfg).drop 1)
  | MAT_T_UINT32 => fall_through ((int_cases cfg).drop 2)
  | MAT_T_INT16 => fall_through ((int_cases cfg).drop 3)
  | MAT_T_UINT16 => fall_through ((int_cases cfg).drop 4)
  | MAT_T_INT8 => fall_through ((int_cases cfg).drop 5)
  | MAT_T_UINT8 => fall_through ((int_cases cfg).drop 6)
  | _ => H5T.invalid

/-! ## The container engine

Modelled from the capability interface of the specification (§6): groups,
datasets, attributes and object references.  The library itself is an external
collaborator. -/

/-- Identifiers (`hid_t`): `fail` is a negative value (a failed call),
`stray n` a non-negative integer that the engine did not issue (the value of a
comparison, or the content of an uninitialised variable), `obj p` the
identifier the engine issued for the object at absolute path `p` (`[]` is the
file and its root group). -/
inductive hid_t where
  | fail
  | stray (n : Nat)
  | obj (path : List String)
  deriving DecidableEq, Repr

/-- The test `id < 0`. -/
def hid_t.lt_zero : hid_t → Bool
  | hid_t.fail => true
  | _ => false

/-- Object kinds reported by `H5Gget_objtype_by_idx`. -/
inductive H5G_obj_t where
  | H5G_UNKNOWN
  | H5G_GROUP
  | H5G_DATASET
  deriving DecidableEq, Repr

open H5G_obj_t

/-- Object references (`hobj_ref_t`): `none` is a slot no successful
`H5Rcreate` has filled, `some p` a reference to the object at path `p`. -/
abbrev hobj_ref_t := Option (List String)

/-- Attribute values: a fixed-length string, a native `int`, or a list of
variable-length strings. -/
inductive H5Attr where
  | str (s : String)
  | int (v : Int)
  | vlen (names : List String)
  deriving DecidableEq, Repr

/-- Content of a dataset: nothing written yet, a buffer of element values
written with a memory type, or a buffer of object references. -/
inductive H5Data where
  | empty
  | values (mem_type : H5T) (buf : List Int)
  | refs (buf : List hobj_ref_t)
  deriving DecidableEq, Repr

/-- One object of the container: its absolute path, kind, element type and
shape (datasets), attributes in creation order and content. -/
structure H5Node where
  path : List String
  kind : H5G_obj_t
  dtype : H5T
  shape : List Nat
  attrs : List (String × H5Attr)
  data : H5Data
  deriving DecidableEq, Repr

/-- A container: its objects other than the root group, in creation order. -/
abbrev H5File := List H5Node

/-- Names given to the engine: a path from the location (`absolute = false`)
or from the root (`absolute = true`, the names that start with a slash). -/
structure H5Name where
  absolute : Bool
  comps : List String
  deriving DecidableEq, Repr

/-- A plain object name, relative to the location. -/
def H5Name.rel (name : String) : H5Name := ⟨false, [name]⟩

/-- The object stored at a path, if any. -/
def H5File.lookup (f : H5File) (p : List String) : Option H5Node :=
  f.find? (fun n => decide (n.path = p))

/-- Whether an object (or the root group) is stored at a path. -/
def H5File.has (f : H5File) (p : List String) : Bool :=
  decide (p = []) || (f.lookup p).isSome

/-- Whether a path names a group. -/
def H5File.is_group (f : H5File) (p : List String) : Bool :=
  decide (p = []) ||
    (match f.lookup p with
     | some n => decide (n.kind = H5G_GROUP)
     | none => false)

/-- Whether a path names a dataset. -/
def H5File.is_dataset (f : H5File) (p : List String) : Bool :=
  match f.lookup p with
  | some n => decide (n.kind = H5G_DATASET)
  | none => false

/-- The members of the group at a path, in index order. -/
def H5File.children (f : H5File) (p : List String) : List H5Node :=
  f.filter (fun n => decide (n.path ≠ []) && decide (n.path.dropLast = p))

/-- The path an identifier stands for, when it is a live identifier. -/
def H5File.loc (f : H5File) : hid_t → Option (List String)
  | hid_t.obj p => if f.has p then some p else none
  | _ => none

/-- Resolution of a name given at a location. -/
def H5File.resolve (f : H5File) (loc : hid_t) (name : H5Name) : Option (List String) :=
  match f.loc loc with
  | none => none
  | some p => some (if name.absolute then name.comps else p ++ name.comps)

/-- Whether a new object may be created at a path: the path is not the root,
its parent is a group and no object has the path yet. -/
def H5File.can_create (f : H5File) (t : List String) : Bool :=
  decide (t ≠ []) && f.is_group t.dropLast && !f.has t

/-- The call `H5Gcreate(loc,name,0)`: create_group of the interface. -/
def H5Gcreate (f : H5File) (loc : hid_t) (name : H5Name) : hid_t × H5File :=
  match f.resolve loc name with
  | none => (hid_t.fail, f)
  | some t =>
    if f.can_create t then
      (hid_t.obj t, f ++ [⟨t, H5G_GROUP, H5T.invalid, [], [], H5Data.empty⟩])
    else (hid_t.fail, f)

/-- The call `H5Gopen(loc,name)`: open_group of the interface. -/
def H5Gopen (f : H5File) (loc : hid_t) (name : H5Name) : hid_t :=
  match f.resolve loc name with
  | none => hid_t.fail
  | some t => if f.is_group t then hid_t.obj t else hid_t.fail

/-- The call `H5Screate_simple(rank,dims,NULL)`: the first `rank` entries of
the dimension buffer. -/
def H5Screate_simple (rank : Nat) (dims : List Nat) : List Nat :=
  dims.take rank

/-- The call `H5Dcreate(loc,name,type,space,H5P_DEFAULT)`: create_dataset of
the interface. -/
def H5Dcreate (f : H5File) (loc : hid_t) (name : H5Name) (type : H5T) (space : List Nat) :
    hid_t × H5File :=
  match f.resolve loc name with
  | none => (hid_t.fail, f)
  | some t =>
    if f.can_create t && decide (type ≠ H5T.invalid) then
      (hid_t.obj t, f ++ [⟨t, H5G_DATASET, type, space, [], H5Data.empty⟩])
    else (hid_t.fail, f)

/-- The call `H5Dopen(loc,name)`. -/
def H5Dopen (f : H5File) (loc : hid_t) (name : H5Name) : hid_t :=
  match f.resolve loc name with
  | none => hid_t.fail
  | some t => if f.is_dataset t then hid_t.obj t else hid_t.fail

/-- The calls `H5Acreate(obj,name,type,space,H5P_DEFAULT)` and `H5Awrite` on
the attribute just created: create_attribute of the interface.  Nothing
happens on a dead identifier or when the object has the attribute already. -/
def H5Acreate_write (f : H5File) (obj : hid_t) (name : String) (value : H5Attr) : H5File :=
  match obj with
  | hid_t.obj p =>
    f.map (fun n =>
      if n.path = p ∧ (n.attrs.lookup name).isNone then
        { n with attrs := n.attrs ++ [(name, value)] }
      else n)
  | _ => f

/-- The calls `H5Aopen_name(obj,name)` and `H5Aread`: read_attribute of the
interface. -/
def H5Aopen_read (f : H5File) (obj : hid_t) (name : String) : Option H5Attr :=
  match obj with
  | hid_t.obj p =>
    (match f.lookup p with
     | some n => n.attrs.lookup name
     | none => none)
  | _ => none

/-- The call `H5Dwrite(dset,mem_type,H5S_ALL,H5S_ALL,H5P_DEFAULT,buf)`:
write_dataset of the interface.  It fails on a dead identifier, on an object
that is no dataset and on the memory type `-1`. -/
def H5Dwrite (f : H5File) (dset : hid_t) (mem_type : H5T) (buf : H5Data) : H5File :=
  match dset with
  | hid_t.obj p =>
    if mem_type = H5T.invalid then f
    else f.map (fun n =>
      if n.path = p ∧ n.kind = H5G_DATASET then { n with data := buf } else n)
  | _ => f

/-- The call `H5Rcreate(ref,loc,name,H5R_OBJECT,-1)`:
create_object_reference of the interface.  `none` when the call fails, in
which case the slot is not written. -/
def H5Rcreate (f : H5File) (loc : hid_t) (name : H5Name) : hobj_ref_t :=
  match f.resolve loc name with
  | none => none
  | some t => if decide (t ≠ []) && f.has t then some t else none

/-- The call `H5Gget_num_objs(loc,&num)`: child_count of the interface;
`none` when the call fails and leaves `num` alone. -/
def H5Gget_num_objs (f : H5File) (loc : hid_t) : Option Nat :=
  match f.loc loc with
  | none => none
  | some p => if f.is_group p then some (f.children p).length else none

/-- The call `H5Gget_objtype_by_idx(loc,idx)`: child_kind_at of the interface. -/
def H5Gget_objtype_by_idx (f : H5File) (loc : hid_t) (idx : Nat) : H5G_obj_t :=
  match f.loc loc with
  | none => H5G_UNKNOWN
  | some p =>
    (match (f.children p).get? idx with
     | some n => n.kind
     | none => H5G_UNKNOWN)

/-- The call `H5Gget_objname_by_idx(loc,idx,name,size)`: child_name_at of the
interface. -/
def H5Gget_objname_by_idx (f : H5File) (loc : hid_t) (idx : Nat) : Option String :=
  match f.loc loc with
  | none => none
  | some p =>
    (match (f.children p).get? idx with
     | some n => n.path.getLast?
     | none => none)

/-- The call `H5Iget_name(id,buf,size)`: the path of the object behind a live
identifier, `none` when the call fails and leaves the buffer alone. -/
def H5Iget_name (f : H5File) (id : hid_t) : Option (List String) :=
  f.loc id

/-- The calls `H5Dget_space`, `H5Sget_simple_extent_ndims` and
`H5Sget_simple_extent_dims` on a dataset: its shape. -/
def H5Dget_space (f : H5File) (dset : hid_t) : Option (List Nat) :=
  match dset with
  | hid_t.obj p =>
    (match f.lookup p with
     | some n => if n.kind = H5G_DATASET then some n.shape else none
     | none => none)
  | _ => none

/-- The name `"/#refs#"`. -/
def refs_name : H5Name := ⟨true, ["#refs#"]⟩

/-- The output of `sprintf(name,"/#refs#/%lu",num_obj)`. -/
def refs_member (num_obj : Nat) : H5Name := ⟨true, ["#refs#", toString num_obj]⟩

/-! ## Variables and handles -/

/-- The scalar members of `matvar_t` that the functions of `mat73.c` read or
set.  `data` is the flat element buffer of a real array, `Re` and `Im` the two
buffers of the `ComplexSplit` record of a complex one. -/
structure matvar_info where
  name : String
  class_type : Nat
  data_type : matio_types
  rank : Nat
  dims : List Nat
  isComplex : Bool
  isGlobal : Int
  nbytes : Nat
  data_size : Nat
  data : List Int
  Re : List Int
  Im : List Int
  deriving DecidableEq, Repr

/-- A variable (`matvar_t`): its scalar members and, for a struct, the array
of field variables that `data` points to (`nbytes / data_size` entries). -/
inductive matvar_t where
  | mk (info : matvar_info) (fields : List matvar_t)

/-- The scalar members of a variable. -/
def matvar_t.info : matvar_t → matvar_info
  | matvar_t.mk v _ => v

/-- The field array of a variable. -/
def matvar_t.fields : matvar_t → List matvar_t
  | matvar_t.mk _ fs => fs

/-- The member `name`. -/
def matvar_t.name (m : matvar_t) : String := m.info.name

/-- The members of `mat_t` used here: the file identifier behind `fp` and the
read cursor `next_index`. -/
structure mat_t where
  fp : hid_t
  next_index : Nat
  deriving DecidableEq, Repr

/-- The program state outside the arguments: the container behind the file
identifier, and the messages handed to `Mat_Critical`. -/
structure State where
  file : H5File
  log : List String
  deriving DecidableEq, Repr

/-- Modelled from the spec: `Mat_Critical` (declared in `matio.h`, defined
outside the sources) reports the message and returns; logging is out of the
scope of the core (§1). -/
def Mat_Critical (s : State) (msg : String) : State :=
  { s with log := s.log ++ [msg] }

/-- Modelled from the spec: `Mat_VarCalloc` (defined outside the sources)
returns a fresh variable with every member zero (§3, lifecycle). -/
def Mat_VarCalloc : matvar_info :=
  { name := "", class_type := 0, data_type := MAT_T_UNKNOWN, rank := 0, dims := [],
    isComplex := false, isGlobal := 0, nbytes := 0, data_size := 0,
    data := [], Re := [], Im := [] }

/-! ## The encoders -/

/-- The static buffer `perm_dims` (line 33) before a loop fills it.  Every loop
writes the slots it later reads, so the previous content is immaterial. -/
def perm_dims_init : List Nat := List.replicate 10 0

/-- The loops `for (k = 0; k < rank; k++) perm_dims[k] = dims[rank-k-1];`
(lines 443-444, 570-571, 962-963, 1082-1083).  A store past the tenth slot,
which is outside the array, is dropped; so is a read past the end of `dims`. -/
def permute (v : matvar_info) : List Nat :=
  (List.range v.rank).foldl
    (fun pd k => pd.set k (v.dims.getD (v.rank - k - 1) 0)) perm_dims_init

/-- The loops of lines 286-290 and 805-809, which also accumulate `numel`. -/
def permute_numel (v : matvar_info) : List Nat × Nat :=
  (List.range v.rank).foldl
    (fun st k =>
      let pd := st.1.set k (v.dims.getD (v.rank - k - 1) 0)
      (pd, st.2 * pd.getD k 0))
    (perm_dims_init, 1)

/-- The packing loops `for (k = numel; k--;) { *dst++ = *r++; *dst++ = *i++; }`
(lines 312-315 and the like, one per class, all of the same shape). -/
def interleave : Nat → List Int → List Int → List Int
  | 0, _, _ => []
  | k + 1, r, i => r.headD 0 :: i.headD 0 :: interleave k r.tail i.tail

/-- The calls `H5Tcreate(H5T_COMPOUND,...)` and `H5Tinsert` of lines 296-301
and 815-820; they fail on the base type `-1`. -/
def H5Tcreate_complex (base : H5T) : H5T :=
  if base = H5T.invalid then H5T.invalid else H5T.compound base

/-- The numeric cases of both encoders (lines 286-438 and 805-957), which
differ only in the location and the name they hand to `H5Dcreate`. -/
def write_numeric (cfg : CConfig) (loc : hid_t) (name : String) (v : matvar_info)
    (f : H5File) : H5File :=
  let pn := permute_numel v
  if v.isComplex then
    let h5_complex_base := Mat_class_type_to_hid_t cfg v.class_type
    let h5_complex := H5Tcreate_complex h5_complex_base
    let buf := interleave pn.2 v.Re v.Im
    let mspace_id := H5Screate_simple v.rank pn.1
    let d := H5Dcreate f loc (H5Name.rel name) h5_complex mspace_id
    let f1 := H5Acreate_write d.2 d.1 "MATLAB_class"
      (H5Attr.str (Mat_class_names.getD v.class_type ""))
    H5Dwrite f1 d.1 h5_complex (H5Data.values h5_complex buf)
  else
    let mspace_id := H5Screate_simple v.rank pn.1
    let d := H5Dcreate f loc (H5Name.rel name)
      (Mat_class_type_to_hid_t cfg v.class_type) mspace_id
    let f1 := H5Acreate_write d.2 d.1 "MATLAB_class"
      (H5Attr.str (Mat_class_names.getD v.class_type ""))
    H5Dwrite f1 d.1 (Mat_data_type_to_hid_t cfg v.data_type)
      (H5Data.values (Mat_data_type_to_hid_t cfg v.data_type) v.data)

/-- The `switch (matvar->data_type)` of the char cases (lines 447-466 and
966-985).  For a storage type without a case, `dset_id` keeps its
uninitialised content `junk`. -/
def char_dataset (cfg : CConfig) (junk : Nat) (loc : hid_t) (name : String)
    (v : matvar_info) (mspace_id : List Nat) (f : H5File) : hid_t × H5File :=
  match v.data_type with
  | MAT_T_UTF32 | MAT_T_INT32 | MAT_T_UINT32 =>
    H5Dcreate f loc (H5Name.rel name) (Mat_class_type_to_hid_t cfg MAT_C_UINT32) mspace_id
  | MAT_T_UTF16 | MAT_T_UTF8 | MAT_T_INT16 | MAT_T_UINT16 | MAT_T_INT8 | MAT_T_UINT8 =>
    H5Dcreate f loc (H5Name.rel name) (Mat_class_type_to_hid_t cfg MAT_C_UINT16) mspace_id
  | _ => (hid_t.stray junk, f)

/-- The char cases of both encoders (lines 440-489 and 959-1008). -/
def write_char (cfg : CConfig) (junk : Nat) (loc : hid_t) (name : String) (v : matvar_info)
    (f : H5File) : H5File :=
  let matlab_int_decode : Int := 2
  let mspace_id := H5Screate_simple v.rank (permute v)
  let d := char_dataset cfg junk loc name v mspace_id f
  let f1 := H5Acreate_write d.2 d.1 "MATLAB_class"
    (H5Attr.str (Mat_class_names.getD v.class_type ""))
  let f2 := H5Acreate_write f1 d.1 "MATLAB_int_decode" (H5Attr.int matlab_int_decode)
  H5Dwrite f2 d.1 (Mat_data_type_to_hid_t cfg v.data_type)
    (H5Data.values (Mat_data_type_to_hid_t cfg v.data_type) v.data)

/-- The case labels of lines 278-285 and 797-804. -/
def numeric_case (class_type : Nat) : Bool :=
  decide (class_type = MAT_C_DOUBLE) || decide (class_type = MAT_C_SINGLE) ||
  decide (class_type = MAT_C_INT32) || decide (class_type = MAT_C_UINT32) ||
  decide (class_type = MAT_C_INT16) || decide (class_type = MAT_C_UINT16) ||
  decide (class_type = MAT_C_INT8) || decide (class_type = MAT_C_UINT8)

/-- The element count `nmemb` of lines 513-515 and 1028-1030, as the exact
product.  The machine accumulates it in `hsize_t`, modulo `2 ^ 64`
(`nmemb_hsize` below); the two agree when the dims are positive and the
product stays below `2 ^ 64`, which the theorems on structs assume or which
the length of the payload list forces. -/
def nmemb_of (v : matvar_info) : Nat :=
  (List.range' 1 (v.rank - 1)).foldl (fun n k => n * v.dims.getD k 0) (v.dims.getD 0 0)

/-- The field count `nfields` of lines 516 and 1031, as the exact quotient.
The machine division traps on the divisor 0, to which `nmemb * data_size` can
also wrap around (`nfields_hsize` below gives `none` then), where `/` on `Nat`
gives 0: the theorems on structs below take the divisor to be positive and
below `2 ^ 64`, where both agree. -/
def nfields_of (v : matvar_info) : Nat :=
  v.nbytes / (nmemb_of v * v.data_size)

/-- The name `fields[k]->name`. -/
def field_name (fields : List matvar_t) (k : Nat) : String :=
  match fields.get? k with
  | some fld => fld.name
  | none => ""

/-- The array `fieldnames` filled by lines 520-523 and 1035-1038. -/
def fieldnames_of (fields : List matvar_t) (nfields : Nat) : List String :=
  (List.range nfields).map (field_name fields)

/-- The statement `if ((refs_id=H5Gopen(id,"/#refs#") < 0)) refs_id =
H5Gcreate(id,"/#refs#",0);` (lines 546-547 and 1057-1059): the assignment
stores the value of the comparison, 1 or 0. -/
def open_refs (f : H5File) (loc : hid_t) : hid_t × H5File :=
  let refs_id : hid_t :=
    if (H5Gopen f loc refs_name).lt_zero then hid_t.stray 1 else hid_t.stray 0
  if refs_id ≠ hid_t.stray 0 then H5Gcreate f loc refs_name else (refs_id, f)

/-- The arrays `refs[l]` for `l < nfields`, each of `nmemb` slots, as
allocated by lines 555-557 and 1067-1069.  A slot is `none` until a
successful `H5Rcreate` stores into it: the allocation does not initialise it,
so it holds no reference that the engine has issued. -/
def refs_init (nfields nmemb : Nat) : List (List hobj_ref_t) :=
  List.replicate nfields (List.replicate nmemb none)

/-- The store through `refs[l]+k` that a successful `H5Rcreate` makes. -/
def refs_store (refs : List (List hobj_ref_t)) (l k : Nat) (r : hobj_ref_t) :
    List (List hobj_ref_t) :=
  match r with
  | none => refs
  | some t => refs.set l ((refs.getD l []).set k (some t))

/-- The loop of lines 574-582 and 1086-1094: one dataset of references per
field. -/
def write_ref_datasets (struct_id : hid_t) (fields : List matvar_t) (nfields : Nat)
    (mspace_id : List Nat) (refs : List (List hobj_ref_t)) (f : H5File) : H5File :=
  (List.range nfields).foldl
    (fun g l =>
      let d := H5Dcreate g struct_id (H5Name.rel (field_name fields l))
        H5T_STD_REF_OBJ mspace_id
      H5Dwrite d.2 d.1 H5T_STD_REF_OBJ (H5Data.refs (refs.getD l [])))
    f

/-- The values the loop of lines 559-569 (1071-1081) carries from one
iteration to the next. -/
structure pool_state where
  s : State
  num_obj : Nat
  refs : List (List hobj_ref_t)

mutual
/-- The function `Mat_WriteNextStructField73` (lines 268-595) on a non-NULL
variable.  `junk` is the content of uninitialised locals. -/
def Mat_WriteNextStructField73 (cfg : CConfig) (junk : Nat) (id : hid_t) :
    matvar_t → String → State → Int × State
  | matvar_t.mk v fields, name, s =>
    if numeric_case v.class_type then
      (0, { s with file := write_numeric cfg id name v s.file })
    else if v.class_type = MAT_C_CHAR then
      (0, { s with file := write_char cfg junk id name v s.file })
    else if v.class_type = MAT_C_STRUCT then
      let is_ref := decide (H5Iget_name s.file id = some ["#refs#"])
      let g := H5Gcreate s.file id (H5Name.rel name)
      if g.1.lt_zero then
        (0, Mat_Critical s ("Error creating group for struct " ++ name))
      else
        let f1 := H5Acreate_write g.2 g.1 "MATLAB_class" (H5Attr.str "struct")
        let nmemb := nmemb_of v
        let nfields := nfields_of v
        let f2 := H5Acreate_write f1 g.1 "MATLAB_fields"
          (H5Attr.vlen (fieldnames_of fields nfields))
        if nmemb = 1 then
          (0, write_fields cfg junk g.1 (nmemb * nfields) fields { s with file := f2 })
        else
          let p := if is_ref then (id, f2) else open_refs f2 id
          if p.1.lt_zero then (0, { s with file := p.2 })
          else
            let st := write_pool cfg junk p.1 id nfields (nmemb * nfields) 0 fields
              ⟨{ s with file := p.2 }, junk, refs_init nfields nmemb⟩
            let mspace_id := H5Screate_simple v.rank (permute v)
            (0, { st.s with file :=
              write_ref_datasets g.1 fields nfields mspace_id st.refs st.s.file })
    else (0, s)
/-- The loop of lines 537-539 (1052-1054) over `fields[k]`, `k < n`. -/
def write_fields (cfg : CConfig) (junk : Nat) (struct_id : hid_t) :
    Nat → List matvar_t → State → State
  | 0, _, s => s
  | _ + 1, [], s => s
  | n + 1, fld :: rest, s =>
    write_fields cfg junk struct_id n rest
      (Mat_WriteNextStructField73 cfg junk struct_id fld fld.name s).2
/-- The nested loops of lines 559-569 (1071-1081) over
`fields[k*nfields+l]`, which they visit in the order of the index
`i = k*nfields+l`; `n` is the number of iterations left. -/
def write_pool (cfg : CConfig) (junk : Nat) (refs_id loc : hid_t) (nfields : Nat) :
    Nat → Nat → List matvar_t → pool_state → pool_state
  | 0, _, _, st => st
  | _ + 1, _, [], st => st
  | n + 1, i, fld :: rest, st =>
    let num_obj := (H5Gget_num_objs st.s.file refs_id).getD st.num_obj
    let s1 := (Mat_WriteNextStructField73 cfg junk refs_id fld (toString num_obj) st.s).2
    let r := H5Rcreate s1.file loc (refs_member num_obj)
    write_pool cfg junk refs_id loc nfields n (i + 1) rest
      ⟨s1, num_obj, refs_store st.refs (i % nfields) (i / nfields) r⟩
end

/-- The function `Mat_VarWrite73` (lines 787-1106); `none` is a NULL pointer. -/
def Mat_VarWrite73 (cfg : CConfig) (junk : Nat) (mat : Option mat_t)
    (matvar : Option matvar_t) (_compress : Int) (s : State) : Int × State :=
  match mat, matvar with
  | some m, some (matvar_t.mk v fields) =>
    if numeric_case v.class_type then
      (0, { s with file := write_numeric cfg m.fp v.name v s.file })
    else if v.class_type = MAT_C_CHAR then
      (0, { s with file := write_char cfg junk m.fp v.name v s.file })
    else if v.class_type = MAT_C_STRUCT then
      let g := H5Gcreate s.file m.fp (H5Name.rel v.name)
      if g.1.lt_zero then
        (0, Mat_Critical s ("Error creating group for struct " ++ v.name))
      else
        let f1 := H5Acreate_write g.2 g.1 "MATLAB_class" (H5Attr.str "struct")
        let nmemb := nmemb_of v
        let nfields := nfields_of v
        let f2 := H5Acreate_write f1 g.1 "MATLAB_fields"
          (H5Attr.vlen (fieldnames_of fields nfields))
        if nmemb = 1 then
          (0, write_fields cfg junk g.1 (nmemb * nfields) fields { s with file := f2 })
        else
          let p := open_refs f2 m.fp
          if p.1.lt_zero then (0, { s with file := p.2 })
          else
            let st := write_pool cfg junk p.1 m.fp nfields (nmemb * nfields) 0 fields
              ⟨{ s with file := p.2 }, junk, refs_init nfields nmemb⟩
            let mspace_id := H5Screate_simple v.rank (permute v)
            (0, { st.s with file :=
              write_ref_datasets g.1 fields nfields mspace_id st.refs st.s.file })
    else (0, s)
  | _, _ => (-1, s)

/-! ## The header decoder -/

/-- The loop of lines 707-710; `fuel` bounds the iterations and is
`num_objs - next_index` at the call, which the loop cannot exceed. -/
def skip_loop (f : H5File) (fid : hid_t) (num_objs : Nat) : Nat → Nat → Nat
  | 0, next_index => next_index
  | fuel + 1, next_index =>
    if H5Gget_objtype_by_idx f fid next_index ≠ H5G_DATASET ∧ next_index < num_objs then
      skip_loop f fid num_objs fuel (next_index + 1)
    else next_index

/-- The local buffer `dims[10]` (line 719) after
`H5Sget_simple_extent_dims`: what falls past the tenth slot is dropped. -/
def dims_buffer (shape : List Nat) : List Nat :=
  shape.take 10

/-- The copy loop of lines 737-738. -/
def copy_dims (rank : Nat) (dims : List Nat) : List Nat :=
  (List.range rank).map (fun k => dims.getD k 0)

/-- The class read of lines 742-756: the attribute has to be a string. -/
def read_class (f : H5File) (dset_id : hid_t) : Nat :=
  match H5Aopen_read f dset_id "MATLAB_class" with
  | some (H5Attr.str class_str) => Mat_class_str_to_id (some class_str)
  | _ => 0

/-- The probe of lines 764-769 for the attribute `MATLAB_global`. -/
def read_global (f : H5File) (dset_id : hid_t) : Int :=
  match H5Aopen_read f dset_id "MATLAB_global" with
  | some (H5Attr.int g) => g
  | _ => 0

/-- The function `Mat_VarReadNextInfo73` (lines 692-776): the header, or
`none` for NULL, and the handle with its cursor advanced.  `junk` is the
content of the uninitialised `num_objs`. -/
def Mat_VarReadNextInfo73 (junk : Nat) (mat : Option mat_t) (s : State) :
    Option matvar_t × Option mat_t :=
  match mat with
  | none => (none, none)
  | some m =>
    let fid := m.fp
    let num_objs := (H5Gget_num_objs s.file fid).getD junk
    let m1 : mat_t :=
      { m with next_index := skip_loop s.file fid num_objs (num_objs - m.next_index) m.next_index }
    if m1.next_index ≥ num_objs then (none, some m1)
    else
      let name := (H5Gget_objname_by_idx s.file fid m1.next_index).getD ""
      let dset_id := H5Dopen s.file fid (H5Name.rel name)
      let shape := (H5Dget_space s.file dset_id).getD []
      let rank := shape.length
      let matvar : matvar_info :=
        { Mat_VarCalloc with
          name := name
          rank := rank
          dims := copy_dims rank (dims_buffer shape)
          class_type := read_class s.file dset_id
          isGlobal := read_global s.file dset_id }
      (some (matvar_t.mk matvar []), some { m1 with next_index := m1.next_index + 1 })

/-! ## Expected results and sample inputs -/

/-- The dataset that the numeric case of the encoders is expected to leave at
`p ++ [name]`: element type of the class (the two-member record for a complex
variable), the reversed dimensions as shape, the class name as attribute and
the payload as content. -/
def numeric_dataset (cfg : CConfig) (p : List String) (name : String) (v : matvar_info) :
    H5Node :=
  { path := p ++ [name]
    kind := H5G_DATASET
    dtype :=
      if v.isComplex then H5T.compound (Mat_class_type_to_hid_t cfg v.class_type)
      else Mat_class_type_to_hid_t cfg v.class_type
    shape := v.dims.reverse
    attrs := [("MATLAB_class", H5Attr.str (Mat_class_names.getD v.class_type ""))]
    data :=
      if v.isComplex then
        H5Data.values (H5T.compound (Mat_class_type_to_hid_t cfg v.class_type))
          (interleave (permute_numel v).2 v.Re v.Im)
      else if Mat_data_type_to_hid_t cfg v.data_type = H5T.invalid then H5Data.empty
      else H5Data.values (Mat_data_type_to_hid_t cfg v.data_type) v.data }

/-- A configuration with 8-bit bytes, 2-byte `short`, 4-byte `int` and 8-byte
`long` and `long long`. -/
def cfg_lp64 : CConfig := ⟨8, 2, 4, 8, 8⟩

/-- The empty container, nothing reported. -/
def empty_state : State := ⟨[], []⟩

/-- A handle on the container root with the cursor at 0. -/
def root_mat : mat_t := ⟨hid_t.obj [], 0⟩

/-- A real numeric sample variable of a given class and storage type. -/
def sample_numeric (name : String) (class_type : Nat) (data_type : matio_types)
    (dims : List Nat) (data : List Int) : matvar_t :=
  matvar_t.mk
    { Mat_VarCalloc with
      name := name, class_type := class_type, data_type := data_type,
      rank := dims.length, dims := dims, data := data } []

/-- A sample struct variable over a field array, with 8-byte field pointers. -/
def sample_struct (name : String) (dims : List Nat) (fields : List matvar_t) : matvar_t :=
  matvar_t.mk
    { Mat_VarCalloc with
      name := name, class_type := MAT_C_STRUCT, rank := dims.length, dims := dims,
      nbytes := 8 * fields.length, data_size := 8 } fields

/-! ## Relations between containers -/

/-- The paths of the objects of a container, in creation order. -/
def H5File.paths (f : H5File) : List (List String) := f.map (fun n => n.path)

/-- A container grows into another one: the objects it has stay as they are,
objects are only appended, and paths stay pairwise distinct if they were. -/
def grows (f g : H5File) : Prop :=
  f <+: g ∧ (f.paths.Nodup → g.paths.Nodup)

/-- An engine call that acts on the object behind an identifier only: it does
nothing on a dead identifier, and on the identifier of the last object, which
no earlier object shares the path of, it changes that object alone and keeps
its path. -/
def local_op (k : hid_t → H5File → H5File) : Prop :=
  (∀ g : H5File, k hid_t.fail g = g) ∧
  (∀ (j : Nat) (g : H5File), k (hid_t.stray j) g = g) ∧
  (∀ (g : H5File) (n : H5Node), g.has n.path = false →
    ∃ n', n'.path = n.path ∧ k (hid_t.obj n.path) (g ++ [n]) = g ++ [n'])

/-- The names of the members of the group at a path, in index order. -/
def H5File.member_names (f : H5File) (p : List String) : List (Option String) :=
  (f.children p).map (fun n => n.path.getLast?)

/-- Repeated calls of `Mat_VarReadNextInfo73` on one handle: the results of
`n` calls, each made on the handle the previous one left. -/
def read_calls (junk : Nat) (s : State) : Nat → Option mat_t → List (Option matvar_t × Option mat_t)
  | 0, _ => []
  | n + 1, mat =>
    Mat_VarReadNextInfo73 junk mat s ::
      read_calls junk s n (Mat_VarReadNextInfo73 junk mat s).2

/-- The dataset members of the root group, in index order. -/
def root_datasets (f : H5File) : List H5Node :=
  (f.children []).filter (fun n => decide (n.kind = H5G_DATASET))

/-- The cursor a call left on the handle. -/
def cursor_of (r : Option matvar_t × Option mat_t) : Nat :=
  match r.2 with
  | some m => m.next_index
  | none => 0

/-- The name of a member under its group: the last component of its path. -/
def H5Node.name (n : H5Node) : String := (n.path.getLast?).getD ""

/-- A sample container: a dataset `x`, a group `g` and a dataset `y` under the
root, and a dataset `z` inside `g`. -/
def sample_file : H5File :=
  [⟨["x"], H5G_DATASET, H5T_NATIVE_DOUBLE, [3, 2],
      [("MATLAB_class", H5Attr.str "double")], H5Data.empty⟩,
   ⟨["g"], H5G_GROUP, H5T.invalid, [], [("MATLAB_class", H5Attr.str "struct")], H5Data.empty⟩,
   ⟨["g", "z"], H5G_DATASET, H5T_NATIVE_INT, [1, 1],
      [("MATLAB_class", H5Attr.str "int32")], H5Data.empty⟩,
   ⟨["y"], H5G_DATASET, H5T_NATIVE_USHORT, [4],
      [("MATLAB_class", H5Attr.str "char")], H5Data.empty⟩]

/-- A configuration has an integer type of `w` bits: one of the tests of the
preprocessor chains for that width holds. -/
def CConfig.has_width (cfg : CConfig) (w : Nat) : Prop :=
  cfg.CHAR_BIT = w ∨ cfg.CHAR_BIT * cfg.SIZEOF_SHORT = w ∨ cfg.CHAR_BIT * cfg.SIZEOF_INT = w ∨
  cfg.CHAR_BIT * cfg.SIZEOF_LONG = w ∨ cfg.CHAR_BIT * cfg.SIZEOF_LONG_LONG = w

/-- The storage types with a case in the `switch` of the char encoders. -/
def char_storage_types : List matio_types :=
  [MAT_T_UTF32, MAT_T_INT32, MAT_T_UINT32, MAT_T_UTF16, MAT_T_UTF8, MAT_T_INT16,
   MAT_T_UINT16, MAT_T_INT8, MAT_T_UINT8]

/-- The class whose element type a char dataset is expected to get: uint32 for
the storage types UTF-32, int32 and uint32, uint16 otherwise. -/
def char_storage_class (data_type : matio_types) : Nat :=
  if data_type ∈ [MAT_T_UTF32, MAT_T_INT32, MAT_T_UINT32] then MAT_C_UINT32 else MAT_C_UINT16

/-- The dataset that the char case of the encoders is expected to leave at
`p ++ [name]`. -/
def char_node (cfg : CConfig) (p : List String) (name : String) (v : matvar_info) : H5Node :=
  { path := p ++ [name]
    kind := H5G_DATASET
    dtype := Mat_class_type_to_hid_t cfg (char_storage_class v.data_type)
    shape := v.dims.reverse
    attrs := [("MATLAB_class", H5Attr.str (Mat_class_names.getD v.class_type "")),
              ("MATLAB_int_decode", H5Attr.int 2)]
    data :=
      if Mat_data_type_to_hid_t cfg v.data_type = H5T.invalid then H5Data.empty
      else H5Data.values (Mat_data_type_to_hid_t cfg v.data_type) v.data }

/-- A char sample variable of a given storage type. -/
def sample_char (name : String) (data_type : matio_types) (dims : List Nat)
    (data : List Int) : matvar_t :=
  matvar_t.mk
    { Mat_VarCalloc with
      name := name, class_type := MAT_C_CHAR, data_type := data_type,
      rank := dims.length, dims := dims, data := data } []

/-! ## Variables written in place, and what the encoders are expected to write -/

/-- No object of the container lies at or below a path. -/
def H5File.free (f : H5File) (t : List String) : Prop :=
  ∀ n ∈ f, ¬ (t <+: n.path)

instance (f : H5File) (t : List String) : Decidable (f.free t) := by
  unfold H5File.free
  infer_instance

/-- A variable that the encoders write as one dataset: a numeric array of one
of the eight classes with a case (real or complex), or a char array whose
storage type has a case; with as many dims as its rank says, at most 10. -/
def is_leaf (v : matvar_info) : Bool :=
  decide (v.rank = v.dims.length) && decide (v.rank ≤ 10) &&
  (numeric_case v.class_type ||
    (decide (v.class_type = MAT_C_CHAR) && decide (v.data_type ∈ char_storage_types)))

mutual
/-- A variable that is written in place, without the reference pool: a
dataset variable as above, or a struct of one element whose payload is its
field list, with pairwise distinct field names and fields that are written in
place themselves. -/
def plain : matvar_t → Bool
  | matvar_t.mk v fields =>
    is_leaf v ||
    (decide (v.class_type = MAT_C_STRUCT) && decide (v.rank = v.dims.length) &&
     decide (v.dims ≠ []) && decide (v.dims.prod = 1) && decide (0 < v.data_size) &&
     decide (v.nbytes = fields.length * v.data_size) &&
     decide ((fields.map matvar_t.name).Nodup) && plain_all fields)
/-- Every variable of a list is written in place. -/
def plain_all : List matvar_t → Bool
  | [] => true
  | fld :: rest => plain fld && plain_all rest
end

/-- The dataset expected for a dataset variable at `p ++ [name]`. -/
def leaf_node (cfg : CConfig) (p : List String) (name : String) (v : matvar_info) : H5Node :=
  if numeric_case v.class_type then numeric_dataset cfg p name v else char_node cfg p name v

/-- The group expected for a struct at `p ++ [name]`, with its two attributes. -/
def struct_group (p : List String) (name : String) (names : List String) : H5Node :=
  { path := p ++ [name]
    kind := H5G_GROUP
    dtype := H5T.invalid
    shape := []
    attrs := [("MATLAB_class", H5Attr.str "struct"), ("MATLAB_fields", H5Attr.vlen names)]
    data := H5Data.empty }

mutual
/-- The objects expected for a variable written in place under the name
`name` in the group at `p`: its dataset, or its group followed by the objects
of its fields, each under its field name. -/
def expected (cfg : CConfig) (p : List String) (name : String) : matvar_t → List H5Node
  | matvar_t.mk v fields =>
    if v.class_type = MAT_C_STRUCT then
      struct_group p name (fields.map matvar_t.name) :: expected_all cfg (p ++ [name]) fields
    else [leaf_node cfg p name v]
/-- The objects expected for a list of fields written in place in the group
at `q`. -/
def expected_all (cfg : CConfig) (q : List String) : List matvar_t → List H5Node
  | [] => []
  | fld :: rest => expected cfg q fld.name fld ++ expected_all cfg q rest
end

/-- The objects expected in the pool for a list of payload entries written in
place, the first under the decimal name of `i`, the next under that of
`i + 1`, and so on. -/
def expected_pool (cfg : CConfig) : Nat → List matvar_t → List H5Node
  | _, [] => []
  | i, fld :: rest => expected cfg ["#refs#"] (toString i) fld ++ expected_pool cfg (i + 1) rest

/-- The reference to the pool member with the decimal name of `i`. -/
def pool_ref (i : Nat) : hobj_ref_t := some ["#refs#", toString i]

/-- The arrays `refs[l][k]` once the entries with index `k * nfields + l`
below `i` have been written and referenced. -/
def refs_upto (nfields nmemb i : Nat) : List (List hobj_ref_t) :=
  (List.range nfields).map (fun l =>
    (List.range nmemb).map (fun k => if k * nfields + l < i then pool_ref (k * nfields + l) else none))

/-- The dataset of references expected for field `l` of a struct array at
`[name]`: element `k` refers to the pool member of payload entry
`k * nfields + l`. -/
def ref_node (name : String) (fields : List matvar_t) (dims : List Nat) (nfields nmemb l : Nat) :
    H5Node :=
  { path := [name, field_name fields l]
    kind := H5G_DATASET
    dtype := H5T_STD_REF_OBJ
    shape := dims.reverse
    attrs := []
    data := H5Data.refs ((List.range nmemb).map (fun k => pool_ref (k * nfields + l))) }

/-- The empty pool group. -/
def pool_group : H5Node :=
  { path := ["#refs#"], kind := H5G_GROUP, dtype := H5T.invalid, shape := [], attrs := [],
    data := H5Data.empty }

/-- The number that a list of decimal digit characters stands for. -/
def digits_val : List Char → Nat
  | [] => 0
  | c :: cs => (c.toNat - 48) * 10 ^ cs.length + digits_val cs

/-- The stores into `refs` made for the payload entries `i`, ..., `i + n - 1`
once each has been written to the pool under the decimal name of its index. -/
def store_range (nfields : Nat) : Nat → Nat → List (List hobj_ref_t) → List (List hobj_ref_t)
  | _, 0, refs => refs
  | i, n + 1, refs =>
    store_range nfields (i + 1) n (refs_store refs (i % nfields) (i / nfields) (pool_ref i))

/-- The values with which `Mat_VarWrite73` enters the loop of lines 1071-1081
when it writes a struct array of `nfields` fields under a name not yet used
into a container without a pool: the group of the struct and the empty pool
group have just been created, `num_obj` is uninitialised and no reference is
stored yet. -/
def loop_entry (junk : Nat) (s : State) (v : matvar_info) (fields : List matvar_t)
    (nfields : Nat) : pool_state :=
  ⟨⟨s.file ++ [struct_group [] v.name ((fields.take nfields).map matvar_t.name), pool_group],
      s.log⟩,
    junk, refs_init nfields v.dims.prod⟩

/-- A struct array with dims `[1, 2]` and two fields per element, a double
array `a` and a char array `b`; its payload lists the fields of element 0,
then those of element 1. -/
def sample_array : matvar_t :=
  sample_struct "s" [1, 2]
    [sample_numeric "a" MAT_C_DOUBLE MAT_T_DOUBLE [1, 1] [1],
     sample_char "b" MAT_T_UINT16 [1, 2] [104, 105],
     sample_numeric "a" MAT_C_DOUBLE MAT_T_DOUBLE [1, 2] [2, 3],
     sample_char "b" MAT_T_UINT8 [1, 1] [106]]

/-- A complex numeric sample variable with its two split buffers. -/
def sample_complex (name : String) (class_type : Nat) (data_type : matio_types)
    (dims : List Nat) (re im : List Int) : matvar_t :=
  matvar_t.mk
    { Mat_VarCalloc with
      name := name, class_type := class_type, data_type := data_type,
      rank := dims.length, dims := dims, isComplex := true, Re := re, Im := im } []

/-- The header that `Mat_VarReadNextInfo73` is expected to return for a
dataset member of the root: its name, the length of its shape as rank, the
shape as dims, the class that the string attribute `MATLAB_class` names and
the integer attribute `MATLAB_global`; every other member is zero. -/
def header_of (d : H5Node) : matvar_info :=
  { Mat_VarCalloc with
    name := d.name
    rank := d.shape.length
    dims := copy_dims d.shape.length (dims_buffer d.shape)
    class_type :=
      (match d.attrs.lookup "MATLAB_class" with
       | some (H5Attr.str class_str) => Mat_class_str_to_id (some class_str)
       | _ => 0)
    isGlobal :=
      (match d.attrs.lookup "MATLAB_global" with
       | some (H5Attr.int g) => g
       | _ => 0) }

/-- The value that the statement `perm_dims[k] = matvar->dims[matvar->rank-k-1]`
of the permutation loops (lines 288, 444, 571, 807, 963, 1083) stores for the
index `k`. -/
def perm_value (v : matvar_info) (k : Nat) : Nat :=
  v.dims.getD (v.rank - k - 1) 0

/-- The two slots that one iteration `perm_dims[k] = matvar->dims[matvar->rank-k-1]`
of a permutation loop uses: the slot `k` written in the ten-slot buffer
`perm_dims` (the numeric loops read the same slot back for `numel`), and the
slot read in `matvar->dims`, which the expression `matvar->rank-k-1` gives in
the arithmetic of `unsigned long`, the type of `k`, `w` bits wide. -/
def perm_access (w rank k : Nat) : Nat × Nat :=
  (k, (((rank : Int) - (k : Int) - 1) % (2 : Int) ^ w).toNat)

/-- The slots used by a permutation loop, `k` running from 0 while
`k < matvar->rank` (lines 287-290, 443-444, 570-571, 806-809, 962-963,
1082-1083). -/
def perm_accesses (w : Nat) (v : matvar_info) : List (Nat × Nat) :=
  (List.range v.rank).map (perm_access w v.rank)

/-- The slots `k` of the reads `dims[k]` that the copy loop of lines 737-738
makes in the ten-slot local buffer `dims`. -/
def copy_dims_reads (rank : Nat) : List Nat :=
  List.range rank

/-- Modulus of the arithmetic of `hsize_t`, the unsigned 64-bit size type of
the container engine, in which lines 513-516 and 1028-1031 compute `nmemb`
and `nfields`. -/
def hsize_mod : Nat := 2 ^ 64

/-- The element count `nmemb` of lines 513-515 and 1028-1030 as the machine
computes it: every product is reduced modulo `2 ^ 64`. -/
def nmemb_hsize (v : matvar_info) : Nat :=
  (List.range' 1 (v.rank - 1)).foldl (fun n k => (n * v.dims.getD k 0) % hsize_mod)
    (v.dims.getD 0 0 % hsize_mod)

/-- The field count `nfields` of lines 516 and 1031 as the machine computes
it: `none` when the divisor `nmemb*matvar->data_size` is 0 after reduction
modulo `2 ^ 64`, in which case the division traps and the function does not
return. -/
def nfields_hsize (v : matvar_info) : Option Nat :=
  if (nmemb_hsize v * v.data_size) % hsize_mod = 0 then none
  else some ((v.nbytes % hsize_mod) / ((nmemb_hsize v * v.data_size) % hsize_mod))

mutual
/-- A variable whose sizes the machine handles without wrap-around or trap: as
many dims as its rank says, at most 10; and for a struct, positive dims, a
payload of `nbytes / data_size` fields, `product(dims) * data_size` positive
and, like `nbytes`, below `2 ^ 64`, and fields of the same kind. -/
def sized : matvar_t → Bool
  | matvar_t.mk v fields =>
    decide (v.rank = v.dims.length) && decide (v.rank ≤ 10) &&
    (decide (v.class_type ≠ MAT_C_STRUCT) ||
      (decide (v.dims ≠ []) && decide (0 < v.dims.prod * v.data_size) &&
       decide (v.dims.prod * v.data_size < 2 ^ 64) && decide (v.nbytes < 2 ^ 64) &&
       decide (v.nbytes = fields.length * v.data_size) && sized_all fields))
/-- Every variable of a list is of that kind. -/
def sized_all : List matvar_t → Bool
  | [] => true
  | fld :: rest => sized fld && sized_all rest
end

/-! ## Lemmas on the dimension loops, the element types and the engine -/

theorem foldl_set_range (g : Nat → Nat) (init : List Nat) (n : Nat) (h : n ≤ init.length) :
    (List.range n).foldl (fun pd k => pd.set k (g k)) init
      = (List.range n).map g ++ init.drop n := by
  induction n with
  | zero => simp
  | succ n ih =>
    have hn : n ≤ init.length := Nat.le_of_succ_le h
    rw [List.range_succ, List.foldl_append, ih hn]
    simp only [List.foldl_cons, List.foldl_nil, List.map_append, List.map_cons, List.map_nil]
    have hlen : ((List.range n).map g).length = n := by simp
    rw [List.set_append_right _ _ (by simp)]
    simp only [hlen, Nat.sub_self, List.length_map, List.length_range]
    have hd : List.drop n init = init[n] :: List.drop (n+1) init :=
      List.drop_eq_getElem_cons (by omega)
    rw [hd, List.set_cons_zero]
    simp

theorem range_map_rev (dims : List Nat) :
    (List.range dims.length).map (fun k => dims.getD (dims.length - k - 1) 0) = dims.reverse := by
  apply List.ext_getElem
  · simp
  · intro i h1 h2
    simp at h1
    simp [List.getElem_reverse, List.getD_eq_getElem?_getD]
    rw [List.getElem?_eq_getElem (by omega)]
    simp
    congr 1
    omega

theorem space_permute (v : matvar_info) (hr : v.rank = v.dims.length) (h10 : v.rank ≤ 10) :
    H5Screate_simple v.rank (permute v) = v.dims.reverse := by
  unfold permute H5Screate_simple
  rw [foldl_set_range _ _ _ (by simp [perm_dims_init]; exact h10)]
  rw [List.take_left' (by simp)]
  rw [hr]
  exact range_map_rev v.dims

theorem foldl_pair_fst (dims : List Nat) (rank : Nat) (l : List Nat) (pd : List Nat) (acc : Nat) :
    (l.foldl (fun (st : List Nat × Nat) k =>
        let pd := st.1.set k (dims.getD (rank - k - 1) 0)
        (pd, st.2 * pd.getD k 0)) (pd, acc)).1
      = l.foldl (fun pd k => pd.set k (dims.getD (rank - k - 1) 0)) pd := by
  induction l generalizing pd acc with
  | nil => rfl
  | cons a l ih => simp only [List.foldl_cons]; exact ih _ _

theorem permute_numel_fst (v : matvar_info) : (permute_numel v).1 = permute v := by
  unfold permute_numel permute
  exact foldl_pair_fst _ _ _ _ _

theorem has_eq_false {f : H5File} {t : List String} :
    f.has t = false ↔ t ≠ [] ∧ ∀ m ∈ f, m.path ≠ t := by
  simp [H5File.has, H5File.lookup, List.find?_eq_none]

theorem map_new (f : H5File) (n : H5Node) (t : List String) (g : H5Node → H5Node)
    (h : ∀ m ∈ f, m.path ≠ t) (hg : ∀ m, m.path ≠ t → g m = m) :
    (f ++ [n]).map g = f ++ [g n] := by
  rw [List.map_append]
  congr 1
  conv_rhs => rw [← List.map_id f]
  apply List.map_congr_left
  intro m hm
  simpa using hg m (h m hm)

theorem loc_root (f : H5File) : f.loc (hid_t.obj []) = some [] := by
  simp [H5File.loc, H5File.has]

theorem is_group_root (f : H5File) : f.is_group [] = true := by
  simp [H5File.is_group]

theorem H5Dcreate_ok (f : H5File) (loc : hid_t) (p : List String) (name : String) (type : H5T)
    (space : List Nat) (hloc : f.loc loc = some p) (hg : f.is_group p = true)
    (hfresh : f.has (p ++ [name]) = false) (ht : type ≠ H5T.invalid) :
    H5Dcreate f loc (H5Name.rel name) type space
      = (hid_t.obj (p ++ [name]),
         f ++ [⟨p ++ [name], H5G_DATASET, type, space, [], H5Data.empty⟩]) := by
  simp [H5Dcreate, H5File.resolve, hloc, H5Name.rel, H5File.can_create, hg, hfresh, ht]

theorem H5Gcreate_ok (f : H5File) (loc : hid_t) (p : List String) (name : String)
    (hloc : f.loc loc = some p) (hg : f.is_group p = true)
    (hfresh : f.has (p ++ [name]) = false) :
    H5Gcreate f loc (H5Name.rel name)
      = (hid_t.obj (p ++ [name]),
         f ++ [⟨p ++ [name], H5G_GROUP, H5T.invalid, [], [], H5Data.empty⟩]) := by
  simp [H5Gcreate, H5File.resolve, hloc, H5Name.rel, H5File.can_create, hg, hfresh]

theorem H5Acreate_write_new (f : H5File) (n : H5Node) (name : String) (value : H5Attr)
    (hfresh : f.has n.path = false) (ha : n.attrs.lookup name = none) :
    H5Acreate_write (f ++ [n]) (hid_t.obj n.path) name value
      = f ++ [{ n with attrs := n.attrs ++ [(name, value)] }] := by
  unfold H5Acreate_write
  simp only
  rw [map_new f n n.path _ (has_eq_false.1 hfresh).2]
  · simp [ha]
  · intro m hm; simp [hm]

theorem H5Dwrite_new (f : H5File) (n : H5Node) (mem_type : H5T) (buf : H5Data)
    (hfresh : f.has n.path = false) (hk : n.kind = H5G_DATASET) (ht : mem_type ≠ H5T.invalid) :
    H5Dwrite (f ++ [n]) (hid_t.obj n.path) mem_type buf = f ++ [{ n with data := buf }] := by
  unfold H5Dwrite
  simp only [ht, if_false]
  rw [map_new f n n.path _ (has_eq_false.1 hfresh).2]
  · simp [hk]
  · intro m hm; simp [hm]

theorem H5Dwrite_invalid (f : H5File) (d : hid_t) (buf : H5Data) :
    H5Dwrite f d H5T.invalid buf = f := by
  unfold H5Dwrite
  cases d <;> simp

theorem case_int64_ne (cfg : CConfig) : case_int64 cfg ≠ some H5T.invalid := by
  unfold case_int64; split_ifs <;> simp

theorem case_signed_ne (cfg : CConfig) (w : Nat) : case_signed cfg w ≠ some H5T.invalid := by
  unfold case_signed; split_ifs <;> simp

theorem case_unsigned_ne (cfg : CConfig) (w : Nat) : case_unsigned cfg w ≠ some H5T.invalid := by
  unfold case_unsigned; split_ifs <;> simp

theorem fall_through_ne (l : List (Option H5T)) (t : H5T) (ht : t ≠ H5T.invalid)
    (hl : ∀ x ∈ l, x ≠ some H5T.invalid) : fall_through (l ++ [some t]) ≠ H5T.invalid := by
  induction l with
  | nil => simpa [fall_through] using ht
  | cons a l ih =>
    cases a with
    | none => simpa [fall_through] using ih (fun x hx => hl x (List.mem_cons_of_mem _ hx))
    | some u =>
      simp only [List.cons_append, fall_through]
      intro hu
      exact hl (some u) (List.mem_cons_self _ _) (by rw [hu])

theorem int_cases_drop_ne (cfg : CConfig) (h8 : cfg.CHAR_BIT = 8) (i : Nat) (hi : i ≤ 6) :
    fall_through ((int_cases cfg).drop i) ≠ H5T.invalid := by
  have hlast : case_unsigned cfg 8 = some H5T_NATIVE_UCHAR := by simp [case_unsigned, h8]
  have key : (int_cases cfg).drop i = ((int_cases cfg).take 6).drop i ++ [some H5T_NATIVE_UCHAR] := by
    rw [← hlast]
    interval_cases i <;> rfl
  rw [key]
  apply fall_through_ne _ _ (by simp)
  intro x hx
  have hx' : x ∈ (int_cases cfg).take 6 := List.mem_of_mem_drop hx
  simp only [int_cases, List.take, List.mem_cons, List.mem_singleton] at hx'
  rcases hx' with h | h | h | h | h | h | h
  · rw [h]; exact case_int64_ne cfg
  · rw [h]; exact case_signed_ne cfg _
  · rw [h]; exact case_unsigned_ne cfg _
  · rw [h]; exact case_signed_ne cfg _
  · rw [h]; exact case_unsigned_ne cfg _
  · rw [h]; exact case_signed_ne cfg _
  · simp at h

theorem class_type_valid (cfg : CConfig) (h8 : cfg.CHAR_BIT = 8) (c : Nat)
    (hc : numeric_case c = true) : Mat_class_type_to_hid_t cfg c ≠ H5T.invalid := by
  simp only [numeric_case, Bool.or_eq_true, decide_eq_true_eq] at hc
  unfold Mat_class_type_to_hid_t
  rcases hc with ((((((h | h) | h) | h) | h) | h) | h) | h <;> subst h
  · simp
  · simp [MAT_C_SINGLE, MAT_C_DOUBLE]
  · simpa [MAT_C_SINGLE, MAT_C_DOUBLE, MAT_C_INT32, MAT_C_INT64] using int_cases_drop_ne cfg h8 1 (by omega)
  · simpa [MAT_C_SINGLE, MAT_C_DOUBLE, MAT_C_INT32, MAT_C_INT64, MAT_C_UINT32] using int_cases_drop_ne cfg h8 2 (by omega)
  · simpa [MAT_C_SINGLE, MAT_C_DOUBLE, MAT_C_INT32, MAT_C_INT64, MAT_C_UINT32, MAT_C_INT16] using int_cases_drop_ne cfg h8 3 (by omega)
  · simpa [MAT_C_SINGLE, MAT_C_DOUBLE, MAT_C_INT32, MAT_C_INT64, MAT_C_UINT32, MAT_C_INT16, MAT_C_UINT16] using int_cases_drop_ne cfg h8 4 (by omega)
  · simpa [MAT_C_SINGLE, MAT_C_DOUBLE, MAT_C_INT32, MAT_C_INT64, MAT_C_UINT32, MAT_C_INT16, MAT_C_UINT16, MAT_C_INT8] using int_cases_drop_ne cfg h8 5 (by omega)
  · simpa [MAT_C_SINGLE, MAT_C_DOUBLE, MAT_C_INT32, MAT_C_INT64, MAT_C_UINT32, MAT_C_INT16, MAT_C_UINT16, MAT_C_INT8, MAT_C_UINT8] using int_cases_drop_ne cfg h8 6 (by omega)


theorem write_numeric_eq (cfg : CConfig) (f : H5File) (loc : hid_t) (p : List String)
    (name : String) (v : matvar_info)
    (hloc : f.loc loc = some p) (hg : f.is_group p = true)
    (hfresh : f.has (p ++ [name]) = false)
    (h8 : cfg.CHAR_BIT = 8) (hc : numeric_case v.class_type = true)
    (hr : v.rank = v.dims.length) (h10 : v.rank ≤ 10) :
    write_numeric cfg loc name v f = f ++ [numeric_dataset cfg p name v] := by
  have hty := class_type_valid cfg h8 v.class_type hc
  unfold write_numeric numeric_dataset
  simp only [permute_numel_fst, space_permute v hr h10]
  by_cases hcx : v.isComplex = true
  · simp only [hcx, if_true, H5Tcreate_complex, hty, if_false]
    rw [H5Dcreate_ok f loc p name _ _ hloc hg hfresh (by simp)]
    simp only
    rw [H5Acreate_write_new f _ _ _ hfresh (by simp)]
    rw [H5Dwrite_new f _ _ _ hfresh rfl (by simp)]
    simp
  · simp only [hcx, if_false]
    rw [H5Dcreate_ok f loc p name _ _ hloc hg hfresh hty]
    simp only
    rw [H5Acreate_write_new f _ _ _ hfresh (by simp)]
    by_cases hm : Mat_data_type_to_hid_t cfg v.data_type = H5T.invalid
    · simp only [hm, H5Dwrite_invalid, if_true]
      simp
    · rw [H5Dwrite_new f _ _ _ hfresh rfl hm]
      simp [hm]

theorem mem_numeric_case (c : Nat)
    (h : c ∈ [MAT_C_DOUBLE, MAT_C_SINGLE, MAT_C_INT8, MAT_C_INT16, MAT_C_INT32,
      MAT_C_UINT8, MAT_C_UINT16, MAT_C_UINT32]) : numeric_case c = true := by
  simp only [List.mem_cons, List.mem_singleton, List.not_mem_nil, or_false] at h
  simp only [numeric_case, Bool.or_eq_true, decide_eq_true_eq]
  tauto

/-! ## Lemmas on the char case -/

theorem case_unsigned_width (cfg : CConfig) (w : Nat) (h : cfg.has_width w) :
    ∃ t, case_unsigned cfg w = some t ∧ t.int_bits cfg = w ∧ t ≠ H5T.invalid := by
  unfold case_unsigned
  unfold CConfig.has_width at h
  split_ifs with h1 h2 h3 h4 h5
  · exact ⟨_, rfl, h1, by simp⟩
  · exact ⟨_, rfl, h2, by simp⟩
  · exact ⟨_, rfl, h3, by simp⟩
  · exact ⟨_, rfl, h4, by simp⟩
  · exact ⟨_, rfl, h5, by simp⟩
  · tauto

theorem uint32_type (cfg : CConfig) (h : cfg.has_width 32) :
    (Mat_class_type_to_hid_t cfg MAT_C_UINT32).int_bits cfg = 32 ∧
    Mat_class_type_to_hid_t cfg MAT_C_UINT32 ≠ H5T.invalid := by
  obtain ⟨t, h1, h2, h3⟩ := case_unsigned_width cfg 32 h
  have : Mat_class_type_to_hid_t cfg MAT_C_UINT32 = t := by
    simp [Mat_class_type_to_hid_t, MAT_C_UINT32, MAT_C_DOUBLE, MAT_C_SINGLE, MAT_C_INT64,
      MAT_C_INT32, int_cases, fall_through, h1]
  rw [this]; exact ⟨h2, h3⟩

theorem uint16_type (cfg : CConfig) (h : cfg.has_width 16) :
    (Mat_class_type_to_hid_t cfg MAT_C_UINT16).int_bits cfg = 16 ∧
    Mat_class_type_to_hid_t cfg MAT_C_UINT16 ≠ H5T.invalid := by
  obtain ⟨t, h1, h2, h3⟩ := case_unsigned_width cfg 16 h
  have : Mat_class_type_to_hid_t cfg MAT_C_UINT16 = t := by
    simp [Mat_class_type_to_hid_t, MAT_C_UINT16, MAT_C_UINT32, MAT_C_DOUBLE, MAT_C_SINGLE,
      MAT_C_INT64, MAT_C_INT32, MAT_C_INT16, int_cases, fall_through, h1]
  rw [this]; exact ⟨h2, h3⟩

theorem char_dataset_eq (cfg : CConfig) (junk : Nat) (loc : hid_t) (name : String)
    (v : matvar_info) (sp : List Nat) (f : H5File)
    (hdt : v.data_type ∈ char_storage_types) :
    char_dataset cfg junk loc name v sp f
      = H5Dcreate f loc (H5Name.rel name)
          (Mat_class_type_to_hid_t cfg (char_storage_class v.data_type)) sp := by
  unfold char_dataset char_storage_class
  simp only [char_storage_types, List.mem_cons, List.mem_singleton, List.not_mem_nil,
    or_false] at hdt
  rcases hdt with h | h | h | h | h | h | h | h | h <;> rw [h] <;> rfl

theorem write_char_eq (cfg : CConfig) (junk : Nat) (f : H5File) (loc : hid_t)
    (p : List String) (name : String) (v : matvar_info)
    (hloc : f.loc loc = some p) (hg : f.is_group p = true)
    (hfresh : f.has (p ++ [name]) = false)
    (hdt : v.data_type ∈ char_storage_types)
    (hty : Mat_class_type_to_hid_t cfg (char_storage_class v.data_type) ≠ H5T.invalid)
    (hr : v.rank = v.dims.length) (h10 : v.rank ≤ 10) :
    write_char cfg junk loc name v f = f ++ [char_node cfg p name v] := by
  unfold write_char char_node
  simp only [space_permute v hr h10, char_dataset_eq cfg junk loc name v _ f hdt]
  rw [H5Dcreate_ok f loc p name _ _ hloc hg hfresh hty]
  simp only
  rw [H5Acreate_write_new f _ _ _ hfresh (by simp)]
  rw [H5Acreate_write_new f _ "MATLAB_int_decode" _ hfresh (by simp [List.lookup])]
  by_cases hm : Mat_data_type_to_hid_t cfg v.data_type = H5T.invalid
  · simp only [hm, H5Dwrite_invalid, if_true]
    simp
  · rw [H5Dwrite_new f _ _ _ hfresh rfl hm]
    simp [hm]

theorem char_not_numeric : numeric_case MAT_C_CHAR = false := by decide

/-! ## The encoders only append objects -/

theorem grows_refl (f : H5File) : grows f f := ⟨List.prefix_refl f, id⟩

theorem grows_trans {f g h : H5File} (h1 : grows f g) (h2 : grows g h) : grows f h :=
  ⟨h1.1.trans h2.1, fun hn => h2.2 (h1.2 hn)⟩

theorem grows_append_fresh (f : H5File) (n : H5Node) (h : f.has n.path = false) :
    grows f (f ++ [n]) := by
  refine ⟨List.prefix_append f [n], fun hn => ?_⟩
  have h2 := (has_eq_false.1 h).2
  simp only [H5File.paths, List.map_append, List.map_cons, List.map_nil]
  rw [List.nodup_append]
  refine ⟨hn, by simp, ?_⟩
  intro a ha hb
  simp only [List.mem_singleton] at hb
  subst hb
  simp only [List.mem_map] at ha
  obtain ⟨m, hm, hp⟩ := ha
  exact h2 m hm hp

theorem local_attr (name : String) (value : H5Attr) :
    local_op (fun id g => H5Acreate_write g id name value) := by
  refine ⟨fun g => rfl, fun j g => rfl, fun g n hn => ?_⟩
  refine ⟨if (n.attrs.lookup name).isNone then { n with attrs := n.attrs ++ [(name, value)] } else n, ?_, ?_⟩
  · split_ifs <;> rfl
  · simp only [H5Acreate_write]
    rw [map_new g n n.path _ (has_eq_false.1 hn).2]
    · by_cases hl : (List.lookup name n.attrs).isNone = true <;> simp [hl]
    · intro m hm; simp [hm]

theorem local_write (mem_type : H5T) (buf : H5Data) :
    local_op (fun id g => H5Dwrite g id mem_type buf) := by
  refine ⟨fun g => rfl, fun j g => rfl, fun g n hn => ?_⟩
  by_cases ht : mem_type = H5T.invalid
  · exact ⟨n, rfl, by simp [H5Dwrite, ht]⟩
  · refine ⟨if n.kind = H5G_DATASET then { n with data := buf } else n, ?_, ?_⟩
    · split_ifs <;> rfl
    · simp only [H5Dwrite, ht, if_false]
      rw [map_new g n n.path _ (has_eq_false.1 hn).2]
      · by_cases hl : n.kind = H5G_DATASET <;> simp [hl]
      · intro m hm; simp [hm]

theorem local_comp {k1 k2 : hid_t → H5File → H5File} (h1 : local_op k1) (h2 : local_op k2) :
    local_op (fun id g => k2 id (k1 id g)) := by
  obtain ⟨a1, b1, c1⟩ := h1
  obtain ⟨a2, b2, c2⟩ := h2
  refine ⟨fun g => ?_, fun j g => ?_, fun g n hn => ?_⟩
  · show k2 hid_t.fail (k1 hid_t.fail g) = g
    rw [a1, a2]
  · show k2 (hid_t.stray j) (k1 (hid_t.stray j) g) = g
    rw [b1, b2]
  · obtain ⟨n1, hp1, he1⟩ := c1 g n hn
    have hn1 : g.has n1.path = false := by rw [hp1]; exact hn
    obtain ⟨n2, hp2, he2⟩ := c2 g n1 hn1
    refine ⟨n2, hp2.trans hp1, ?_⟩
    show k2 (hid_t.obj n.path) (k1 (hid_t.obj n.path) (g ++ [n])) = g ++ [n2]
    rw [he1, ← hp1, he2]

theorem can_create_fresh {f : H5File} {t : List String} (h : f.can_create t = true) :
    f.has t = false := by
  simp only [H5File.can_create, Bool.and_eq_true, Bool.not_eq_true'] at h
  exact h.2

theorem H5Dcreate_cases (f : H5File) (loc : hid_t) (name : H5Name) (type : H5T)
    (space : List Nat) :
    H5Dcreate f loc name type space = (hid_t.fail, f) ∨
    ∃ n : H5Node, f.has n.path = false ∧
      H5Dcreate f loc name type space = (hid_t.obj n.path, f ++ [n]) := by
  unfold H5Dcreate
  cases hres : f.resolve loc name with
  | none => left; rfl
  | some t =>
    simp only
    by_cases hc : (f.can_create t && decide (type ≠ H5T.invalid)) = true
    · right
      simp only [hc, if_true]
      simp only [Bool.and_eq_true] at hc
      exact ⟨⟨t, H5G_DATASET, type, space, [], H5Data.empty⟩, can_create_fresh hc.1, rfl⟩
    · left; simp only [hc, Bool.false_eq_true, if_false]

theorem H5Gcreate_cases (f : H5File) (loc : hid_t) (name : H5Name) :
    H5Gcreate f loc name = (hid_t.fail, f) ∨
    ∃ n : H5Node, f.has n.path = false ∧
      H5Gcreate f loc name = (hid_t.obj n.path, f ++ [n]) := by
  unfold H5Gcreate
  cases hres : f.resolve loc name with
  | none => left; rfl
  | some t =>
    simp only
    by_cases hc : f.can_create t = true
    · right
      simp only [hc, if_true]
      exact ⟨⟨t, H5G_GROUP, H5T.invalid, [], [], H5Data.empty⟩, can_create_fresh hc, rfl⟩
    · left; simp only [hc, Bool.false_eq_true, if_false]

theorem grows_local {k : hid_t → H5File → H5File} (hk : local_op k) (f : H5File)
    (d : hid_t × H5File)
    (hd : d = (hid_t.fail, f) ∨ (∃ j, d = (hid_t.stray j, f)) ∨
      ∃ n : H5Node, f.has n.path = false ∧ d = (hid_t.obj n.path, f ++ [n])) :
    grows f (k d.1 d.2) := by
  obtain ⟨a, b, c⟩ := hk
  rcases hd with h | ⟨j, h⟩ | ⟨n, hn, h⟩
  · rw [h]; show grows f (k hid_t.fail f); rw [a]; exact grows_refl f
  · rw [h]; show grows f (k (hid_t.stray j) f); rw [b]; exact grows_refl f
  · rw [h]
    obtain ⟨n', hp, he⟩ := c f n hn
    show grows f (k (hid_t.obj n.path) (f ++ [n]))
    rw [he]
    exact grows_append_fresh f n' (by rw [hp]; exact hn)

theorem grows_write_numeric (cfg : CConfig) (loc : hid_t) (name : String) (v : matvar_info)
    (f : H5File) : grows f (write_numeric cfg loc name v f) := by
  unfold write_numeric
  simp only
  split_ifs
  · exact grows_local (k := fun id g => H5Dwrite (H5Acreate_write g id _ _) id _ _)
      (local_comp (local_attr _ _) (local_write _ _)) f _
      ((H5Dcreate_cases f _ _ _ _).elim Or.inl (fun h => Or.inr (Or.inr h)))
  · exact grows_local (k := fun id g => H5Dwrite (H5Acreate_write g id _ _) id _ _)
      (local_comp (local_attr _ _) (local_write _ _)) f _
      ((H5Dcreate_cases f _ _ _ _).elim Or.inl (fun h => Or.inr (Or.inr h)))

theorem char_dataset_cases (cfg : CConfig) (junk : Nat) (loc : hid_t) (name : String)
    (v : matvar_info) (sp : List Nat) (f : H5File) :
    char_dataset cfg junk loc name v sp f = (hid_t.fail, f) ∨
    (∃ j, char_dataset cfg junk loc name v sp f = (hid_t.stray j, f)) ∨
    ∃ n : H5Node, f.has n.path = false ∧
      char_dataset cfg junk loc name v sp f = (hid_t.obj n.path, f ++ [n]) := by
  unfold char_dataset
  split
  all_goals first
    | exact (H5Dcreate_cases f _ _ _ _).elim Or.inl (fun h => Or.inr (Or.inr h))
    | exact Or.inr (Or.inl ⟨junk, rfl⟩)

theorem grows_write_char (cfg : CConfig) (junk : Nat) (loc : hid_t) (name : String)
    (v : matvar_info) (f : H5File) : grows f (write_char cfg junk loc name v f) := by
  unfold write_char
  simp only
  exact grows_local
    (k := fun id g => H5Dwrite (H5Acreate_write (H5Acreate_write g id _ _) id _ _) id _ _)
    (local_comp (local_comp (local_attr _ _) (local_attr _ _)) (local_write _ _)) f _
    (char_dataset_cases cfg junk loc name v _ f)


theorem grows_foldl {α : Type} (step : H5File → α → H5File)
    (hstep : ∀ g a, grows g (step g a)) (l : List α) (f : H5File) :
    grows f (l.foldl step f) := by
  induction l generalizing f with
  | nil => exact grows_refl f
  | cons a l ih => exact grows_trans (hstep f a) (ih (step f a))

theorem grows_write_ref_datasets (struct_id : hid_t) (fields : List matvar_t) (nfields : Nat)
    (sp : List Nat) (refs : List (List hobj_ref_t)) (f : H5File) :
    grows f (write_ref_datasets struct_id fields nfields sp refs f) := by
  unfold write_ref_datasets
  apply grows_foldl
  intro g l
  exact grows_local (k := fun id g => H5Dwrite g id _ _) (local_write _ _) g _
    ((H5Dcreate_cases g _ _ _ _).elim Or.inl (fun h => Or.inr (Or.inr h)))

theorem grows_open_refs (f : H5File) (loc : hid_t) : grows f (open_refs f loc).2 := by
  unfold open_refs
  by_cases ho : (H5Gopen f loc refs_name).lt_zero = true
  · simp only [ho, if_true, ne_eq, hid_t.stray.injEq, one_ne_zero, not_false_eq_true]
    rcases H5Gcreate_cases f loc refs_name with h | ⟨n, hn, h⟩
    · rw [h]; exact grows_refl f
    · rw [h]; exact grows_append_fresh f n hn
  · simp only [ho, Bool.false_eq_true, if_false, ne_eq, not_true_eq_false]
    exact grows_refl f

theorem grows_struct_head (f : H5File) (loc : hid_t) (name : String) (names : List String) :
    grows f (H5Acreate_write
      (H5Acreate_write (H5Gcreate f loc (H5Name.rel name)).2
        (H5Gcreate f loc (H5Name.rel name)).1 "MATLAB_class" (H5Attr.str "struct"))
      (H5Gcreate f loc (H5Name.rel name)).1 "MATLAB_fields" (H5Attr.vlen names)) :=
  grows_local (k := fun id g => H5Acreate_write (H5Acreate_write g id _ _) id _ _)
    (local_comp (local_attr _ _) (local_attr _ _)) f _
    ((H5Gcreate_cases f _ _).elim Or.inl (fun h => Or.inr (Or.inr h)))

mutual
theorem grows_field (cfg : CConfig) (junk : Nat) :
    ∀ (v : matvar_t) (id : hid_t) (name : String) (s : State),
      grows s.file (Mat_WriteNextStructField73 cfg junk id v name s).2.file
  | matvar_t.mk v fields, id, name, s => by
    rw [Mat_WriteNextStructField73]
    simp only
    split_ifs
    · exact grows_write_numeric cfg id name v s.file
    · exact grows_write_char cfg junk id name v s.file
    · exact grows_refl _
    · exact grows_trans (grows_struct_head s.file id name _)
        (grows_fields cfg junk fields _ _ ⟨_, _⟩)
    · exact grows_struct_head s.file id name _
    · exact grows_trans (grows_struct_head s.file id name _)
        (grows_trans (grows_pool cfg junk fields _ _ _ _ _ ⟨⟨_, _⟩, _, _⟩)
          (grows_write_ref_datasets _ _ _ _ _ _))
    · exact grows_trans (grows_struct_head s.file id name _) (grows_open_refs _ _)
    · exact grows_trans (grows_struct_head s.file id name _)
        (grows_trans (grows_open_refs _ _)
          (grows_trans (grows_pool cfg junk fields _ _ _ _ _ ⟨⟨_, _⟩, _, _⟩)
            (grows_write_ref_datasets _ _ _ _ _ _)))
    · exact grows_refl _
theorem grows_fields (cfg : CConfig) (junk : Nat) :
    ∀ (fs : List matvar_t) (struct_id : hid_t) (n : Nat) (s : State),
      grows s.file (write_fields cfg junk struct_id n fs s).file
  | [], struct_id, n, s => by
    cases n <;> (rw [write_fields]; exact grows_refl _)
  | fld :: rest, struct_id, 0, s => by
    rw [write_fields]; exact grows_refl _
  | fld :: rest, struct_id, n + 1, s => by
    rw [write_fields]
    exact grows_trans (grows_field cfg junk fld struct_id fld.name s)
      (grows_fields cfg junk rest struct_id n _)
theorem grows_pool (cfg : CConfig) (junk : Nat) :
    ∀ (fs : List matvar_t) (refs_id loc : hid_t) (nfields n i : Nat) (st : pool_state),
      grows st.s.file (write_pool cfg junk refs_id loc nfields n i fs st).s.file
  | [], refs_id, loc, nfields, n, i, st => by
    cases n <;> (rw [write_pool]; exact grows_refl _)
  | fld :: rest, refs_id, loc, nfields, 0, i, st => by
    rw [write_pool]; exact grows_refl _
  | fld :: rest, refs_id, loc, nfields, n + 1, i, st => by
    rw [write_pool]
    exact grows_trans (grows_field cfg junk fld refs_id _ st.s)
      (grows_pool cfg junk rest refs_id loc nfields n (i + 1) ⟨_, _, _⟩)
end

theorem grows_VarWrite (cfg : CConfig) (junk : Nat) (mat : Option mat_t)
    (matvar : Option matvar_t) (compress : Int) (s : State) :
    grows s.file (Mat_VarWrite73 cfg junk mat matvar compress s).2.file := by
  cases mat with
  | none => exact grows_refl _
  | some m =>
    cases matvar with
    | none => exact grows_refl _
    | some mv =>
      cases mv with
      | mk v fields =>
        simp only [Mat_VarWrite73]
        split_ifs
        · exact grows_write_numeric cfg m.fp v.name v s.file
        · exact grows_write_char cfg junk m.fp v.name v s.file
        · exact grows_refl _
        · exact grows_trans (grows_struct_head s.file m.fp v.name _)
            (grows_fields cfg junk fields _ _ ⟨_, _⟩)
        · exact grows_trans (grows_struct_head s.file m.fp v.name _) (grows_open_refs _ _)
        · exact grows_trans (grows_struct_head s.file m.fp v.name _)
            (grows_trans (grows_open_refs _ _)
              (grows_trans (grows_pool cfg junk fields _ _ _ _ _ ⟨⟨_, _⟩, _, _⟩)
                (grows_write_ref_datasets _ _ _ _ _ _)))
        · exact grows_refl _

theorem path_of_child {q p : List String} (h1 : q ≠ []) (h2 : q.dropLast = p) :
    q = p ++ [q.getLast h1] := by
  rw [← h2]; exact (List.dropLast_append_getLast h1).symm

theorem member_names_nodup (f : H5File) (p : List String) (h : f.paths.Nodup) :
    (f.member_names p).Nodup := by
  unfold H5File.member_names H5File.children
  have hsub : ((f.filter (fun n => decide (n.path ≠ []) && decide (n.path.dropLast = p))).map
      (fun n => n.path)).Nodup :=
    List.Nodup.sublist (List.Sublist.map _ (List.filter_sublist f)) h
  have : (f.filter (fun n => decide (n.path ≠ []) && decide (n.path.dropLast = p))).map
      (fun n => n.path.getLast?) =
      ((f.filter (fun n => decide (n.path ≠ []) && decide (n.path.dropLast = p))).map
        (fun n => n.path)).map List.getLast? := by
    rw [List.map_map]; rfl
  rw [this]
  apply List.Nodup.map_on _ hsub
  intro x hx y hy hxy
  simp only [List.mem_map, List.mem_filter, Bool.and_eq_true, decide_eq_true_eq] at hx hy
  obtain ⟨a, ⟨_, ha1, ha2⟩, rfl⟩ := hx
  obtain ⟨b, ⟨_, hb1, hb2⟩, rfl⟩ := hy
  rw [List.getLast?_eq_getLast _ ha1, List.getLast?_eq_getLast _ hb1, Option.some.injEq] at hxy
  rw [path_of_child ha1 ha2, path_of_child hb1 hb2, hxy]

theorem foldl_mul_range' (pre ds : List Nat) (acc : Nat) :
    (List.range' pre.length ds.length).foldl (fun n k => n * (pre ++ ds).getD k 0) acc
      = acc * ds.prod := by
  induction ds generalizing pre acc with
  | nil => simp
  | cons x ds ih =>
    simp only [List.length_cons, List.range'_succ, List.foldl_cons, List.prod_cons]
    have hx : (pre ++ x :: ds).getD pre.length 0 = x := by
      rw [List.getD_eq_getElem?_getD, List.getElem?_append_right (Nat.le_refl _)]
      simp
    rw [hx]
    have := ih (pre ++ [x]) (acc * x)
    simp only [List.length_append, List.length_singleton, List.append_assoc,
      List.singleton_append] at this
    rw [this, Nat.mul_assoc]

theorem nmemb_of_eq_prod (v : matvar_info) (hr : v.rank = v.dims.length) (hne : v.dims ≠ []) :
    nmemb_of v = v.dims.prod := by
  unfold nmemb_of
  cases hd : v.dims with
  | nil => exact absurd hd hne
  | cons d ds =>
    rw [hr, hd]
    have := foldl_mul_range' [d] ds d
    simpa using this

theorem struct_not_numeric : numeric_case MAT_C_STRUCT = false := by decide

theorem fieldnames_length (fields : List matvar_t) (n : Nat) :
    (fieldnames_of fields n).length = n := by
  simp [fieldnames_of]

/-! ## Variables written in place -/

theorem digitChar_val (k : Nat) (h : k < 10) : (Nat.digitChar k).toNat - 48 = k := by
  interval_cases k <;> rfl

theorem toDigitsCore_val (fuel n : Nat) (ds : List Char) (h : n < fuel) :
    digits_val (Nat.toDigitsCore 10 fuel n ds) = n * 10 ^ ds.length + digits_val ds := by
  induction fuel generalizing n ds with
  | zero => omega
  | succ fuel ih =>
    simp only [Nat.toDigitsCore]
    by_cases h0 : n / 10 = 0
    · simp only [h0, if_true, digits_val]
      rw [digitChar_val _ (Nat.mod_lt _ (by decide))]
      have : n % 10 = n := Nat.mod_eq_of_lt (by omega)
      rw [this]
    · simp only [h0, if_false]
      rw [ih (n / 10) _ (by omega)]
      simp only [digits_val, List.length_cons]
      rw [digitChar_val _ (Nat.mod_lt _ (by decide))]
      have hn : n = n / 10 * 10 + n % 10 := by omega
      conv_rhs => rw [hn]
      ring

theorem toString_nat_inj (a b : Nat) (h : toString a = toString b) : a = b := by
  have h1 : Nat.toDigits 10 a = Nat.toDigits 10 b := by
    have := congrArg String.data h
    simpa [toString, Nat.repr, List.asString] using this
  have h2 := congrArg digits_val h1
  simp only [Nat.toDigits] at h2
  rw [toDigitsCore_val _ _ _ (Nat.lt_succ_self a), toDigitsCore_val _ _ _ (Nat.lt_succ_self b)] at h2
  simpa [digits_val] using h2

theorem free_has {f : H5File} {t : List String} (h : f.free t) (ht : t ≠ []) :
    f.has t = false :=
  has_eq_false.2 ⟨ht, fun m hm hp => h m hm (by rw [hp])⟩

theorem free_child {f : H5File} {q : List String} (h : f.free q) (x : String) :
    f.free (q ++ [x]) :=
  fun n hn hp => h n hn ((List.prefix_append q [x]).trans hp)

theorem free_append {f g : H5File} {t : List String} (hf : f.free t) (hg : g.free t) :
    H5File.free (f ++ g) t := by
  intro n hn
  rcases List.mem_append.1 hn with h | h
  · exact hf n h
  · exact hg n h

theorem lookup_append_of_has {f : H5File} (g : H5File) {t : List String}
    (h : (f.lookup t).isSome = true) : H5File.lookup (f ++ g) t = f.lookup t := by
  unfold H5File.lookup at h ⊢
  rw [List.find?_append]
  cases hf : List.find? (fun n => decide (n.path = t)) f with
  | none => rw [hf] at h; simp at h
  | some a => simp

theorem has_append {f : H5File} (g : H5File) {t : List String} (h : f.has t = true) :
    H5File.has (f ++ g) t = true := by
  unfold H5File.has at h ⊢
  by_cases ht : t = []
  · simp [ht]
  · simp only [ht, decide_False, Bool.false_or] at h ⊢
    rw [lookup_append_of_has g h]; exact h

theorem is_group_append {f : H5File} (g : H5File) {t : List String}
    (h : f.is_group t = true) : H5File.is_group (f ++ g) t = true := by
  unfold H5File.is_group at h ⊢
  by_cases ht : t = []
  · simp [ht]
  · simp only [ht, decide_False, Bool.false_or] at h ⊢
    cases hl : f.lookup t with
    | none => rw [hl] at h; simp at h
    | some a =>
      rw [lookup_append_of_has g (by rw [hl]; rfl), hl]
      rw [hl] at h; exact h

theorem loc_append {f : H5File} (g : H5File) {id : hid_t} {p : List String}
    (h : f.loc id = some p) : H5File.loc (f ++ g) id = some p := by
  cases id with
  | fail => simp [H5File.loc] at h
  | stray j => simp [H5File.loc] at h
  | obj q =>
    simp only [H5File.loc] at h ⊢
    by_cases hq : f.has q = true
    · simp only [hq, if_true] at h
      simp only [has_append g hq, if_true]; exact h
    · simp [hq] at h

theorem lookup_new {f : H5File} (n : H5Node) (g : H5File) (h : f.has n.path = false) :
    H5File.lookup (f ++ n :: g) n.path = some n := by
  unfold H5File.lookup
  rw [List.find?_append]
  have : List.find? (fun m => decide (m.path = n.path)) f = none := by
    rw [List.find?_eq_none]
    intro m hm
    simpa using (has_eq_false.1 h).2 m hm
  rw [this]
  simp

theorem loc_new {f : H5File} (n : H5Node) (g : H5File) (h : f.has n.path = false) :
    H5File.loc (f ++ n :: g) (hid_t.obj n.path) = some n.path := by
  simp [H5File.loc, H5File.has, lookup_new n g h]

theorem is_group_new {f : H5File} (n : H5Node) (g : H5File) (h : f.has n.path = false)
    (hk : n.kind = H5G_GROUP) : H5File.is_group (f ++ n :: g) n.path = true := by
  simp [H5File.is_group, lookup_new n g h, hk]

theorem prefix_same_length {a b l : List String} (ha : a <+: l) (hb : b <+: l)
    (h : a.length = b.length) : a = b := by
  obtain ⟨x, rfl⟩ := ha
  obtain ⟨y, hy⟩ := hb
  exact (List.append_inj hy.symm h).1

theorem child_prefix_name {q l : List String} {x y : String}
    (hx : (q ++ [x]) <+: l) (hy : (q ++ [y]) <+: l) : x = y := by
  have := prefix_same_length hx hy (by simp)
  simpa using this

mutual
theorem expected_below (cfg : CConfig) :
    ∀ (mv : matvar_t) (p : List String) (name : String),
      ∀ n ∈ expected cfg p name mv, (p ++ [name]) <+: n.path
  | matvar_t.mk v fields, p, name => by
    intro n hn
    rw [expected] at hn
    split_ifs at hn with hs
    · rcases List.mem_cons.1 hn with h | h
      · rw [h]; exact List.prefix_refl _
      · obtain ⟨fld, _, hp⟩ := expected_all_below cfg fields (p ++ [name]) n h
        exact (List.prefix_append _ _).trans hp
    · rw [List.mem_singleton.1 hn]
      unfold leaf_node
      split_ifs <;> exact List.prefix_refl _
theorem expected_all_below (cfg : CConfig) :
    ∀ (fs : List matvar_t) (q : List String),
      ∀ n ∈ expected_all cfg q fs, ∃ fld ∈ fs, (q ++ [fld.name]) <+: n.path
  | [], q => by
    intro n hn
    rw [expected_all] at hn
    exact absurd hn (List.not_mem_nil _)
  | fld :: rest, q => by
    intro n hn
    rw [expected_all] at hn
    rcases List.mem_append.1 hn with h | h
    · exact ⟨fld, List.mem_cons_self _ _, expected_below cfg fld q fld.name n h⟩
    · obtain ⟨g, hg, hp⟩ := expected_all_below cfg rest q n h
      exact ⟨g, List.mem_cons_of_mem _ hg, hp⟩
end


theorem fieldnames_of_all (fields : List matvar_t) :
    fieldnames_of fields fields.length = fields.map matvar_t.name := by
  apply List.ext_getElem
  · simp [fieldnames_of]
  · intro i h1 h2
    simp only [fieldnames_of, List.getElem_map, List.getElem_range, field_name]
    simp only [List.length_map] at h2
    simp [List.getElem?_eq_getElem h2]

theorem not_prefix_longer (q : List String) (x : String) : ¬ ((q ++ [x]) <+: q) := by
  intro h
  have := h.length_le
  simp at this

theorem struct_head_eq (f : H5File) (id : hid_t) (p : List String) (name : String)
    (names : List String) (hloc : f.loc id = some p) (hg : f.is_group p = true)
    (hfresh : f.has (p ++ [name]) = false) :
    (H5Gcreate f id (H5Name.rel name)).1 = hid_t.obj (p ++ [name]) ∧
    H5Acreate_write
      (H5Acreate_write (H5Gcreate f id (H5Name.rel name)).2
        (H5Gcreate f id (H5Name.rel name)).1 "MATLAB_class" (H5Attr.str "struct"))
      (H5Gcreate f id (H5Name.rel name)).1 "MATLAB_fields" (H5Attr.vlen names)
      = f ++ [struct_group p name names] := by
  rw [H5Gcreate_ok f id p name hloc hg hfresh]
  refine ⟨rfl, ?_⟩
  simp only
  rw [H5Acreate_write_new f ⟨p ++ [name], H5G_GROUP, H5T.invalid, [], [], H5Data.empty⟩
    _ _ hfresh rfl]
  rw [H5Acreate_write_new f ⟨p ++ [name], H5G_GROUP, H5T.invalid, [],
    [] ++ [("MATLAB_class", H5Attr.str "struct")], H5Data.empty⟩ "MATLAB_fields" _ hfresh
    (by simp [List.lookup])]
  rfl

theorem leaf_not_struct (v : matvar_info) (h : v.class_type = MAT_C_STRUCT) :
    is_leaf v = false := by
  have hne : ¬ MAT_C_STRUCT = MAT_C_CHAR := by decide
  simp [is_leaf, h, struct_not_numeric, hne]

theorem uint_types_valid (cfg : CConfig) (h8 : cfg.CHAR_BIT = 8) (dt : matio_types) :
    Mat_class_type_to_hid_t cfg (char_storage_class dt) ≠ H5T.invalid := by
  unfold char_storage_class
  split_ifs
  · exact class_type_valid cfg h8 _ (by decide)
  · exact class_type_valid cfg h8 _ (by decide)

theorem write_leaf (cfg : CConfig) (junk : Nat) (h8 : cfg.CHAR_BIT = 8) (v : matvar_info)
    (fields : List matvar_t) (id : hid_t) (p : List String) (name : String) (s : State)
    (hl : is_leaf v = true) (hloc : s.file.loc id = some p) (hg : s.file.is_group p = true)
    (hfresh : s.file.has (p ++ [name]) = false) :
    Mat_WriteNextStructField73 cfg junk id (matvar_t.mk v fields) name s
      = (0, { s with file := s.file ++ [leaf_node cfg p name v] }) := by
  simp only [is_leaf, Bool.and_eq_true, Bool.or_eq_true, decide_eq_true_eq] at hl
  obtain ⟨⟨hr, h10⟩, hc⟩ := hl
  rw [Mat_WriteNextStructField73]
  unfold leaf_node
  by_cases hn : numeric_case v.class_type = true
  · simp only [hn, if_true]
    rw [write_numeric_eq cfg s.file id p name v hloc hg hfresh h8 hn hr h10]
  · have hch : v.class_type = MAT_C_CHAR ∧ v.data_type ∈ char_storage_types := by
      rcases hc with h | h
      · exact absurd h hn
      · exact h
    rw [if_neg hn, if_pos hch.1, if_neg hn]
    rw [write_char_eq cfg junk s.file id p name v hloc hg hfresh hch.2
      (uint_types_valid cfg h8 _) hr h10]

mutual
theorem write_plain (cfg : CConfig) (junk : Nat) (h8 : cfg.CHAR_BIT = 8) :
    ∀ (mv : matvar_t) (id : hid_t) (p : List String) (name : String) (s : State),
      plain mv = true → s.file.loc id = some p → s.file.is_group p = true →
      s.file.free (p ++ [name]) →
      Mat_WriteNextStructField73 cfg junk id mv name s
        = (0, { s with file := s.file ++ expected cfg p name mv })
  | matvar_t.mk v fields, id, p, name, s => by
    intro hp hloc hg hfree
    have hfresh : s.file.has (p ++ [name]) = false := free_has hfree (by simp)
    rw [plain] at hp
    rw [expected]
    by_cases hs : v.class_type = MAT_C_STRUCT
    · simp only [leaf_not_struct v hs, Bool.false_or, Bool.and_eq_true, decide_eq_true_eq] at hp
      obtain ⟨⟨⟨⟨⟨⟨⟨_, hr⟩, hd⟩, hprod⟩, hds⟩, hnb⟩, hnd⟩, hall⟩ := hp
      have hnm : nmemb_of v = 1 := by rw [nmemb_of_eq_prod v hr hd, hprod]
      have hnf : nfields_of v = fields.length := by
        unfold nfields_of
        rw [hnm, hnb, Nat.one_mul]
        exact Nat.mul_div_cancel _ hds
      obtain ⟨hid, hhead⟩ := struct_head_eq s.file id p name (fields.map matvar_t.name)
        hloc hg hfresh
      rw [Mat_WriteNextStructField73]
      have hnn : numeric_case v.class_type = false := by rw [hs]; exact struct_not_numeric
      have hnc : ¬ v.class_type = MAT_C_CHAR := by rw [hs]; decide
      rw [if_neg (by rw [hnn]; simp), if_neg hnc, if_pos hs]
      simp only [hnm, hnf, fieldnames_of_all, hhead, if_true]
      simp only [hid, hid_t.lt_zero, Bool.false_eq_true, if_false, Nat.one_mul]
      have hgn : (struct_group p name (fields.map matvar_t.name)).path = p ++ [name] := rfl
      rw [write_plain_all cfg junk h8 fields (hid_t.obj (p ++ [name])) (p ++ [name])
        ⟨s.file ++ [struct_group p name (fields.map matvar_t.name)], s.log⟩ hall hnd
        (by rw [← hgn]; exact loc_new _ [] (by rw [hgn]; exact hfresh))
        (by rw [← hgn]; exact is_group_new _ [] (by rw [hgn]; exact hfresh) rfl)
        (fun fld _ => free_append (free_child hfree _)
          (fun n hn => by
            rw [List.mem_singleton.1 hn, hgn]
            exact not_prefix_longer _ _))]
      simp [hs]
    · have hl : is_leaf v = true := by
        simpa [hs] using hp
      simp only [hs, if_false]
      exact write_leaf cfg junk h8 v fields id p name s hl hloc hg hfresh
theorem write_plain_all (cfg : CConfig) (junk : Nat) (h8 : cfg.CHAR_BIT = 8) :
    ∀ (fs : List matvar_t) (struct_id : hid_t) (q : List String) (s : State),
      plain_all fs = true → (fs.map matvar_t.name).Nodup →
      s.file.loc struct_id = some q → s.file.is_group q = true →
      (∀ fld ∈ fs, s.file.free (q ++ [fld.name])) →
      write_fields cfg junk struct_id fs.length fs s
        = { s with file := s.file ++ expected_all cfg q fs }
  | [], struct_id, q, s => by
    intro _ _ _ _ _
    simp [write_fields, expected_all]
  | fld :: rest, struct_id, q, s => by
    intro hall hnd hloc hg hfree
    rw [plain_all, Bool.and_eq_true] at hall
    rw [List.map_cons, List.nodup_cons] at hnd
    simp only [List.length_cons]
    rw [write_fields, expected_all]
    rw [write_plain cfg junk h8 fld struct_id q fld.name s hall.1 hloc hg
      (hfree fld (List.mem_cons_self _ _))]
    simp only
    rw [write_plain_all cfg junk h8 rest struct_id q _ hall.2 hnd.2
      (loc_append _ hloc) (is_group_append _ hg)
      (fun g hg' => free_append (hfree g (List.mem_cons_of_mem _ hg'))
        (fun n hn hpre => by
          have h2 := child_prefix_name (expected_below cfg fld q fld.name n hn) hpre
          exact hnd.1 (List.mem_map.2 ⟨g, hg', h2.symm⟩)))]
    simp
end

/-! ## Members of a group -/

/-- The test of `H5File.children`. -/
theorem mem_children {f : H5File} {p : List String} {n : H5Node} :
    n ∈ f.children p ↔ n ∈ f ∧ n.path ≠ [] ∧ n.path.dropLast = p := by
  simp [H5File.children, List.mem_filter]

theorem children_append (f g : H5File) (p : List String) :
    H5File.children (f ++ g) p = f.children p ++ g.children p := by
  simp [H5File.children, List.filter_append]

theorem children_nil_of_forall {g : H5File} {p : List String}
    (h : ∀ n ∈ g, ¬ (n.path ≠ [] ∧ n.path.dropLast = p)) : g.children p = [] := by
  unfold H5File.children
  rw [List.filter_eq_nil_iff]
  intro n hn
  simpa using h n hn

theorem child_is_below {n : H5Node} {p : List String}
    (h2 : n.path.dropLast = p) : p <+: n.path := by
  rw [← h2]; exact List.dropLast_prefix _

theorem children_free {f : H5File} {p : List String} (h : f.free p) : f.children p = [] :=
  children_nil_of_forall (fun n hn hc => h n hn (child_is_below hc.2))

theorem dropLast_length_of_prefix {q l : List String} {x y : String}
    (h : (q ++ [x] ++ [y]) <+: l) : l.dropLast ≠ q := by
  intro hq
  have h1 := h.length_le
  have h2 : l.dropLast.length = q.length := by rw [hq]
  simp at h1 h2
  omega

theorem expected_cons (cfg : CConfig) (p : List String) (name : String) (mv : matvar_t) :
    ∃ hd tl, expected cfg p name mv = hd :: tl ∧ hd.path = p ++ [name] ∧
      ∀ n ∈ tl, ∃ y, (p ++ [name] ++ [y]) <+: n.path := by
  cases mv with
  | mk v fields =>
    rw [expected]
    split_ifs
    · refine ⟨_, _, rfl, rfl, fun n hn => ?_⟩
      obtain ⟨fld, _, hp⟩ := expected_all_below cfg fields (p ++ [name]) n hn
      exact ⟨fld.name, hp⟩
    · refine ⟨_, [], rfl, ?_, fun n hn => absurd hn (List.not_mem_nil _)⟩
      unfold leaf_node
      split_ifs <;> rfl

theorem children_expected (cfg : CConfig) (q : List String) (name : String) (mv : matvar_t) :
    ∃ hd, H5File.children (expected cfg q name mv) q = [hd] ∧ hd.path = q ++ [name] ∧
      hd ∈ expected cfg q name mv ∧ (expected cfg q name mv).head? = some hd := by
  obtain ⟨hd, tl, he, hp, ht⟩ := expected_cons cfg q name mv
  refine ⟨hd, ?_, hp, by rw [he]; exact List.mem_cons_self _ _, by rw [he]; rfl⟩
  rw [he]
  have h1 : H5File.children (hd :: tl) q = H5File.children [hd] q ++ H5File.children tl q :=
    children_append [hd] tl q
  rw [h1]
  have h2 : H5File.children tl q = [] :=
    children_nil_of_forall (fun n hn hc => by
      obtain ⟨y, hy⟩ := ht n hn
      exact dropLast_length_of_prefix hy hc.2)
  rw [h2]
  simp [H5File.children, hp]

theorem node_name_of_path {n : H5Node} {q : List String} {x : String} (h : n.path = q ++ [x]) :
    n.name = x := by
  simp [H5Node.name, h]

theorem children_expected_all (cfg : CConfig) (q : List String) (fs : List matvar_t) :
    (H5File.children (expected_all cfg q fs) q).map H5Node.name = fs.map matvar_t.name := by
  induction fs with
  | nil => simp [expected_all, H5File.children]
  | cons fld rest ih =>
    rw [expected_all, children_append, List.map_append, ih]
    obtain ⟨hd, h1, h2, _⟩ := children_expected cfg q fld.name fld
    rw [h1]
    simp [node_name_of_path h2]

theorem children_other_root (g : H5File) (a b : String) (hab : a ≠ b)
    (h : ∀ n ∈ g, [a] <+: n.path) : g.children [b] = [] := by
  apply children_nil_of_forall
  intro n hn hc
  have h1 := h n hn
  have h2 := child_is_below hc.2
  exact hab (by simpa using prefix_same_length h1 h2 rfl)

/-! ## The pool loop on fields written in place -/

theorem has_of_mem {f : H5File} {n : H5Node} (h : n ∈ f) : f.has n.path = true := by
  unfold H5File.has H5File.lookup
  rw [Bool.or_eq_true]
  right
  rw [List.find?_isSome]
  exact ⟨n, h, by simp⟩

theorem loc_of_has {f : H5File} {p : List String} (h : f.has p = true) :
    f.loc (hid_t.obj p) = some p := by
  simp [H5File.loc, h]

theorem H5Rcreate_pool (f : H5File) (i : Nat) (h : f.has ["#refs#", toString i] = true) :
    H5Rcreate f (hid_t.obj []) (refs_member i) = pool_ref i := by
  simp [H5Rcreate, H5File.resolve, loc_root, refs_member, h, pool_ref]

theorem num_objs_pool (f : H5File) (h : f.has ["#refs#"] = true)
    (hg : f.is_group ["#refs#"] = true) :
    H5Gget_num_objs f (hid_t.obj ["#refs#"]) = some (f.children ["#refs#"]).length := by
  simp [H5Gget_num_objs, loc_of_has h, hg]

theorem write_pool_zero (cfg : CConfig) (junk : Nat) (a b : hid_t) (fc i : Nat)
    (fs : List matvar_t) (st : pool_state) :
    write_pool cfg junk a b fc 0 i fs st = st := by
  cases fs <;> rw [write_pool]

theorem write_pool_upto (cfg : CConfig) (junk : Nat) (h8 : cfg.CHAR_BIT = 8) (fc : Nat) :
    ∀ (fs : List matvar_t) (cnt i : Nat) (st : pool_state),
      cnt ≤ fs.length → plain_all fs = true →
      st.s.file.has ["#refs#"] = true → st.s.file.is_group ["#refs#"] = true →
      (st.s.file.children ["#refs#"]).length = i →
      (∀ j, i ≤ j → st.s.file.free (["#refs#"] ++ [toString j])) →
      (write_pool cfg junk (hid_t.obj ["#refs#"]) (hid_t.obj []) fc cnt i fs st).s
        = { st.s with file := st.s.file ++ expected_pool cfg i (fs.take cnt) } ∧
      (write_pool cfg junk (hid_t.obj ["#refs#"]) (hid_t.obj []) fc cnt i fs st).refs
        = store_range fc i cnt st.refs := by
  intro fs
  induction fs with
  | nil =>
    intro cnt i st hc _ _ _ _ _
    have : cnt = 0 := by simpa using hc
    subst this
    simp [write_pool, expected_pool, store_range]
  | cons fld rest ih =>
    intro cnt i st hc hall hhas hg hcnt hfree
    cases cnt with
    | zero => simp [write_pool, expected_pool, store_range]
    | succ cnt =>
      rw [plain_all, Bool.and_eq_true] at hall
      rw [write_pool, List.take_succ_cons, expected_pool, store_range]
      simp only [num_objs_pool st.s.file hhas hg, hcnt, Option.getD_some]
      have hw := write_plain cfg junk h8 fld (hid_t.obj ["#refs#"]) ["#refs#"] (toString i) st.s
        hall.1 (loc_of_has hhas) hg (hfree i (Nat.le_refl i))
      rw [hw]
      simp only
      obtain ⟨hd, hch, hpath, hmem, _⟩ := children_expected cfg ["#refs#"] (toString i) fld
      have hhas2 : H5File.has (st.s.file ++ expected cfg ["#refs#"] (toString i) fld)
          ["#refs#", toString i] = true := by
        have := has_of_mem (f := st.s.file ++ expected cfg ["#refs#"] (toString i) fld)
          (List.mem_append_right _ hmem)
        rw [hpath] at this
        exact this
      rw [H5Rcreate_pool _ i hhas2]
      obtain ⟨ih1, ih2⟩ := ih cnt (i + 1)
        ⟨{ st.s with file := st.s.file ++ expected cfg ["#refs#"] (toString i) fld }, i,
          refs_store st.refs (i % fc) (i / fc) (pool_ref i)⟩
        (by simpa using hc) hall.2 (has_append _ hhas) (is_group_append _ hg)
        (by
          simp only
          rw [children_append, List.length_append, hcnt, hch]
          rfl)
        (fun j hj => free_append (hfree j (by omega))
          (fun n hn hpre => by
            have h1 := expected_below cfg fld ["#refs#"] (toString i) n hn
            have h2 := child_prefix_name hpre h1
            have := toString_nat_inj _ _ h2
            omega))
      refine ⟨?_, ih2⟩
      rw [ih1]
      simp

theorem write_pool_plain (cfg : CConfig) (junk : Nat) (h8 : cfg.CHAR_BIT = 8) (fc : Nat)
    (fs : List matvar_t) (i : Nat) (st : pool_state)
    (hall : plain_all fs = true)
    (hhas : st.s.file.has ["#refs#"] = true) (hg : st.s.file.is_group ["#refs#"] = true)
    (hcnt : (st.s.file.children ["#refs#"]).length = i)
    (hfree : ∀ j, i ≤ j → st.s.file.free (["#refs#"] ++ [toString j])) :
    (write_pool cfg junk (hid_t.obj ["#refs#"]) (hid_t.obj []) fc fs.length i fs st).s
      = { st.s with file := st.s.file ++ expected_pool cfg i fs } ∧
    (write_pool cfg junk (hid_t.obj ["#refs#"]) (hid_t.obj []) fc fs.length i fs st).refs
      = store_range fc i fs.length st.refs := by
  have h := write_pool_upto cfg junk h8 fc fs fs.length i st (Nat.le_refl _) hall hhas hg hcnt
    hfree
  rw [List.take_length] at h
  exact h

theorem set_map_range {β : Type} (n k0 : Nat) (g : Nat → β) (x : β) :
    ((List.range n).map g).set k0 x = (List.range n).map (fun k => if k = k0 then x else g k) := by
  apply List.ext_getElem
  · simp
  · intro j h1 h2
    simp only [List.length_set, List.length_map, List.length_range] at h1
    simp only [List.getElem_set, List.getElem_map, List.getElem_range]
    by_cases hj : k0 = j
    · simp [hj]
    · have : ¬ j = k0 := fun h => hj h.symm
      simp [hj, this]

theorem getD_map_range {β : Type} (n l : Nat) (g : Nat → β) (d : β) (h : l < n) :
    ((List.range n).map g).getD l d = g l := by
  simp [List.getD_eq_getElem?_getD, List.getElem?_eq_getElem, h]

theorem index_split {fc k l k0 l0 : Nat} (hl : l < fc) (hl0 : l0 < fc) :
    k * fc + l = k0 * fc + l0 ↔ (k = k0 ∧ l = l0) := by
  constructor
  · intro h
    have h1 : (k * fc + l) / fc = k := by
      rw [Nat.mul_comm, Nat.mul_add_div (by omega), Nat.div_eq_of_lt hl, Nat.add_zero]
    have h2 : (k0 * fc + l0) / fc = k0 := by
      rw [Nat.mul_comm, Nat.mul_add_div (by omega), Nat.div_eq_of_lt hl0, Nat.add_zero]
    have hk : k = k0 := by rw [← h1, ← h2, h]
    subst hk
    exact ⟨rfl, by omega⟩
  · rintro ⟨rfl, rfl⟩; rfl

theorem refs_store_upto (fc n i : Nat) (hi : i < n * fc) :
    refs_store (refs_upto fc n i) (i % fc) (i / fc) (pool_ref i) = refs_upto fc n (i + 1) := by
  have hfc : 0 < fc := by
    rcases Nat.eq_zero_or_pos fc with h | h
    · rw [h] at hi; simp at hi
    · exact h
  have hl0 : i % fc < fc := Nat.mod_lt _ hfc
  have hk0 : i / fc < n := by
    rw [Nat.div_lt_iff_lt_mul hfc]; exact hi
  have hi' : i / fc * fc + i % fc = i := by
    rw [Nat.mul_comm]; exact Nat.div_add_mod i fc
  unfold refs_store refs_upto pool_ref
  simp only
  rw [getD_map_range fc (i % fc) _ _ hl0, set_map_range, set_map_range]
  apply List.map_congr_left
  intro l hl
  have hlt : l < fc := List.mem_range.1 hl
  by_cases hll : l = i % fc
  · simp only [hll, if_true]
    apply List.map_congr_left
    intro k hk
    by_cases hkk : k = i / fc
    · simp [hkk, hi']
    · have hne : k * fc + i % fc ≠ i := by
        intro h
        exact hkk ((index_split hl0 hl0).1 (h.trans hi'.symm)).1
      simp only [hkk, if_false]
      have : (k * fc + i % fc < i + 1) ↔ (k * fc + i % fc < i) := by omega
      simp only [this]
  · simp only [hll, if_false]
    apply List.map_congr_left
    intro k hk
    have hne : k * fc + l ≠ i := by
      intro h
      exact hll ((index_split hlt hl0).1 (h.trans hi'.symm)).2
    have : (k * fc + l < i + 1) ↔ (k * fc + l < i) := by omega
    simp only [this]

theorem store_range_upto (fc n : Nat) :
    ∀ (cnt i : Nat), i + cnt ≤ n * fc →
      store_range fc i cnt (refs_upto fc n i) = refs_upto fc n (i + cnt) := by
  intro cnt
  induction cnt with
  | zero => intro i _; rfl
  | succ cnt ih =>
    intro i h
    rw [store_range, refs_store_upto fc n i (by omega), ih (i + 1) (by omega)]
    congr 1
    omega

theorem refs_init_upto (fc n : Nat) : refs_init fc n = refs_upto fc n 0 := by
  unfold refs_init refs_upto
  apply List.ext_getElem
  · simp
  · intro l h1 h2
    simp only [List.getElem_replicate, List.getElem_map, List.getElem_range]
    apply List.ext_getElem
    · simp
    · intro k h3 h4
      simp

theorem refs_final_row (fc n l : Nat) (hl : l < fc) :
    (refs_upto fc n (n * fc)).getD l []
      = (List.range n).map (fun k => pool_ref (k * fc + l)) := by
  unfold refs_upto
  rw [getD_map_range fc l _ _ hl]
  apply List.map_congr_left
  intro k hk
  have hk' : k < n := List.mem_range.1 hk
  have : k * fc + l < n * fc := by
    calc k * fc + l < k * fc + fc := by omega
      _ = (k + 1) * fc := by ring
      _ ≤ n * fc := Nat.mul_le_mul_right _ hk'
  simp [this]

theorem expected_pool_range (cfg : CConfig) :
    ∀ (fs : List matvar_t) (i : Nat), ∀ n ∈ expected_pool cfg i fs,
      ∃ j, i ≤ j ∧ j < i + fs.length ∧ (["#refs#"] ++ [toString j]) <+: n.path := by
  intro fs
  induction fs with
  | nil => intro i n hn; simp [expected_pool] at hn
  | cons fld rest ih =>
    intro i n hn
    rw [expected_pool] at hn
    rcases List.mem_append.1 hn with h | h
    · exact ⟨i, Nat.le_refl i, by simp, expected_below cfg fld ["#refs#"] (toString i) n h⟩
    · obtain ⟨j, h1, h2, h3⟩ := ih (i + 1) n h
      exact ⟨j, by omega, by simp only [List.length_cons]; omega, h3⟩

theorem lookup_append_of_not_has {f : H5File} (g : H5File) {t : List String}
    (h : ∀ m ∈ f, m.path ≠ t) : H5File.lookup (f ++ g) t = g.lookup t := by
  unfold H5File.lookup
  rw [List.find?_append]
  have : List.find? (fun n => decide (n.path = t)) f = none := by
    rw [List.find?_eq_none]
    intro m hm
    simpa using h m hm
  rw [this]
  rfl

theorem lookup_expected_pool (cfg : CConfig) :
    ∀ (fs : List matvar_t) (i k : Nat) (fld : matvar_t), fs.get? k = some fld →
      H5File.lookup (expected_pool cfg i fs) ["#refs#", toString (i + k)]
        = (expected cfg ["#refs#"] (toString (i + k)) fld).head? := by
  intro fs
  induction fs with
  | nil => intro i k fld h; simp at h
  | cons f0 rest ih =>
    intro i k fld h
    rw [expected_pool]
    cases k with
    | zero =>
      simp only [List.get?_cons_zero, Option.some.injEq] at h
      subst h
      simp only [Nat.add_zero]
      obtain ⟨hd, hch, hpath, hmem, hhead⟩ := children_expected cfg ["#refs#"] (toString i) f0
      rw [lookup_append_of_has, hhead]
      · obtain ⟨hd', tl, he, hp, _⟩ := expected_cons cfg ["#refs#"] (toString i) f0
        rw [he] at hhead ⊢
        simp only [List.head?_cons, Option.some.injEq] at hhead
        subst hhead
        simp [H5File.lookup, hp]
      · obtain ⟨hd', tl, he, hp, _⟩ := expected_cons cfg ["#refs#"] (toString i) f0
        rw [he]
        simp [H5File.lookup, hp]
    | succ k =>
      simp only [List.get?_cons_succ] at h
      rw [lookup_append_of_not_has]
      · have := ih (i + 1) k fld h
        rw [show i + 1 + k = i + (k + 1) by omega] at this
        exact this
      · intro m hm hp
        have h1 := expected_below cfg f0 ["#refs#"] (toString i) m hm
        rw [hp] at h1
        have h2 : toString i = toString (i + (k + 1)) := by simpa using h1
        have := toString_nat_inj _ _ h2
        omega

theorem lookup_of_mem_nodup :
    ∀ (f : H5File) (n : H5Node), f.paths.Nodup → n ∈ f → f.lookup n.path = some n := by
  intro f
  induction f with
  | nil => intro n _ h; simp at h
  | cons a rest ih =>
    intro n hnd hn
    simp only [H5File.paths, List.map_cons, List.nodup_cons] at hnd
    rcases List.mem_cons.1 hn with h | h
    · subst h
      simp [H5File.lookup]
    · have hne : a.path ≠ n.path := by
        intro he
        exact hnd.1 (by rw [he]; exact List.mem_map.2 ⟨n, h, rfl⟩)
      have := ih n hnd.2 h
      simp only [H5File.lookup] at this ⊢
      rw [List.find?_cons_of_neg _ (by simpa using hne)]
      exact this

theorem write_ref_datasets_eq (name : String) (fields : List matvar_t) (dims : List Nat)
    (fc n : Nat) (refs : List (List hobj_ref_t)) (F : H5File)
    (hrow : ∀ l, l < fc → refs.getD l [] = (List.range n).map (fun k => pool_ref (k * fc + l)))
    (hhas : F.has [name] = true) (hg : F.is_group [name] = true)
    (hfresh : ∀ l, l < fc → ∀ m ∈ F, m.path ≠ [name, field_name fields l])
    (hnd : (fieldnames_of fields fc).Nodup) :
    write_ref_datasets (hid_t.obj [name]) fields fc dims.reverse refs F
      = F ++ (List.range fc).map (ref_node name fields dims fc n) := by
  unfold write_ref_datasets
  have key : ∀ m, m ≤ fc →
      (List.range m).foldl
        (fun g l =>
          H5Dwrite (H5Dcreate g (hid_t.obj [name]) (H5Name.rel (field_name fields l))
              H5T_STD_REF_OBJ dims.reverse).2
            (H5Dcreate g (hid_t.obj [name]) (H5Name.rel (field_name fields l))
              H5T_STD_REF_OBJ dims.reverse).1 H5T_STD_REF_OBJ (H5Data.refs (refs.getD l []))) F
        = F ++ (List.range m).map (ref_node name fields dims fc n) := by
    intro m
    induction m with
    | zero => intro _; simp
    | succ m ih =>
      intro hm
      have hm' : m < fc := by omega
      rw [List.range_succ, List.foldl_append, ih (by omega)]
      simp only [List.foldl_cons, List.foldl_nil, List.map_append, List.map_cons, List.map_nil]
      have hfr : H5File.has (F ++ (List.range m).map (ref_node name fields dims fc n))
          ([name] ++ [field_name fields m]) = false := by
        rw [has_eq_false]
        refine ⟨by simp, fun x hx => ?_⟩
        rcases List.mem_append.1 hx with h | h
        · exact hfresh m hm' x h
        · obtain ⟨l, hl, rfl⟩ := List.mem_map.1 h
          have hl' : l < m := List.mem_range.1 hl
          intro hp
          have hp' : field_name fields l = field_name fields m := by
            simpa [ref_node] using hp
          unfold fieldnames_of at hnd
          have hinj := (List.nodup_map_iff_inj_on (List.nodup_range fc)).1 hnd
          have := hinj l (List.mem_range.2 (by omega)) m (List.mem_range.2 hm') hp'
          omega
      rw [H5Dcreate_ok _ (hid_t.obj [name]) [name] (field_name fields m) _ _
        (loc_of_has (has_append _ hhas)) (is_group_append _ hg) hfr (by simp)]
      simp only
      rw [H5Dwrite_new _ _ _ _ hfr rfl (by simp), hrow m hm']
      simp [ref_node]
  exact key fc (Nat.le_refl fc)

theorem fieldnames_of_take (fields : List matvar_t) (fc : Nat) (h : fc ≤ fields.length) :
    fieldnames_of fields fc = (fields.take fc).map matvar_t.name := by
  apply List.ext_getElem
  · simp [fieldnames_of, h]
  · intro i h1 h2
    simp only [fieldnames_of, List.length_map, List.length_range] at h1
    simp only [fieldnames_of, List.getElem_map, List.getElem_range, field_name, List.getElem_take]
    simp [List.getElem?_eq_getElem (show i < fields.length by omega)]

theorem open_refs_absent (f : H5File) (h : f.has ["#refs#"] = false) :
    open_refs f (hid_t.obj []) = (hid_t.obj ["#refs#"], f ++ [pool_group]) := by
  have hl : f.lookup ["#refs#"] = none := by
    simpa [H5File.has] using h
  have hg : f.is_group ["#refs#"] = false := by
    simp [H5File.is_group, hl]
  have ho : H5Gopen f (hid_t.obj []) refs_name = hid_t.fail := by
    simp [H5Gopen, H5File.resolve, loc_root, refs_name, hg]
  have hc : H5Gcreate f (hid_t.obj []) refs_name = (hid_t.obj ["#refs#"], f ++ [pool_group]) := by
    simp [H5Gcreate, H5File.resolve, loc_root, refs_name, H5File.can_create, is_group_root, h,
      pool_group]
  unfold open_refs
  simp [ho, hid_t.lt_zero, hc]

theorem expected_pool_below (cfg : CConfig) :
    ∀ (fs : List matvar_t) (i : Nat), ∀ n ∈ expected_pool cfg i fs, ["#refs#"] <+: n.path := by
  intro fs
  induction fs with
  | nil => intro i n hn; simp [expected_pool] at hn
  | cons fld rest ih =>
    intro i n hn
    rw [expected_pool] at hn
    rcases List.mem_append.1 hn with h | h
    · exact (List.prefix_append _ _).trans (expected_below cfg fld ["#refs#"] (toString i) n h)
    · exact ih (i + 1) n h

theorem children_expected_pool (cfg : CConfig) :
    ∀ (fs : List matvar_t) (i : Nat),
      (H5File.children (expected_pool cfg i fs) ["#refs#"]).map H5Node.name
        = (List.range' i fs.length).map (fun j => toString j) := by
  intro fs
  induction fs with
  | nil => intro i; simp [expected_pool, H5File.children]
  | cons fld rest ih =>
    intro i
    rw [expected_pool, children_append, List.map_append, ih (i + 1)]
    obtain ⟨hd, h1, h2, _⟩ := children_expected cfg ["#refs#"] (toString i) fld
    rw [h1]
    simp [node_name_of_path h2, List.range'_succ]


theorem struct_array_eq (cfg : CConfig) (junk : Nat) (m : mat_t)
    (v : matvar_info) (fields : List matvar_t) (compress : Int) (s : State) (fc : Nat)
    (h8 : cfg.CHAR_BIT = 8) (hroot : m.fp = hid_t.obj [])
    (hclass : v.class_type = MAT_C_STRUCT)
    (hrank : v.rank = v.dims.length) (h10 : v.rank ≤ 10) (hdims : v.dims ≠ [])
    (hmany : 1 < v.dims.prod)
    (hsize : 0 < v.data_size) (hbytes : v.nbytes = fields.length * v.data_size)
    (hlen : fields.length = v.dims.prod * fc)
    (hplain : plain_all fields = true)
    (hnames : ((fields.take fc).map matvar_t.name).Nodup)
    (hname : v.name ≠ "#refs#") (hfree : s.file.free [v.name])
    (hpool : s.file.free ["#refs#"]) :
    Mat_VarWrite73 cfg junk (some m) (some (matvar_t.mk v fields)) compress s
      = (0, { s with file := s.file ++
          (struct_group [] v.name ((fields.take fc).map matvar_t.name) :: pool_group ::
            (expected_pool cfg 0 fields ++
              (List.range fc).map (ref_node v.name fields v.dims fc v.dims.prod))) }) := by
  have hfresh : s.file.has [v.name] = false := free_has hfree (by simp)
  have hnm : nmemb_of v = v.dims.prod := nmemb_of_eq_prod v hrank hdims
  have hfcle : fc ≤ fields.length := by
    rw [hlen]; exact Nat.le_mul_of_pos_left fc (by omega)
  have hnf : nfields_of v = fc := by
    unfold nfields_of
    rw [hnm, hbytes, hlen, Nat.mul_right_comm]
    exact Nat.mul_div_cancel_left _ (Nat.mul_pos (by omega) hsize)
  obtain ⟨hid, hhead⟩ := struct_head_eq s.file (hid_t.obj []) [] v.name
    ((fields.take fc).map matvar_t.name) (loc_root _) (is_group_root _) (by simpa using hfresh)
  have hnn : numeric_case v.class_type = false := by rw [hclass]; exact struct_not_numeric
  have hnc : ¬ v.class_type = MAT_C_CHAR := by rw [hclass]; decide
  have hne1 : ¬ v.dims.prod = 1 := by omega
  have hgn : (struct_group [] v.name ((fields.take fc).map matvar_t.name)).path = [v.name] := rfl
  -- the container once the group of the struct is there
  have hf2R : H5File.has (s.file ++ [struct_group [] v.name ((fields.take fc).map matvar_t.name)])
      ["#refs#"] = false := by
    rw [has_eq_false]
    refine ⟨by simp, fun x hx => ?_⟩
    rcases List.mem_append.1 hx with h | h
    · exact fun hp => hpool x h (by rw [hp])
    · rw [List.mem_singleton.1 h, hgn]
      intro hp
      exact hname (by simpa using hp)
  have hopen := open_refs_absent _ hf2R
  -- the container at the entry of the loop
  have hpg : pool_group.path = ["#refs#"] := rfl
  have hF3has : H5File.has
      (s.file ++ [struct_group [] v.name ((fields.take fc).map matvar_t.name)] ++ [pool_group])
      ["#refs#"] = true := by
    have := has_of_mem (f := s.file ++
      [struct_group [] v.name ((fields.take fc).map matvar_t.name)] ++ [pool_group])
      (n := pool_group) (by simp)
    exact this
  have hF3grp : H5File.is_group
      (s.file ++ [struct_group [] v.name ((fields.take fc).map matvar_t.name)] ++ [pool_group])
      ["#refs#"] = true := by
    have := is_group_new pool_group [] (by rw [hpg]; exact hf2R) rfl
    rw [hpg] at this
    exact this
  have hF3cnt : (H5File.children
      (s.file ++ [struct_group [] v.name ((fields.take fc).map matvar_t.name)] ++ [pool_group])
      ["#refs#"]).length = 0 := by
    rw [children_append, children_append, children_free hpool]
    simp [H5File.children, struct_group, pool_group]
  have hF3free : ∀ j, 0 ≤ j → H5File.free
      (s.file ++ [struct_group [] v.name ((fields.take fc).map matvar_t.name)] ++ [pool_group])
      (["#refs#"] ++ [toString j]) := by
    intro j _
    refine free_append (free_append (free_child hpool _) ?_) ?_
    · intro n hn hp
      rw [List.mem_singleton.1 hn, hgn] at hp
      have := hp.length_le
      simp at this
    · intro n hn hp
      rw [List.mem_singleton.1 hn, hpg] at hp
      have := hp.length_le
      simp at this
  obtain ⟨hw1, hw2⟩ := write_pool_plain cfg junk h8 fc fields 0
    ⟨⟨s.file ++ [struct_group [] v.name ((fields.take fc).map matvar_t.name)] ++ [pool_group],
      s.log⟩, junk, refs_init fc v.dims.prod⟩
    hplain hF3has hF3grp hF3cnt hF3free
  simp only at hw1 hw2
  rw [hlen] at hw1 hw2
  have hw3 : store_range fc 0 (v.dims.prod * fc) (refs_init fc v.dims.prod)
      = refs_upto fc v.dims.prod (v.dims.prod * fc) := by
    rw [refs_init_upto, store_range_upto fc v.dims.prod (v.dims.prod * fc) 0 (by omega),
      Nat.zero_add]
  rw [hw3] at hw2
  -- the datasets of references
  have hrefds := write_ref_datasets_eq v.name fields v.dims fc v.dims.prod
    (refs_upto fc v.dims.prod (v.dims.prod * fc))
    (s.file ++ [struct_group [] v.name ((fields.take fc).map matvar_t.name)] ++ [pool_group]
      ++ expected_pool cfg 0 fields)
    (fun l hl => refs_final_row fc v.dims.prod l hl)
    (by
      have := has_of_mem (f := s.file ++
        [struct_group [] v.name ((fields.take fc).map matvar_t.name)] ++ [pool_group]
          ++ expected_pool cfg 0 fields)
        (n := struct_group [] v.name ((fields.take fc).map matvar_t.name)) (by simp)
      exact this)
    (by
      have := is_group_new (f := s.file)
        (struct_group [] v.name ((fields.take fc).map matvar_t.name))
        ([pool_group] ++ expected_pool cfg 0 fields) (by rw [hgn]; exact hfresh) rfl
      rw [hgn] at this
      simpa using this)
    (by
      intro l _ x hx hp
      simp only [List.mem_append, List.mem_singleton] at hx
      rcases hx with ((h | h) | h) | h
      · exact hfree x h (by rw [hp]; exact List.prefix_append [v.name] [_])
      · rw [h, hgn] at hp; simp at hp
      · rw [h, hpg] at hp; simp at hp
      · have := expected_pool_below cfg fields 0 x h
        rw [hp] at this
        have h2 : "#refs#" = v.name := by simpa using this
        exact hname h2.symm)
    (by rw [fieldnames_of_take fields fc hfcle]; exact hnames)
  simp only [Mat_VarWrite73]
  rw [if_neg (by rw [hnn]; simp), if_neg hnc, if_pos hclass, hroot]
  simp only [hnm, hnf, fieldnames_of_take fields fc hfcle, hhead, hne1, if_false]
  simp only [hid, hid_t.lt_zero, Bool.false_eq_true, if_false, hopen]
  rw [hw1, hw2, space_permute v hrank h10]
  simp only [List.nil_append]
  rw [hrefds]
  simp

theorem expected_pool_append (cfg : CConfig) :
    ∀ (a b : List matvar_t) (i : Nat),
      expected_pool cfg i (a ++ b)
        = expected_pool cfg i a ++ expected_pool cfg (i + a.length) b := by
  intro a
  induction a with
  | nil => intro b i; simp [expected_pool]
  | cons x a ih =>
    intro b i
    rw [List.cons_append, expected_pool, expected_pool, ih b (i + 1), List.append_assoc,
      List.length_cons, show i + 1 + a.length = i + (a.length + 1) by omega]

theorem expected_pool_take_succ (cfg : CConfig) (fs : List matvar_t) (i : Nat) (fld : matvar_t)
    (h : fs.get? i = some fld) :
    expected_pool cfg 0 (fs.take (i + 1))
      = expected_pool cfg 0 (fs.take i) ++ expected cfg ["#refs#"] (toString i) fld := by
  have hi : i < fs.length := by
    by_contra hc
    rw [List.get?_eq_none.2 (by omega)] at h
    exact Option.noConfusion h
  rw [List.take_succ, expected_pool_append]
  simp only [List.get?_eq_getElem?] at h
  simp [h, expected_pool, List.length_take, Nat.min_eq_left (Nat.le_of_lt hi)]

theorem store_range_succ (fc : Nat) :
    ∀ (c i0 : Nat) (r : List (List hobj_ref_t)),
      store_range fc i0 (c + 1) r
        = refs_store (store_range fc i0 c r) ((i0 + c) % fc) ((i0 + c) / fc)
            (pool_ref (i0 + c)) := by
  intro c
  induction c with
  | zero => intro i0 r; simp [store_range]
  | succ c ih =>
    intro i0 r
    rw [store_range, ih (i0 + 1), store_range]
    rw [show i0 + 1 + c = i0 + (c + 1) by omega]

theorem index_div_mod {fc e f : Nat} (hf : f < fc) :
    (e * fc + f) % fc = f ∧ (e * fc + f) / fc = e := by
  constructor
  · rw [Nat.mul_comm, Nat.mul_add_mod]; exact Nat.mod_eq_of_lt hf
  · rw [Nat.mul_comm, Nat.mul_add_div (by omega), Nat.div_eq_of_lt hf, Nat.add_zero]

theorem index_lt {n fc e f : Nat} (he : e < n) (hf : f < fc) : e * fc + f < n * fc := by
  calc e * fc + f < e * fc + fc := by omega
    _ = (e + 1) * fc := by ring
    _ ≤ n * fc := Nat.mul_le_mul_right _ he

theorem ref_nodes_paths_nodup (name : String) (fields : List matvar_t) (dims : List Nat)
    (fc n : Nat) (hnd : (fieldnames_of fields fc).Nodup) :
    H5File.paths ((List.range fc).map (ref_node name fields dims fc n)) |>.Nodup := by
  have h1 : H5File.paths ((List.range fc).map (ref_node name fields dims fc n))
      = (fieldnames_of fields fc).map (fun x => [name, x]) := by
    simp [H5File.paths, fieldnames_of, List.map_map, ref_node, Function.comp_def]
  rw [h1]
  apply List.Nodup.map _ hnd
  intro a b hab
  simpa using hab


theorem loop_entry_ok (junk : Nat) (s : State) (v : matvar_info) (fields : List matvar_t)
    (fc : Nat) (hname : v.name ≠ "#refs#") (hfree : s.file.free [v.name])
    (hpool : s.file.free ["#refs#"]) :
    (loop_entry junk s v fields fc).s.file.has ["#refs#"] = true ∧
    (loop_entry junk s v fields fc).s.file.is_group ["#refs#"] = true ∧
    ((loop_entry junk s v fields fc).s.file.children ["#refs#"]).length = 0 ∧
    (∀ j, 0 ≤ j → (loop_entry junk s v fields fc).s.file.free (["#refs#"] ++ [toString j])) ∧
    (loop_entry junk s v fields fc).s.file.free [v.name, "#refs#"] := by
  have hgn : (struct_group [] v.name ((fields.take fc).map matvar_t.name)).path = [v.name] := rfl
  have hpg : pool_group.path = ["#refs#"] := rfl
  have hf2R : H5File.has (s.file ++ [struct_group [] v.name ((fields.take fc).map matvar_t.name)])
      ["#refs#"] = false := by
    rw [has_eq_false]
    refine ⟨by simp, fun x hx => ?_⟩
    rcases List.mem_append.1 hx with h | h
    · exact fun hp => hpool x h (by rw [hp])
    · rw [List.mem_singleton.1 h, hgn]
      intro hp
      exact hname (by simpa using hp)
  have heq : (loop_entry junk s v fields fc).s.file
      = s.file ++ [struct_group [] v.name ((fields.take fc).map matvar_t.name)] ++ [pool_group] := by
    simp [loop_entry]
  rw [heq]
  refine ⟨?_, ?_, ?_, ?_, ?_⟩
  · exact has_of_mem (n := pool_group) (by simp)
  · have := is_group_new pool_group [] (by rw [hpg]; exact hf2R) rfl
    rw [hpg] at this
    exact this
  · rw [children_append, children_append, children_free hpool]
    simp [H5File.children, struct_group, pool_group]
  · intro j _
    refine free_append (free_append (free_child hpool _) ?_) ?_
    · intro n hn hp
      rw [List.mem_singleton.1 hn, hgn] at hp
      have := hp.length_le
      simp at this
    · intro n hn hp
      rw [List.mem_singleton.1 hn, hpg] at hp
      have := hp.length_le
      simp at this
  · refine free_append (free_append (free_child hfree _) ?_) ?_
    · intro n hn hp
      rw [List.mem_singleton.1 hn, hgn] at hp
      have := hp.length_le
      simp at this
    · intro n hn hp
      rw [List.mem_singleton.1 hn, hpg] at hp
      have := hp.length_le
      simp at this

theorem struct_array_unfold (cfg : CConfig) (junk : Nat) (m : mat_t)
    (v : matvar_info) (fields : List matvar_t) (compress : Int) (s : State) (fc : Nat)
    (hroot : m.fp = hid_t.obj [])
    (hclass : v.class_type = MAT_C_STRUCT)
    (hrank : v.rank = v.dims.length) (h10 : v.rank ≤ 10) (hdims : v.dims ≠ [])
    (hmany : 1 < v.dims.prod)
    (hsize : 0 < v.data_size) (hbytes : v.nbytes = fields.length * v.data_size)
    (hlen : fields.length = v.dims.prod * fc)
    (hname : v.name ≠ "#refs#") (hfree : s.file.free [v.name])
    (hpool : s.file.free ["#refs#"]) :
    Mat_VarWrite73 cfg junk (some m) (some (matvar_t.mk v fields)) compress s
      = (0,
         { (write_pool cfg junk (hid_t.obj ["#refs#"]) (hid_t.obj []) fc (v.dims.prod * fc) 0
              fields (loop_entry junk s v fields fc)).s with
           file :=
             write_ref_datasets (hid_t.obj [v.name]) fields fc v.dims.reverse
               (write_pool cfg junk (hid_t.obj ["#refs#"]) (hid_t.obj []) fc (v.dims.prod * fc) 0
                 fields (loop_entry junk s v fields fc)).refs
               (write_pool cfg junk (hid_t.obj ["#refs#"]) (hid_t.obj []) fc (v.dims.prod * fc) 0
                 fields (loop_entry junk s v fields fc)).s.file }) := by
  have hfresh : s.file.has [v.name] = false := free_has hfree (by simp)
  have hnm : nmemb_of v = v.dims.prod := nmemb_of_eq_prod v hrank hdims
  have hfcle : fc ≤ fields.length := by
    rw [hlen]; exact Nat.le_mul_of_pos_left fc (by omega)
  have hnf : nfields_of v = fc := by
    unfold nfields_of
    rw [hnm, hbytes, hlen, Nat.mul_right_comm]
    exact Nat.mul_div_cancel_left _ (Nat.mul_pos (by omega) hsize)
  obtain ⟨hid, hhead⟩ := struct_head_eq s.file (hid_t.obj []) [] v.name
    ((fields.take fc).map matvar_t.name) (loc_root _) (is_group_root _) (by simpa using hfresh)
  have hnn : numeric_case v.class_type = false := by rw [hclass]; exact struct_not_numeric
  have hnc : ¬ v.class_type = MAT_C_CHAR := by rw [hclass]; decide
  have hne1 : ¬ v.dims.prod = 1 := by omega
  have hgn : (struct_group [] v.name ((fields.take fc).map matvar_t.name)).path = [v.name] := rfl
  have hf2R : H5File.has (s.file ++ [struct_group [] v.name ((fields.take fc).map matvar_t.name)])
      ["#refs#"] = false := by
    rw [has_eq_false]
    refine ⟨by simp, fun x hx => ?_⟩
    rcases List.mem_append.1 hx with h | h
    · exact fun hp => hpool x h (by rw [hp])
    · rw [List.mem_singleton.1 h, hgn]
      intro hp
      exact hname (by simpa using hp)
  have hopen := open_refs_absent _ hf2R
  simp only [Mat_VarWrite73]
  rw [if_neg (by rw [hnn]; simp), if_neg hnc, if_pos hclass, hroot]
  simp only [hnm, hnf, fieldnames_of_take fields fc hfcle, hhead, hne1, if_false]
  simp only [hid, hid_t.lt_zero, Bool.false_eq_true, if_false, hopen, List.nil_append,
    space_permute v hrank h10]
  simp [loop_entry]

/-! ## Lemmas on the header decoder -/

theorem num_objs_root (f : H5File) :
    H5Gget_num_objs f (hid_t.obj []) = some (f.children []).length := by
  simp [H5Gget_num_objs, loc_root, is_group_root]

theorem objtype_root (f : H5File) (i : Nat) (hi : i < (f.children []).length) :
    H5Gget_objtype_by_idx f (hid_t.obj []) i = ((f.children [])[i]).kind := by
  simp [H5Gget_objtype_by_idx, loc_root, List.getElem?_eq_getElem hi]

theorem skip_loop_dataset (f : H5File) (fuel i : Nat) (hi : i < (f.children []).length)
    (hk : ((f.children [])[i]).kind = H5G_DATASET) :
    skip_loop f (hid_t.obj []) (f.children []).length (fuel + 1) i = i := by
  simp [skip_loop, objtype_root f i hi, hk]

theorem skip_loop_other (f : H5File) (fuel i : Nat) (hi : i < (f.children []).length)
    (hk : ((f.children [])[i]).kind ≠ H5G_DATASET) :
    skip_loop f (hid_t.obj []) (f.children []).length (fuel + 1) i
      = skip_loop f (hid_t.obj []) (f.children []).length fuel (i + 1) := by
  simp [skip_loop, objtype_root f i hi, hk, hi]

/-- What the skip loop returns. -/
theorem skip_loop_spec (f : H5File) (fuel i : Nat) (h : i + fuel = (f.children []).length) :
    i ≤ skip_loop f (hid_t.obj []) (f.children []).length fuel i ∧
    skip_loop f (hid_t.obj []) (f.children []).length fuel i ≤ (f.children []).length ∧
    ((f.children []).drop i).filter (fun n => decide (n.kind = H5G_DATASET))
      = ((f.children []).drop
          (skip_loop f (hid_t.obj []) (f.children []).length fuel i)).filter
          (fun n => decide (n.kind = H5G_DATASET)) ∧
    (∀ hj : skip_loop f (hid_t.obj []) (f.children []).length fuel i < (f.children []).length,
      ((f.children [])[skip_loop f (hid_t.obj []) (f.children []).length fuel i]).kind
        = H5G_DATASET) := by
  induction fuel generalizing i with
  | zero =>
    simp only [skip_loop]
    exact ⟨le_refl _, by omega, trivial, fun hj => by omega⟩
  | succ fuel ih =>
    have hi : i < (f.children []).length := by omega
    by_cases hk : ((f.children [])[i]).kind = H5G_DATASET
    · simp only [skip_loop_dataset f fuel i hi hk]
      exact ⟨le_refl _, le_of_lt hi, trivial, fun _ => hk⟩
    · simp only [skip_loop_other f fuel i hi hk]
      obtain ⟨h1, h2, h3, h4⟩ := ih (i + 1) (by omega)
      refine ⟨by omega, h2, ?_, h4⟩
      rw [← h3, List.drop_eq_getElem_cons hi, List.filter_cons]
      simp [hk]

/-- One call from a cursor inside the member list. -/
theorem read_call_spec (junk : Nat) (s : State) (i : Nat) (hi : i ≤ (s.file.children []).length) :
    ∃ j, (Mat_VarReadNextInfo73 junk (some ⟨hid_t.obj [], i⟩) s).2 = some ⟨hid_t.obj [], j⟩ ∧
      i ≤ j ∧ j ≤ (s.file.children []).length ∧
      (((s.file.children []).drop i).filter (fun n => decide (n.kind = H5G_DATASET)) = [] →
        (Mat_VarReadNextInfo73 junk (some ⟨hid_t.obj [], i⟩) s).1.map matvar_t.name = none ∧
        ((s.file.children []).drop j).filter (fun n => decide (n.kind = H5G_DATASET)) = []) ∧
      (∀ d rest,
        ((s.file.children []).drop i).filter (fun n => decide (n.kind = H5G_DATASET)) = d :: rest →
        (Mat_VarReadNextInfo73 junk (some ⟨hid_t.obj [], i⟩) s).1.map matvar_t.name
          = some d.name ∧
        ((s.file.children []).drop j).filter (fun n => decide (n.kind = H5G_DATASET)) = rest) := by
  obtain ⟨h1, h2, h3, h4⟩ := skip_loop_spec s.file ((s.file.children []).length - i) i (by omega)
  generalize hj : skip_loop s.file (hid_t.obj []) (s.file.children []).length
    ((s.file.children []).length - i) i = j at h1 h2 h3 h4
  by_cases hend : (s.file.children []).length ≤ j
  · have hjl : j = (s.file.children []).length := by omega
    refine ⟨j, ?_, h1, h2, ?_, ?_⟩
    · simp [Mat_VarReadNextInfo73, num_objs_root, hj, hend]
    · intro _
      refine ⟨?_, ?_⟩
      · simp [Mat_VarReadNextInfo73, num_objs_root, hj, hend]
      · rw [hjl]; simp
    · intro d rest hd
      rw [h3, hjl] at hd
      simp at hd
  · have hlt : j < (s.file.children []).length := by omega
    have hkind := h4 hlt
    have hmem : (s.file.children [])[j] ∈ s.file.children [] := List.getElem_mem _
    have hne : ((s.file.children [])[j]).path ≠ [] := by
      have := hmem
      simp only [H5File.children, List.mem_filter, Bool.and_eq_true, decide_eq_true_eq] at this
      exact this.2.1
    have hdrop : ((s.file.children []).drop i).filter (fun n => decide (n.kind = H5G_DATASET))
        = (s.file.children [])[j] ::
          ((s.file.children []).drop (j + 1)).filter (fun n => decide (n.kind = H5G_DATASET)) := by
      rw [h3, List.drop_eq_getElem_cons hlt, List.filter_cons]
      simp [hkind]
    refine ⟨j + 1, ?_, by omega, by omega, ?_, ?_⟩
    · simp [Mat_VarReadNextInfo73, num_objs_root, hj, hend]
    · intro hnil
      rw [hdrop] at hnil
      simp at hnil
    · intro d rest hd
      rw [hdrop] at hd
      simp only [List.cons.injEq] at hd
      obtain ⟨hd1, hd2⟩ := hd
      refine ⟨?_, hd2⟩
      rw [← hd1]
      simp only [Mat_VarReadNextInfo73, num_objs_root, hj, hend, Option.getD_some, ge_iff_le,
        if_false, Option.map_some', matvar_t.name, matvar_t.info]
      simp only [H5Gget_objname_by_idx, loc_root, List.get?_eq_getElem?,
        List.getElem?_eq_getElem hlt]
      rfl


theorem read_calls_spec (junk : Nat) (s : State) (n i : Nat)
    (hi : i ≤ (s.file.children []).length) :
    (read_calls junk s n (some ⟨hid_t.obj [], i⟩)).map (fun r => r.1.map matvar_t.name)
      = ((((s.file.children []).drop i).filter (fun n => decide (n.kind = H5G_DATASET))).map
          (fun d => some d.name)).take n
        ++ List.replicate
          (n - (((s.file.children []).drop i).filter
            (fun n => decide (n.kind = H5G_DATASET))).length) none ∧
    List.Chain (· ≤ ·) i ((read_calls junk s n (some ⟨hid_t.obj [], i⟩)).map cursor_of) := by
  induction n generalizing i with
  | zero => simp [read_calls]
  | succ n ih =>
    obtain ⟨j, hj, hij, hjl, hnil, hcons⟩ := read_call_spec junk s i hi
    obtain ⟨ih1, ih2⟩ := ih j hjl
    simp only [read_calls, List.map_cons, hj, List.chain_cons, cursor_of]
    refine ⟨?_, hij, ih2⟩
    rw [ih1]
    cases hD : ((s.file.children []).drop i).filter (fun n => decide (n.kind = H5G_DATASET)) with
    | nil =>
      obtain ⟨hn1, hn2⟩ := hnil hD
      rw [hn1, hn2]
      simp [List.replicate_succ]
    | cons d rest =>
      obtain ⟨hc1, hc2⟩ := hcons d rest hD
      rw [hc1, hc2]
      simp

theorem root_dataset_names_nodup (f : H5File) (h : f.paths.Nodup) :
    ((root_datasets f).map (fun d => d.name)).Nodup := by
  have h1 := member_names_nodup f [] h
  have h2 : ((root_datasets f).map (fun n => n.path.getLast?)).Nodup :=
    List.Nodup.sublist (List.Sublist.map _ (List.filter_sublist _)) h1
  have h3 : (root_datasets f).map (fun n => n.path.getLast?)
      = ((root_datasets f).map (fun d => d.name)).map some := by
    rw [List.map_map]
    apply List.map_congr_left
    intro d hd
    have hne : d.path ≠ [] := by
      have := (List.mem_filter.1 hd).1
      simp only [H5File.children, List.mem_filter, Bool.and_eq_true, decide_eq_true_eq] at this
      exact this.2.1
    simp [H5Node.name, List.getLast?_eq_getLast _ hne]
  rw [h3] at h2
  exact List.Nodup.of_map _ h2

/-! ## Lemmas on the complex packing -/

theorem foldl_pair_snd (g : Nat → Nat) (l : List Nat) (pd : List Nat) (acc : Nat)
    (hl : ∀ k ∈ l, k < pd.length) :
    (l.foldl (fun (st : List Nat × Nat) k =>
        let pd := st.1.set k (g k)
        (pd, st.2 * pd.getD k 0)) (pd, acc)).2
      = acc * (l.map g).prod := by
  induction l generalizing pd acc with
  | nil => simp
  | cons a l ih =>
    simp only [List.foldl_cons, List.map_cons, List.prod_cons]
    rw [ih _ _ (fun k hk => by
      rw [List.length_set]; exact hl k (List.mem_cons_of_mem _ hk))]
    have ha : a < pd.length := hl a (List.mem_cons_self _ _)
    simp [List.getD_eq_getElem?_getD, List.getElem?_set, ha, Nat.mul_assoc]

theorem permute_numel_snd (v : matvar_info) (hr : v.rank = v.dims.length) (h10 : v.rank ≤ 10) :
    (permute_numel v).2 = v.dims.prod := by
  unfold permute_numel
  rw [foldl_pair_snd (fun k => v.dims.getD (v.rank - k - 1) 0) _ _ _ (fun k hk => by
    have := List.mem_range.1 hk
    simp [perm_dims_init]; omega)]
  rw [hr, range_map_rev, List.prod_reverse, Nat.one_mul]

theorem interleave_length (n : Nat) : ∀ r i : List Int, (interleave n r i).length = 2 * n := by
  induction n with
  | zero => intro r i; rfl
  | succ n ih =>
    intro r i
    simp only [interleave, List.length_cons, ih]
    omega

theorem interleave_get (r : List Int) :
    ∀ (i : List Int), r.length = i.length → ∀ j, j < r.length →
      (interleave r.length r i).get? (2 * j) = r.get? j ∧
      (interleave r.length r i).get? (2 * j + 1) = i.get? j := by
  induction r with
  | nil => intro i _ j hj; simp at hj
  | cons a r ih =>
    intro i hi j hj
    cases i with
    | nil => simp at hi
    | cons b i =>
      simp only [List.length_cons, interleave, List.headD_cons, List.tail_cons]
      cases j with
      | zero => simp
      | succ j =>
        have h := ih i (by simpa using hi) j (by simpa using hj)
        have e1 : 2 * (j + 1) = 2 * j + 1 + 1 := by omega
        rw [e1]
        simp only [List.get?_cons_succ]
        exact h

theorem range_map_getD (l : List Int) : (List.range l.length).map (fun j => l.getD j 0) = l := by
  apply List.ext_getElem
  · simp
  · intro i h1 h2
    simp [List.getD_eq_getElem?_getD, List.getElem?_eq_getElem h2]

/-! ## The two encoders side by side -/

/-- On the root as scope and under the variable's own name, the nested
encoder runs the same statements as `Mat_VarWrite73`: the root is not the pool,
so `is_ref` is 0. -/
theorem VarWrite_eq_field (cfg : CConfig) (junk : Nat) (next_index : Nat) (V : matvar_t)
    (compress : Int) (s : State) :
    Mat_VarWrite73 cfg junk (some ⟨hid_t.obj [], next_index⟩) (some V) compress s
      = Mat_WriteNextStructField73 cfg junk (hid_t.obj []) V V.name s := by
  cases V with
  | mk v fields =>
    have hname : H5Iget_name s.file (hid_t.obj []) = some [] := by
      simp [H5Iget_name, loc_root]
    rw [Mat_WriteNextStructField73]
    simp [Mat_VarWrite73, hname, matvar_t.name, matvar_t.info]

theorem skip_loop_reaches (f : H5File) (n : Nat) :
    ∀ (i j : Nat) (hj : j < (f.children []).length), j - i = n → i ≤ j →
      ((f.children [])[j]).kind = H5G_DATASET →
      (∀ k (hk : k < (f.children []).length), i ≤ k → k < j →
        ((f.children [])[k]).kind ≠ H5G_DATASET) →
      skip_loop f (hid_t.obj []) (f.children []).length ((f.children []).length - i) i = j := by
  induction n with
  | zero =>
    intro i j hj hn hij hkind _
    have hi : i = j := by omega
    subst hi
    have hf : (f.children []).length - i = ((f.children []).length - i - 1) + 1 := by omega
    rw [hf]
    exact skip_loop_dataset f _ i hj hkind
  | succ n ih =>
    intro i j hj hn hij hkind hskip
    have hi : i < (f.children []).length := by omega
    have hf : (f.children []).length - i = ((f.children []).length - (i + 1)) + 1 := by omega
    rw [hf, skip_loop_other f _ i hi (hskip i hi (le_refl _) (by omega))]
    exact ih (i + 1) j hj (by omega) (by omega) hkind
      (fun k hk h1 h2 => hskip k hk (by omega) h2)

/-- A call with the cursor at `i`, when the next dataset member of the root
is the member `j`: the header of that member, and the cursor at `j + 1`. -/
theorem read_header_at (junk : Nat) (s : State) (i j : Nat) (hs : s.file.paths.Nodup)
    (hj : j < (s.file.children []).length) (hij : i ≤ j)
    (hkind : ((s.file.children [])[j]).kind = H5G_DATASET)
    (hskip : ∀ k (hk : k < (s.file.children []).length), i ≤ k → k < j →
      ((s.file.children [])[k]).kind ≠ H5G_DATASET) :
    Mat_VarReadNextInfo73 junk (some ⟨hid_t.obj [], i⟩) s
      = (some (matvar_t.mk (header_of ((s.file.children [])[j])) []),
         some ⟨hid_t.obj [], j + 1⟩) := by
  have hsk := skip_loop_reaches s.file (j - i) i j hj rfl hij hkind hskip
  have hmem : (s.file.children [])[j] ∈ s.file.children [] := List.getElem_mem _
  obtain ⟨hin, hne, hdl⟩ := mem_children.1 hmem
  have hpath := path_of_child hne hdl
  rw [List.nil_append] at hpath
  have hlast : ((s.file.children [])[j]).path.getLast? =
      some (((s.file.children [])[j]).path.getLast hne) := List.getLast?_eq_getLast _ hne
  have hname : ((s.file.children [])[j]).name = ((s.file.children [])[j]).path.getLast hne := by
    simp [H5Node.name, hlast]
  have hlook : s.file.lookup [((s.file.children [])[j]).name] = some ((s.file.children [])[j]) := by
    rw [hname, ← hpath]
    exact lookup_of_mem_nodup s.file _ hs hin
  have hobjname : H5Gget_objname_by_idx s.file (hid_t.obj []) j
      = some (((s.file.children [])[j]).name) := by
    simp [H5Gget_objname_by_idx, loc_root, List.get?_eq_getElem?, List.getElem?_eq_getElem hj,
      hlast, hname]
  have hopen : H5Dopen s.file (hid_t.obj []) (H5Name.rel ((s.file.children [])[j]).name)
      = hid_t.obj [((s.file.children [])[j]).name] := by
    simp [H5Dopen, H5File.resolve, loc_root, H5Name.rel, H5File.is_dataset, hlook, hkind]
  simp only [Mat_VarReadNextInfo73, num_objs_root, Option.getD_some, hsk, ge_iff_le,
    if_neg (Nat.not_le.2 hj), hobjname, hopen]
  simp only [header_of, H5Dget_space, read_class, read_global, H5Aopen_read, hlook, hkind,
    if_true, Option.getD_some]

/-! ## Lemmas on the class names -/

theorem str_to_id_loop_unknown (n : String) :
    ∀ (fuel k : Nat), (∀ c, k ≤ c → c ≤ 16 → n ≠ Mat_class_names.getD c "") →
      Mat_class_str_to_id_loop n fuel k = 0 := by
  intro fuel
  induction fuel with
  | zero => intro k _; rfl
  | succ fuel ih =>
    intro k h
    rw [Mat_class_str_to_id_loop]
    by_cases hk : k < 17
    · rw [if_pos hk, if_neg (h k (le_refl _) (by omega))]
      exact ih (k + 1) (fun c h1 h2 => h c (by omega) h2)
    · rw [if_neg hk]

theorem str_to_id_unknown (name : Option String)
    (h : ∀ c, 1 ≤ c → c ≤ 16 → name ≠ some (Mat_class_names.getD c "")) :
    Mat_class_str_to_id name = 0 := by
  cases name with
  | none => rfl
  | some n =>
    exact str_to_id_loop_unknown n 16 1 (fun c h1 h2 hn => h c h1 h2 (by rw [hn]))

theorem copy_dims_small (shape : List Nat) (h : shape.length ≤ 10) :
    copy_dims shape.length (dims_buffer shape) = shape := by
  unfold copy_dims dims_buffer
  rw [List.take_of_length_le h]
  apply List.ext_getElem
  · simp
  · intro i h1 h2
    simp [List.getD_eq_getElem?_getD, List.getElem?_eq_getElem h2]

/-- A call on a container whose only object is a dataset member of the root. -/
theorem read_single_dataset (junk : Nat) (d : H5Node) (log : List String) (x : String)
    (hp : d.path = [x]) (hk : d.kind = H5G_DATASET) :
    Mat_VarReadNextInfo73 junk (some ⟨hid_t.obj [], 0⟩) ⟨[d], log⟩
      = (some (matvar_t.mk (header_of d) []), some ⟨hid_t.obj [], 1⟩) := by
  have hc : H5File.children [d] [] = [d] := by
    simp [H5File.children, hp]
  have hj : 0 < (H5File.children [d] []).length := by rw [hc]; simp
  have h0 : (H5File.children [d] [])[0] = d := by simp [hc]
  have h := read_header_at junk ⟨[d], log⟩ 0 0 (by simp [H5File.paths]) hj (le_refl _)
    (by rw [h0]; exact hk) (by intro k _ h1 h2; omega)
  rw [h0] at h
  exact h

/-! ## Lemmas on the slots of the dimension buffers -/

theorem perm_access_small (w rank k : Nat) (hw : 32 ≤ w) (hk : k < rank) (h10 : rank ≤ 10) :
    (perm_access w rank k).2 = rank - k - 1 := by
  unfold perm_access
  have h32 : (2 : Int) ^ 32 ≤ (2 : Int) ^ w := by
    exact_mod_cast Nat.pow_le_pow_right (by decide : 0 < 2) hw
  have hlo : (0 : Int) ≤ (rank : Int) - (k : Int) - 1 := by omega
  have hhi : (rank : Int) - (k : Int) - 1 < (2 : Int) ^ w := by
    have : (rank : Int) - (k : Int) - 1 < (2 : Int) ^ 32 := by norm_num; omega
    omega
  simp only
  rw [Int.emod_eq_of_lt hlo hhi]
  omega

theorem permute_getD (v : matvar_info) (k : Nat) (hk : k < v.rank) (h10 : v.rank ≤ 10) :
    (permute v).getD k 0 = v.dims.getD (v.rank - k - 1) 0 := by
  unfold permute
  rw [foldl_set_range _ _ _ (by simp [perm_dims_init]; exact h10)]
  simp [List.getD_eq_getElem?_getD, List.getElem?_append_left, hk]

/-! ## The element count in machine arithmetic -/

theorem foldl_mul_mod_range' (pre ds : List Nat) (acc : Nat) (hpos : ∀ d ∈ ds, 0 < d)
    (hfit : acc * ds.prod < hsize_mod) :
    (List.range' pre.length ds.length).foldl
        (fun n k => (n * (pre ++ ds).getD k 0) % hsize_mod) acc
      = acc * ds.prod := by
  induction ds generalizing pre acc with
  | nil => simp
  | cons x ds ih =>
    simp only [List.length_cons, List.range'_succ, List.foldl_cons, List.prod_cons]
    have hx : (pre ++ x :: ds).getD pre.length 0 = x := by
      rw [List.getD_eq_getElem?_getD, List.getElem?_append_right (Nat.le_refl _)]
      simp
    rw [hx]
    have hposds : 0 < ds.prod :=
      List.prod_pos (fun d hd => hpos d (List.mem_cons_of_mem _ hd))
    simp only [List.prod_cons] at hfit
    have hle : acc * x ≤ acc * (x * ds.prod) :=
      Nat.mul_le_mul_left _ (Nat.le_mul_of_pos_right _ hposds)
    rw [Nat.mod_eq_of_lt (lt_of_le_of_lt hle hfit)]
    have := ih (pre ++ [x]) (acc * x) (fun d hd => hpos d (List.mem_cons_of_mem _ hd))
      (by rw [Nat.mul_assoc]; exact hfit)
    simp only [List.length_append, List.length_singleton, List.append_assoc,
      List.singleton_append] at this
    rw [this, Nat.mul_assoc]

/-- When the dims are positive and their product times `data_size` stays below
`2 ^ 64`, the machine computes the element count and the field count without
wrap-around and with a divisor other than 0: they are the values of `nmemb_of`
and `nfields_of`. -/
theorem hsize_agrees (v : matvar_info) (hr : v.rank = v.dims.length) (hne : v.dims ≠ [])
    (hpos : 0 < v.dims.prod * v.data_size) (hfit : v.dims.prod * v.data_size < 2 ^ 64)
    (hnb : v.nbytes < 2 ^ 64) :
    nmemb_hsize v = nmemb_of v ∧ nfields_hsize v = some (nfields_of v) := by
  have hp : 0 < v.dims.prod := Nat.pos_of_mul_pos_right hpos
  have hs : 0 < v.data_size := Nat.pos_of_mul_pos_left hpos
  have hall : ∀ d ∈ v.dims, 0 < d := by
    intro d hd
    rcases Nat.eq_zero_or_pos d with h0 | h0
    · rw [h0] at hd
      have := List.prod_eq_zero hd
      omega
    · exact h0
  have hprod : v.dims.prod < hsize_mod :=
    lt_of_le_of_lt (Nat.le_mul_of_pos_right _ hs) hfit
  have hnm := nmemb_of_eq_prod v hr hne
  have h1 : nmemb_hsize v = v.dims.prod := by
    unfold nmemb_hsize
    cases hd : v.dims with
    | nil => exact absurd hd hne
    | cons d ds =>
      rw [hd] at hall hprod
      rw [hr, hd]
      simp only [List.prod_cons] at hprod
      have hposds : 0 < ds.prod :=
        List.prod_pos (fun x hx => hall x (List.mem_cons_of_mem _ hx))
      have hdlt : d < hsize_mod := lt_of_le_of_lt (Nat.le_mul_of_pos_right _ hposds) hprod
      have := foldl_mul_mod_range' [d] ds d
        (fun x hx => hall x (List.mem_cons_of_mem _ hx)) hprod
      simpa [Nat.mod_eq_of_lt hdlt] using this
  refine ⟨by rw [h1, hnm], ?_⟩
  have hfit2 : v.dims.prod * v.data_size < hsize_mod := hfit
  have hnb2 : v.nbytes < hsize_mod := hnb
  unfold nfields_hsize nfields_of
  rw [h1, hnm, Nat.mod_eq_of_lt hfit2, Nat.mod_eq_of_lt hnb2, if_neg (by omega)]

/-! ## Writing through an identifier that the engine did not issue -/

/-- C1 (evaluation at the failing input): a real double variable with dims
`[2, 3]` written into the empty container and read back with
`Mat_VarReadNextInfo73` comes back with class double and rank 2 but with dims
`[3, 2]`: the decoder copies the dataset shape, which the encoder stored
reversed. -/
theorem roundtrip_header_dims_reversed :
    (Mat_VarReadNextInfo73 0 (some root_mat)
      (Mat_VarWrite73 cfg_lp64 0 (some root_mat)
        (some (sample_numeric "x" MAT_C_DOUBLE MAT_T_DOUBLE [2, 3] [1, 2, 3, 4, 5, 6]))
        0 empty_state).2).1.map
      (fun h => (h.info.class_type, h.info.rank, h.info.dims))
      = some (MAT_C_DOUBLE, 2, [3, 2]) := by
  decide

/-! ## C2: the read cursor -/

/-- C2: on a container whose objects have pairwise distinct paths, `n` calls
of `Mat_VarReadNextInfo73` on a handle on the root with the cursor at 0 return,
in this order, one header per dataset member of the root group, in index order
and named after it, then NULL (`none`) for every further call; the names of
the dataset members are pairwise distinct; and the cursor left by each call is
at least the cursor before it. -/
theorem read_next_info_cursor (junk : Nat) (s : State) (n : Nat) (hs : s.file.paths.Nodup) :
    (read_calls junk s n (some root_mat)).map (fun r => r.1.map matvar_t.name)
      = ((root_datasets s.file).map (fun d => some d.name)).take n
        ++ List.replicate (n - (root_datasets s.file).length) none ∧
    ((root_datasets s.file).map (fun d => d.name)).Nodup ∧
    List.Chain (· ≤ ·) root_mat.next_index
      ((read_calls junk s n (some root_mat)).map cursor_of) := by
  have h := read_calls_spec junk s n 0 (Nat.zero_le _)
  simp only [List.drop_zero] at h
  exact ⟨h.1, root_dataset_names_nodup s.file hs, h.2⟩

/-- C2 (witness): four calls on the sample container, whose root holds the
datasets `x` and `y` around a group. -/
theorem read_next_info_cursor_witness :
    sample_file.paths.Nodup ∧
    ((read_calls 0 ⟨sample_file, []⟩ 4 (some root_mat)).map (fun r => r.1.map matvar_t.name)
      = [some "x", some "y", none, none] ∧
    ["x", "y"].Nodup ∧
    List.Chain (· ≤ ·) 0 ((read_calls 0 ⟨sample_file, []⟩ 4 (some root_mat)).map cursor_of)) :=
  ⟨by decide, read_next_info_cursor 0 ⟨sample_file, []⟩ 4 (by decide)⟩

/-! ## C3: real numeric variables -/

/-- C3 (counterexample): a real int64 variable, of rank 2, written into the
empty container leaves the container empty: no dataset is created. -/
theorem int64_write_creates_nothing :
    Mat_VarWrite73 cfg_lp64 0 (some root_mat)
      (some (sample_numeric "x" MAT_C_INT64 MAT_T_INT64 [2, 3] [1, 2, 3, 4, 5, 6]))
      0 empty_state = (0, empty_state) := by
  decide

/-- C3 (amended): for a real variable of class double, single, int8, int16,
int32, uint8, uint16 or uint32 with rank at most 10 and a name not yet used
under the container root, `Mat_VarWrite73` returns 0 and adds exactly one
object to the container: a dataset named after the variable under the root,
whose shape is the reversed dims and whose only attribute is `MATLAB_class`
with the class name of the table. -/
theorem real_numeric_write_one_dataset (cfg : CConfig) (junk : Nat) (m : mat_t)
    (v : matvar_info) (fields : List matvar_t) (compress : Int) (s : State)
    (h8 : cfg.CHAR_BIT = 8) (hroot : m.fp = hid_t.obj [])
    (hclass : v.class_type ∈ [MAT_C_DOUBLE, MAT_C_SINGLE, MAT_C_INT8, MAT_C_INT16,
      MAT_C_INT32, MAT_C_UINT8, MAT_C_UINT16, MAT_C_UINT32])
    (hreal : v.isComplex = false)
    (hrank : v.rank = v.dims.length) (h10 : v.rank ≤ 10)
    (hfresh : s.file.has [v.name] = false) :
    Mat_VarWrite73 cfg junk (some m) (some (matvar_t.mk v fields)) compress s
      = (0, { s with file := s.file ++
          [{ path := [v.name]
             kind := H5G_DATASET
             dtype := Mat_class_type_to_hid_t cfg v.class_type
             shape := v.dims.reverse
             attrs := [("MATLAB_class", H5Attr.str (Mat_class_names.getD v.class_type ""))]
             data :=
               if Mat_data_type_to_hid_t cfg v.data_type = H5T.invalid then H5Data.empty
               else H5Data.values (Mat_data_type_to_hid_t cfg v.data_type) v.data }] }) := by
  have hc := mem_numeric_case v.class_type hclass
  simp only [Mat_VarWrite73, hc, if_true, hroot]
  rw [write_numeric_eq cfg s.file (hid_t.obj []) [] v.name v (loc_root _) (is_group_root _)
    (by simpa using hfresh) h8 hc hrank h10]
  simp [numeric_dataset, hreal]

/-- C3 (witness): the amended statement at a real double variable with dims
`[2, 3]` and the empty container. -/
theorem real_numeric_write_one_dataset_witness :
    Mat_VarWrite73 cfg_lp64 0 (some root_mat)
      (some (sample_numeric "x" MAT_C_DOUBLE MAT_T_DOUBLE [2, 3] [1, 2, 3, 4, 5, 6]))
      0 empty_state
      = (0, { empty_state with file :=
          [{ path := ["x"]
             kind := H5G_DATASET
             dtype := H5T_NATIVE_DOUBLE
             shape := [3, 2]
             attrs := [("MATLAB_class", H5Attr.str "double")]
             data := H5Data.values H5T_NATIVE_DOUBLE [1, 2, 3, 4, 5, 6] }] }) :=
  real_numeric_write_one_dataset cfg_lp64 0 root_mat _ [] 0 empty_state rfl rfl
    (by decide) rfl rfl (by decide) (by decide)

/-! ## C4: structs of one element -/

/-- C4 (counterexample): a struct with dims `[1, 1]` whose only field is of
class cell gets no member at all, although its field count is 1; and a struct
with dims `[1, 1]` whose only field is a struct array of two elements adds two
entries to the pool `/#refs#`. -/
theorem scalar_struct_field_not_direct :
    (Mat_VarWrite73 cfg_lp64 0 (some root_mat)
      (some (sample_struct "s" [1, 1]
        [sample_numeric "a" MAT_C_CELL MAT_T_UNKNOWN [1, 1] []])) 0 empty_state).2.file.children
        ["s"] = [] ∧
    ((Mat_VarWrite73 cfg_lp64 0 (some root_mat)
      (some (sample_struct "s" [1, 1]
        [sample_struct "a" [1, 2]
          [sample_numeric "x" MAT_C_DOUBLE MAT_T_DOUBLE [1, 1] [1],
           sample_numeric "x" MAT_C_DOUBLE MAT_T_DOUBLE [1, 1] [2]]])) 0
      empty_state).2.file.children ["#refs#"]).map H5Node.name = ["0", "1"] := by
  decide

/-- C4 (amended): take a struct variable whose element count (product of
dims) is 1, whose payload is its field list, with pairwise distinct field
names, and whose fields are written in place: numeric arrays of the eight
classes with a case, char arrays of the nine storage types with a case, or
structs of one element of the same kind.  Written with `Mat_VarWrite73` under
a name other than `#refs#` that nothing in the container lies at or below, on
a build with 8-bit bytes, it returns 0, adds the struct's group followed by
the objects of its fields, adds no entry to the pool `/#refs#`, and the
members of the struct's group are its fields, one per field, in order and
under the field's name. -/
theorem scalar_struct_written_in_place (cfg : CConfig) (junk : Nat) (m : mat_t)
    (v : matvar_info) (fields : List matvar_t) (compress : Int) (s : State)
    (h8 : cfg.CHAR_BIT = 8) (hroot : m.fp = hid_t.obj [])
    (hclass : v.class_type = MAT_C_STRUCT)
    (hrank : v.rank = v.dims.length) (hdims : v.dims ≠ []) (hone : v.dims.prod = 1)
    (hsize : 0 < v.data_size) (hbytes : v.nbytes = fields.length * v.data_size)
    (hnames : (fields.map matvar_t.name).Nodup) (hplain : plain_all fields = true)
    (hname : v.name ≠ "#refs#") (hfree : s.file.free [v.name]) :
    Mat_VarWrite73 cfg junk (some m) (some (matvar_t.mk v fields)) compress s
      = (0, { s with file := s.file ++
          struct_group [] v.name (fields.map matvar_t.name) ::
            expected_all cfg [v.name] fields }) ∧
    (Mat_VarWrite73 cfg junk (some m) (some (matvar_t.mk v fields)) compress s).2.file.children
        ["#refs#"] = s.file.children ["#refs#"] ∧
    ((Mat_VarWrite73 cfg junk (some m) (some (matvar_t.mk v fields)) compress s).2.file.children
        [v.name]).map H5Node.name = fields.map matvar_t.name := by
  have hfresh : s.file.has [v.name] = false := free_has hfree (by simp)
  have hnm : nmemb_of v = 1 := by rw [nmemb_of_eq_prod v hrank hdims, hone]
  have hnf : nfields_of v = fields.length := by
    unfold nfields_of
    rw [hnm, hbytes, Nat.one_mul]
    exact Nat.mul_div_cancel _ hsize
  obtain ⟨hid, hhead⟩ := struct_head_eq s.file (hid_t.obj []) [] v.name
    (fields.map matvar_t.name) (loc_root _) (is_group_root _) (by simpa using hfresh)
  have hnn : numeric_case v.class_type = false := by rw [hclass]; exact struct_not_numeric
  have hnc : ¬ v.class_type = MAT_C_CHAR := by rw [hclass]; decide
  have hgn : (struct_group [] v.name (fields.map matvar_t.name)).path = [v.name] := rfl
  have key : Mat_VarWrite73 cfg junk (some m) (some (matvar_t.mk v fields)) compress s
      = (0, { s with file := s.file ++
          struct_group [] v.name (fields.map matvar_t.name) ::
            expected_all cfg [v.name] fields }) := by
    simp only [Mat_VarWrite73]
    rw [if_neg (by rw [hnn]; simp), if_neg hnc, if_pos hclass, hroot]
    simp only [hnm, hnf, fieldnames_of_all, hhead, if_true]
    simp only [hid, hid_t.lt_zero, Bool.false_eq_true, if_false, Nat.one_mul, List.nil_append]
    rw [write_plain_all cfg junk h8 fields (hid_t.obj [v.name]) [v.name]
      ⟨s.file ++ [struct_group [] v.name (fields.map matvar_t.name)], s.log⟩ hplain hnames
      (by rw [← hgn]; exact loc_new _ [] (by rw [hgn]; exact hfresh))
      (by rw [← hgn]; exact is_group_new _ [] (by rw [hgn]; exact hfresh) rfl)
      (fun fld _ => free_append (free_child hfree _)
        (fun n hn => by
          rw [List.mem_singleton.1 hn, hgn]
          exact not_prefix_longer _ _))]
    simp
  refine ⟨key, ?_, ?_⟩
  · rw [key]
    simp only
    rw [children_append]
    have : H5File.children (struct_group [] v.name (fields.map matvar_t.name) ::
        expected_all cfg [v.name] fields) ["#refs#"] = [] := by
      apply children_other_root _ v.name "#refs#" hname
      intro n hn
      rcases List.mem_cons.1 hn with h | h
      · rw [h]; exact List.prefix_refl _
      · obtain ⟨fld, _, hp⟩ := expected_all_below cfg fields [v.name] n h
        exact (List.prefix_append _ _).trans hp
    rw [this, List.append_nil]
  · rw [key]
    simp only
    rw [children_append, children_free hfree, List.nil_append]
    have h1 : H5File.children (struct_group [] v.name (fields.map matvar_t.name) ::
        expected_all cfg [v.name] fields) [v.name]
        = H5File.children [struct_group [] v.name (fields.map matvar_t.name)] [v.name]
          ++ H5File.children (expected_all cfg [v.name] fields) [v.name] :=
      children_append [_] _ _
    rw [h1]
    have h2 : H5File.children [struct_group [] v.name (fields.map matvar_t.name)] [v.name]
        = [] := by
      simp [H5File.children, struct_group]
    rw [h2, List.nil_append]
    exact children_expected_all cfg [v.name] fields

/-- C4 (witness): the amended statement at a struct with dims `[1, 1]` and two
fields, a double array `a` and a one-element struct `b` with a char field. -/
theorem scalar_struct_written_in_place_witness :
    Mat_VarWrite73 cfg_lp64 0 (some root_mat)
      (some (sample_struct "s" [1, 1]
        [sample_numeric "a" MAT_C_DOUBLE MAT_T_DOUBLE [2, 3] [1, 2, 3, 4, 5, 6],
         sample_struct "b" [1, 1] [sample_char "c" MAT_T_UINT16 [1, 2] [104, 105]]]))
      0 empty_state
      = (0,
         ⟨struct_group [] "s" ["a", "b"] ::
            expected_all cfg_lp64 ["s"]
              [sample_numeric "a" MAT_C_DOUBLE MAT_T_DOUBLE [2, 3] [1, 2, 3, 4, 5, 6],
               sample_struct "b" [1, 1] [sample_char "c" MAT_T_UINT16 [1, 2] [104, 105]]],
          []⟩) ∧
    (Mat_VarWrite73 cfg_lp64 0 (some root_mat)
      (some (sample_struct "s" [1, 1]
        [sample_numeric "a" MAT_C_DOUBLE MAT_T_DOUBLE [2, 3] [1, 2, 3, 4, 5, 6],
         sample_struct "b" [1, 1] [sample_char "c" MAT_T_UINT16 [1, 2] [104, 105]]]))
      0 empty_state).2.file.children ["#refs#"] = [] ∧
    ((Mat_VarWrite73 cfg_lp64 0 (some root_mat)
      (some (sample_struct "s" [1, 1]
        [sample_numeric "a" MAT_C_DOUBLE MAT_T_DOUBLE [2, 3] [1, 2, 3, 4, 5, 6],
         sample_struct "b" [1, 1] [sample_char "c" MAT_T_UINT16 [1, 2] [104, 105]]]))
      0 empty_state).2.file.children ["s"]).map H5Node.name = ["a", "b"] :=
  scalar_struct_written_in_place cfg_lp64 0 root_mat _ _ 0 empty_state rfl rfl rfl rfl
    (by decide) (by decide) (by decide) (by decide) (by decide) (by decide) (by decide)
    (by decide)

/-! ## C5: struct arrays -/

/-- C6 (counterexample): a struct array with dims `[1, 2]` and one field `c`
of class cell per element, written into the empty container.  The call
returns 0, but the payload entries are not written: the pool has no member,
nothing lies at `/#refs#/0` or `/#refs#/1`, and the two references stored in
the dataset `/s/c` are unset, so none of them points to a pool object.  And
for a struct array with dims `[1, 2]` whose two fields per element are both
named `a`, the only dataset of references is `/s/a` with the references of
field 0: the references of field 1, to `/#refs#/1` and `/#refs#/3`, are in no
dataset. -/
theorem cell_field_reference_has_no_target :
    nmemb_of (sample_struct "s" [1, 2]
        [sample_numeric "c" MAT_C_CELL MAT_T_UNKNOWN [1, 1] [],
         sample_numeric "c" MAT_C_CELL MAT_T_UNKNOWN [1, 1] []]).info = 2 ∧
    nfields_of (sample_struct "s" [1, 2]
        [sample_numeric "c" MAT_C_CELL MAT_T_UNKNOWN [1, 1] [],
         sample_numeric "c" MAT_C_CELL MAT_T_UNKNOWN [1, 1] []]).info = 1 ∧
    (Mat_VarWrite73 cfg_lp64 0 (some root_mat)
      (some (sample_struct "s" [1, 2]
        [sample_numeric "c" MAT_C_CELL MAT_T_UNKNOWN [1, 1] [],
         sample_numeric "c" MAT_C_CELL MAT_T_UNKNOWN [1, 1] []])) 0 empty_state).1 = 0 ∧
    (Mat_VarWrite73 cfg_lp64 0 (some root_mat)
      (some (sample_struct "s" [1, 2]
        [sample_numeric "c" MAT_C_CELL MAT_T_UNKNOWN [1, 1] [],
         sample_numeric "c" MAT_C_CELL MAT_T_UNKNOWN [1, 1] []])) 0
      empty_state).2.file.children ["#refs#"] = [] ∧
    (Mat_VarWrite73 cfg_lp64 0 (some root_mat)
      (some (sample_struct "s" [1, 2]
        [sample_numeric "c" MAT_C_CELL MAT_T_UNKNOWN [1, 1] [],
         sample_numeric "c" MAT_C_CELL MAT_T_UNKNOWN [1, 1] []])) 0
      empty_state).2.file.lookup ["#refs#", "0"] = none ∧
    (Mat_VarWrite73 cfg_lp64 0 (some root_mat)
      (some (sample_struct "s" [1, 2]
        [sample_numeric "c" MAT_C_CELL MAT_T_UNKNOWN [1, 1] [],
         sample_numeric "c" MAT_C_CELL MAT_T_UNKNOWN [1, 1] []])) 0
      empty_state).2.file.lookup ["#refs#", "1"] = none ∧
    ((Mat_VarWrite73 cfg_lp64 0 (some root_mat)
      (some (sample_struct "s" [1, 2]
        [sample_numeric "c" MAT_C_CELL MAT_T_UNKNOWN [1, 1] [],
         sample_numeric "c" MAT_C_CELL MAT_T_UNKNOWN [1, 1] []])) 0
      empty_state).2.file.lookup ["s", "c"]).map H5Node.data
      = some (H5Data.refs [none, none]) ∧
    ((Mat_VarWrite73 cfg_lp64 0 (some root_mat)
      (some (sample_struct "s" [1, 2]
        [sample_numeric "a" MAT_C_DOUBLE MAT_T_DOUBLE [1, 1] [1],
         sample_numeric "a" MAT_C_DOUBLE MAT_T_DOUBLE [1, 1] [2],
         sample_numeric "a" MAT_C_DOUBLE MAT_T_DOUBLE [1, 1] [3],
         sample_numeric "a" MAT_C_DOUBLE MAT_T_DOUBLE [1, 1] [4]])) 0
      empty_state).2.file.children ["s"]).map H5Node.data
      = [H5Data.refs [some ["#refs#", "0"], some ["#refs#", "2"]]] := by
  decide

/-- C6 (amended): take a struct array as in C5 (amended): element count `n`
greater than 1, rank at most 10, a payload of `n * fc` fields written in
place, the first `fc` with pairwise distinct names, a name other than `#refs#`
that nothing in the container lies at or below, a container with no pool, a
build with 8-bit bytes.  `Mat_VarWrite73` then returns 0 and is the loop of
lines 1071-1081 run from `loop_entry`, followed by the datasets of references;
and for every element `e < n` and field `f < fc`, with `fld` the payload entry
`e * fc + f`: when the loop reaches that entry the pool has `e * fc + f`
members and no reference to the member of that decimal name can be created
yet; the iteration appends exactly the objects of `fld` under that name in the
pool and then stores the reference to it at position `e` of the array of field
`f`; and in the container after the call, position `e` of the dataset of
references of field `f` holds the reference to that pool member, which
exists. -/
theorem struct_array_reference_targets (cfg : CConfig) (junk : Nat) (m : mat_t)
    (v : matvar_info) (fields : List matvar_t) (compress : Int) (s : State) (fc : Nat)
    (h8 : cfg.CHAR_BIT = 8) (hroot : m.fp = hid_t.obj [])
    (hclass : v.class_type = MAT_C_STRUCT)
    (hrank : v.rank = v.dims.length) (h10 : v.rank ≤ 10) (hdims : v.dims ≠ [])
    (hmany : 1 < v.dims.prod)
    (hsize : 0 < v.data_size) (hbytes : v.nbytes = fields.length * v.data_size)
    (hlen : fields.length = v.dims.prod * fc)
    (hplain : plain_all fields = true)
    (hnames : ((fields.take fc).map matvar_t.name).Nodup)
    (hname : v.name ≠ "#refs#") (hfree : s.file.free [v.name])
    (hpool : s.file.free ["#refs#"])
    (e f : Nat) (he : e < v.dims.prod) (hf : f < fc)
    (fld : matvar_t) (hfld : fields.get? (e * fc + f) = some fld) :
    Mat_VarWrite73 cfg junk (some m) (some (matvar_t.mk v fields)) compress s
      = (0,
         { (write_pool cfg junk (hid_t.obj ["#refs#"]) (hid_t.obj []) fc (v.dims.prod * fc) 0
              fields (loop_entry junk s v fields fc)).s with
           file :=
             write_ref_datasets (hid_t.obj [v.name]) fields fc v.dims.reverse
               (write_pool cfg junk (hid_t.obj ["#refs#"]) (hid_t.obj []) fc (v.dims.prod * fc) 0
                 fields (loop_entry junk s v fields fc)).refs
               (write_pool cfg junk (hid_t.obj ["#refs#"]) (hid_t.obj []) fc (v.dims.prod * fc) 0
                 fields (loop_entry junk s v fields fc)).s.file }) ∧
    H5Gget_num_objs
        (write_pool cfg junk (hid_t.obj ["#refs#"]) (hid_t.obj []) fc (e * fc + f) 0 fields
          (loop_entry junk s v fields fc)).s.file (hid_t.obj ["#refs#"])
      = some (e * fc + f) ∧
    H5Rcreate
        (write_pool cfg junk (hid_t.obj ["#refs#"]) (hid_t.obj []) fc (e * fc + f) 0 fields
          (loop_entry junk s v fields fc)).s.file (hid_t.obj []) (refs_member (e * fc + f))
      = none ∧
    (write_pool cfg junk (hid_t.obj ["#refs#"]) (hid_t.obj []) fc (e * fc + f + 1) 0 fields
        (loop_entry junk s v fields fc)).s.file
      = (write_pool cfg junk (hid_t.obj ["#refs#"]) (hid_t.obj []) fc (e * fc + f) 0 fields
          (loop_entry junk s v fields fc)).s.file
        ++ expected cfg ["#refs#"] (toString (e * fc + f)) fld ∧
    (write_pool cfg junk (hid_t.obj ["#refs#"]) (hid_t.obj []) fc (e * fc + f + 1) 0 fields
        (loop_entry junk s v fields fc)).refs
      = refs_store
          (write_pool cfg junk (hid_t.obj ["#refs#"]) (hid_t.obj []) fc (e * fc + f) 0 fields
            (loop_entry junk s v fields fc)).refs f e (pool_ref (e * fc + f)) ∧
    (∃ d rs,
      (Mat_VarWrite73 cfg junk (some m) (some (matvar_t.mk v fields)) compress s).2.file.lookup
          [v.name, field_name fields f] = some d ∧
      d.data = H5Data.refs rs ∧ rs.get? e = some (pool_ref (e * fc + f))) ∧
    (∃ t,
      (Mat_VarWrite73 cfg junk (some m) (some (matvar_t.mk v fields)) compress s).2.file.lookup
          ["#refs#", toString (e * fc + f)] = some t ∧
      (expected cfg ["#refs#"] (toString (e * fc + f)) fld).head? = some t) := by
  have hi : e * fc + f < v.dims.prod * fc := index_lt he hf
  have hfcle : fc ≤ fields.length := by
    rw [hlen]; exact Nat.le_mul_of_pos_left fc (by omega)
  obtain ⟨hE1, hE2, hE3, hE4, _⟩ := loop_entry_ok junk s v fields fc hname hfree hpool
  -- the loop after `e * fc + f` and after one more iteration
  obtain ⟨hA1, hA2⟩ := write_pool_upto cfg junk h8 fc fields (e * fc + f) 0
    (loop_entry junk s v fields fc) (by omega) hplain hE1 hE2 hE3 hE4
  obtain ⟨hB1, hB2⟩ := write_pool_upto cfg junk h8 fc fields (e * fc + f + 1) 0
    (loop_entry junk s v fields fc) (by omega) hplain hE1 hE2 hE3 hE4
  have hAfile : (write_pool cfg junk (hid_t.obj ["#refs#"]) (hid_t.obj []) fc (e * fc + f) 0
      fields (loop_entry junk s v fields fc)).s.file
      = (loop_entry junk s v fields fc).s.file ++ expected_pool cfg 0 (fields.take (e * fc + f)) := by
    rw [hA1]
  have hBfile : (write_pool cfg junk (hid_t.obj ["#refs#"]) (hid_t.obj []) fc (e * fc + f + 1) 0
      fields (loop_entry junk s v fields fc)).s.file
      = (loop_entry junk s v fields fc).s.file
        ++ expected_pool cfg 0 (fields.take (e * fc + f + 1)) := by
    rw [hB1]
  have hcntA : (H5File.children ((loop_entry junk s v fields fc).s.file
      ++ expected_pool cfg 0 (fields.take (e * fc + f))) ["#refs#"]).length = e * fc + f := by
    rw [children_append, List.length_append, hE3, Nat.zero_add]
    have := congrArg List.length (children_expected_pool cfg (fields.take (e * fc + f)) 0)
    simp only [List.length_map, List.length_range', List.length_take] at this
    rw [this]
    omega
  have hfreeA : H5File.free ((loop_entry junk s v fields fc).s.file
      ++ expected_pool cfg 0 (fields.take (e * fc + f))) (["#refs#"] ++ [toString (e * fc + f)]) := by
    refine free_append (hE4 _ (Nat.zero_le _)) ?_
    intro n hn hp
    obtain ⟨j, _, hj2, hj3⟩ := expected_pool_range cfg _ 0 n hn
    have h2 := child_prefix_name hp hj3
    have := toString_nat_inj _ _ h2
    simp only [List.length_take] at hj2
    omega
  refine ⟨?_, ?_, ?_, ?_, ?_, ?_, ?_⟩
  · exact struct_array_unfold cfg junk m v fields compress s fc hroot hclass hrank h10 hdims
      hmany hsize hbytes hlen hname hfree hpool
  · rw [hAfile, num_objs_pool _ (has_append _ hE1) (is_group_append _ hE2), hcntA]
  · rw [hAfile]
    have hno : H5File.has ((loop_entry junk s v fields fc).s.file
        ++ expected_pool cfg 0 (fields.take (e * fc + f))) ["#refs#", toString (e * fc + f)]
        = false := free_has hfreeA (by simp)
    simp [H5Rcreate, H5File.resolve, loc_root, refs_member, hno]
  · rw [hBfile, hAfile, expected_pool_take_succ cfg fields (e * fc + f) fld hfld,
      List.append_assoc]
  · rw [hB2, hA2, store_range_succ, Nat.zero_add, (index_div_mod hf).1, (index_div_mod hf).2]
  · rw [struct_array_eq cfg junk m v fields compress s fc h8 hroot hclass hrank h10 hdims hmany
      hsize hbytes hlen hplain hnames hname hfree hpool]
    refine ⟨ref_node v.name fields v.dims fc v.dims.prod f, _, ?_, rfl, ?_⟩
    · simp only
      rw [lookup_append_of_not_has _ (fun x hx hp => hfree x hx (by
        rw [hp]; exact List.prefix_append [v.name] [_]))]
      have hsplit : struct_group [] v.name ((fields.take fc).map matvar_t.name) :: pool_group ::
          (expected_pool cfg 0 fields ++
            (List.range fc).map (ref_node v.name fields v.dims fc v.dims.prod))
          = ([struct_group [] v.name ((fields.take fc).map matvar_t.name), pool_group]
              ++ expected_pool cfg 0 fields)
            ++ (List.range fc).map (ref_node v.name fields v.dims fc v.dims.prod) := by
        simp
      rw [hsplit, lookup_append_of_not_has]
      · have hmem : ref_node v.name fields v.dims fc v.dims.prod f
            ∈ (List.range fc).map (ref_node v.name fields v.dims fc v.dims.prod) :=
          List.mem_map.2 ⟨f, List.mem_range.2 hf, rfl⟩
        exact lookup_of_mem_nodup _ _
          (ref_nodes_paths_nodup v.name fields v.dims fc v.dims.prod
            (by rw [fieldnames_of_take fields fc hfcle]; exact hnames)) hmem
      · intro x hx hp
        simp only [List.mem_append, List.mem_cons, List.mem_singleton, List.not_mem_nil,
          or_false] at hx
        rcases hx with (h | h) | h
        · rw [h] at hp; simp [struct_group] at hp
        · rw [h] at hp; simp [pool_group] at hp
        · have := expected_pool_below cfg fields 0 x h
          rw [hp] at this
          have h2 : "#refs#" = v.name := by simpa using this
          exact hname h2.symm
    · simp [List.get?_eq_getElem?, List.getElem?_eq_getElem, he]
  · obtain ⟨hd, tl, hexp, hpath, _⟩ := expected_cons cfg ["#refs#"] (toString (e * fc + f)) fld
    refine ⟨hd, ?_, by rw [hexp]; rfl⟩
    rw [struct_array_eq cfg junk m v fields compress s fc h8 hroot hclass hrank h10 hdims hmany
      hsize hbytes hlen hplain hnames hname hfree hpool]
    simp only
    rw [lookup_append_of_not_has _ (fun x hx hp => hpool x hx (by
      rw [hp]; exact List.prefix_append ["#refs#"] [_]))]
    have hsplit : struct_group [] v.name ((fields.take fc).map matvar_t.name) :: pool_group ::
        (expected_pool cfg 0 fields ++
          (List.range fc).map (ref_node v.name fields v.dims fc v.dims.prod))
        = [struct_group [] v.name ((fields.take fc).map matvar_t.name), pool_group]
          ++ (expected_pool cfg 0 fields
            ++ (List.range fc).map (ref_node v.name fields v.dims fc v.dims.prod)) := by
      simp
    rw [hsplit, lookup_append_of_not_has]
    · have hl := lookup_expected_pool cfg fields 0 (e * fc + f) fld hfld
      rw [Nat.zero_add, hexp] at hl
      simp only [List.head?_cons] at hl
      rw [lookup_append_of_has _ (by rw [hl]; rfl), hl]
    · intro x hx hp
      simp only [List.mem_cons, List.mem_singleton, List.not_mem_nil, or_false] at hx
      rcases hx with h | h
      · rw [h] at hp; simp [struct_group] at hp
      · rw [h] at hp; simp [pool_group] at hp

/-- C6 (witness): the amended statement at the struct array `sample_array`
(dims `[1, 2]`, fields `a` and `b`), element 1 and field 0: the payload entry
2 is written as `/#refs#/2` when the pool has two members, and the reference
at position 1 of `/s/a` points to it. -/
theorem struct_array_reference_targets_witness :
    Mat_VarWrite73 cfg_lp64 0 (some root_mat)
        (some (matvar_t.mk sample_array.info sample_array.fields)) 0 empty_state
      = (0,
         { (write_pool cfg_lp64 0 (hid_t.obj ["#refs#"]) (hid_t.obj []) 2
              (sample_array.info.dims.prod * 2) 0 sample_array.fields
              (loop_entry 0 empty_state sample_array.info sample_array.fields 2)).s with
           file :=
             write_ref_datasets (hid_t.obj [sample_array.info.name]) sample_array.fields 2
               sample_array.info.dims.reverse
               (write_pool cfg_lp64 0 (hid_t.obj ["#refs#"]) (hid_t.obj []) 2
                 (sample_array.info.dims.prod * 2) 0 sample_array.fields
                 (loop_entry 0 empty_state sample_array.info sample_array.fields 2)).refs
               (write_pool cfg_lp64 0 (hid_t.obj ["#refs#"]) (hid_t.obj []) 2
                 (sample_array.info.dims.prod * 2) 0 sample_array.fields
                 (loop_entry 0 empty_state sample_array.info sample_array.fields 2)).s.file }) ∧
    H5Gget_num_objs
        (write_pool cfg_lp64 0 (hid_t.obj ["#refs#"]) (hid_t.obj []) 2 (1 * 2 + 0) 0
          sample_array.fields
          (loop_entry 0 empty_state sample_array.info sample_array.fields 2)).s.file
        (hid_t.obj ["#refs#"])
      = some (1 * 2 + 0) ∧
    H5Rcreate
        (write_pool cfg_lp64 0 (hid_t.obj ["#refs#"]) (hid_t.obj []) 2 (1 * 2 + 0) 0
          sample_array.fields
          (loop_entry 0 empty_state sample_array.info sample_array.fields 2)).s.file
        (hid_t.obj []) (refs_member (1 * 2 + 0))
      = none ∧
    (write_pool cfg_lp64 0 (hid_t.obj ["#refs#"]) (hid_t.obj []) 2 (1 * 2 + 0 + 1) 0
        sample_array.fields
        (loop_entry 0 empty_state sample_array.info sample_array.fields 2)).s.file
      = (write_pool cfg_lp64 0 (hid_t.obj ["#refs#"]) (hid_t.obj []) 2 (1 * 2 + 0) 0
          sample_array.fields
          (loop_entry 0 empty_state sample_array.info sample_array.fields 2)).s.file
        ++ expected cfg_lp64 ["#refs#"] (toString (1 * 2 + 0))
            (sample_numeric "a" MAT_C_DOUBLE MAT_T_DOUBLE [1, 2] [2, 3]) ∧
    (write_pool cfg_lp64 0 (hid_t.obj ["#refs#"]) (hid_t.obj []) 2 (1 * 2 + 0 + 1) 0
        sample_array.fields
        (loop_entry 0 empty_state sample_array.info sample_array.fields 2)).refs
      = refs_store
          (write_pool cfg_lp64 0 (hid_t.obj ["#refs#"]) (hid_t.obj []) 2 (1 * 2 + 0) 0
            sample_array.fields
            (loop_entry 0 empty_state sample_array.info sample_array.fields 2)).refs
          0 1 (pool_ref (1 * 2 + 0)) ∧
    (∃ d rs,
      (Mat_VarWrite73 cfg_lp64 0 (some root_mat)
          (some (matvar_t.mk sample_array.info sample_array.fields)) 0
          empty_state).2.file.lookup
          [sample_array.info.name, field_name sample_array.fields 0] = some d ∧
      d.data = H5Data.refs rs ∧ rs.get? 1 = some (pool_ref (1 * 2 + 0))) ∧
    (∃ t,
      (Mat_VarWrite73 cfg_lp64 0 (some root_mat)
          (some (matvar_t.mk sample_array.info sample_array.fields)) 0
          empty_state).2.file.lookup ["#refs#", toString (1 * 2 + 0)] = some t ∧
      (expected cfg_lp64 ["#refs#"] (toString (1 * 2 + 0))
        (sample_numeric "a" MAT_C_DOUBLE MAT_T_DOUBLE [1, 2] [2, 3])).head? = some t) :=
  struct_array_reference_targets cfg_lp64 0 root_mat sample_array.info sample_array.fields 0
    empty_state 2 rfl rfl rfl rfl (by decide) (by decide) (by decide) (by decide) (by decide)
    (by decide) (by decide) (by decide) (by decide) (by decide) (by decide) 1 0 (by decide)
    (by decide) (sample_numeric "a" MAT_C_DOUBLE MAT_T_DOUBLE [1, 2] [2, 3]) rfl

/-- The case that C6 (amended) leaves out, a container that already has a
pool: write the struct array `s` (dims `[1, 2]`, one double
field `a` with values 1 and 2) into the empty container, then the struct array
`t` (dims `[1, 2]`, one double field `b` with values 3 and 4).  The first write
leaves the pool members `0` and `1`.  The second finds the pool, so the
statement of line 1057 leaves 0 in `refs_id`: both calls return 0, the pool
keeps exactly its two members, no member `2` or `3` is written, and the two
references of `/t/b` are unset when the uninitialised `num_obj` holds 7, or
both point at `/#refs#/0`, the value 1 of `s`, when it holds 0. -/
theorem existing_pool_is_not_reopened :
    ((Mat_VarWrite73 cfg_lp64 7 (some root_mat)
      (some (sample_struct "s" [1, 2]
        [sample_numeric "a" MAT_C_DOUBLE MAT_T_DOUBLE [1, 1] [1],
         sample_numeric "a" MAT_C_DOUBLE MAT_T_DOUBLE [1, 1] [2]])) 0
      empty_state).2.file.children ["#refs#"]).map H5Node.name = ["0", "1"] ∧
    (Mat_VarWrite73 cfg_lp64 7 (some root_mat)
      (some (sample_struct "t" [1, 2]
        [sample_numeric "b" MAT_C_DOUBLE MAT_T_DOUBLE [1, 1] [3],
         sample_numeric "b" MAT_C_DOUBLE MAT_T_DOUBLE [1, 1] [4]])) 0
      (Mat_VarWrite73 cfg_lp64 7 (some root_mat)
        (some (sample_struct "s" [1, 2]
          [sample_numeric "a" MAT_C_DOUBLE MAT_T_DOUBLE [1, 1] [1],
           sample_numeric "a" MAT_C_DOUBLE MAT_T_DOUBLE [1, 1] [2]])) 0 empty_state).2).1 = 0 ∧
    ((Mat_VarWrite73 cfg_lp64 7 (some root_mat)
      (some (sample_struct "t" [1, 2]
        [sample_numeric "b" MAT_C_DOUBLE MAT_T_DOUBLE [1, 1] [3],
         sample_numeric "b" MAT_C_DOUBLE MAT_T_DOUBLE [1, 1] [4]])) 0
      (Mat_VarWrite73 cfg_lp64 7 (some root_mat)
        (some (sample_struct "s" [1, 2]
          [sample_numeric "a" MAT_C_DOUBLE MAT_T_DOUBLE [1, 1] [1],
           sample_numeric "a" MAT_C_DOUBLE MAT_T_DOUBLE [1, 1] [2]])) 0
        empty_state).2).2.file.children ["#refs#"]).map H5Node.name = ["0", "1"] ∧
    (Mat_VarWrite73 cfg_lp64 7 (some root_mat)
      (some (sample_struct "t" [1, 2]
        [sample_numeric "b" MAT_C_DOUBLE MAT_T_DOUBLE [1, 1] [3],
         sample_numeric "b" MAT_C_DOUBLE MAT_T_DOUBLE [1, 1] [4]])) 0
      (Mat_VarWrite73 cfg_lp64 7 (some root_mat)
        (some (sample_struct "s" [1, 2]
          [sample_numeric "a" MAT_C_DOUBLE MAT_T_DOUBLE [1, 1] [1],
           sample_numeric "a" MAT_C_DOUBLE MAT_T_DOUBLE [1, 1] [2]])) 0
        empty_state).2).2.file.lookup ["#refs#", "2"] = none ∧
    (Mat_VarWrite73 cfg_lp64 7 (some root_mat)
      (some (sample_struct "t" [1, 2]
        [sample_numeric "b" MAT_C_DOUBLE MAT_T_DOUBLE [1, 1] [3],
         sample_numeric "b" MAT_C_DOUBLE MAT_T_DOUBLE [1, 1] [4]])) 0
      (Mat_VarWrite73 cfg_lp64 7 (some root_mat)
        (some (sample_struct "s" [1, 2]
          [sample_numeric "a" MAT_C_DOUBLE MAT_T_DOUBLE [1, 1] [1],
           sample_numeric "a" MAT_C_DOUBLE MAT_T_DOUBLE [1, 1] [2]])) 0
        empty_state).2).2.file.lookup ["#refs#", "3"] = none ∧
    ((Mat_VarWrite73 cfg_lp64 7 (some root_mat)
      (some (sample_struct "t" [1, 2]
        [sample_numeric "b" MAT_C_DOUBLE MAT_T_DOUBLE [1, 1] [3],
         sample_numeric "b" MAT_C_DOUBLE MAT_T_DOUBLE [1, 1] [4]])) 0
      (Mat_VarWrite73 cfg_lp64 7 (some root_mat)
        (some (sample_struct "s" [1, 2]
          [sample_numeric "a" MAT_C_DOUBLE MAT_T_DOUBLE [1, 1] [1],
           sample_numeric "a" MAT_C_DOUBLE MAT_T_DOUBLE [1, 1] [2]])) 0
        empty_state).2).2.file.lookup ["t", "b"]).map H5Node.data
      = some (H5Data.refs [none, none]) ∧
    ((Mat_VarWrite73 cfg_lp64 0 (some root_mat)
      (some (sample_struct "t" [1, 2]
        [sample_numeric "b" MAT_C_DOUBLE MAT_T_DOUBLE [1, 1] [3],
         sample_numeric "b" MAT_C_DOUBLE MAT_T_DOUBLE [1, 1] [4]])) 0
      (Mat_VarWrite73 cfg_lp64 0 (some root_mat)
        (some (sample_struct "s" [1, 2]
          [sample_numeric "a" MAT_C_DOUBLE MAT_T_DOUBLE [1, 1] [1],
           sample_numeric "a" MAT_C_DOUBLE MAT_T_DOUBLE [1, 1] [2]])) 0
        empty_state).2).2.file.lookup ["t", "b"]).map H5Node.data
      = some (H5Data.refs [some ["#refs#", "0"], some ["#refs#", "0"]]) ∧
    ((Mat_VarWrite73 cfg_lp64 0 (some root_mat)
      (some (sample_struct "t" [1, 2]
        [sample_numeric "b" MAT_C_DOUBLE MAT_T_DOUBLE [1, 1] [3],
         sample_numeric "b" MAT_C_DOUBLE MAT_T_DOUBLE [1, 1] [4]])) 0
      (Mat_VarWrite73 cfg_lp64 0 (some root_mat)
        (some (sample_struct "s" [1, 2]
          [sample_numeric "a" MAT_C_DOUBLE MAT_T_DOUBLE [1, 1] [1],
           sample_numeric "a" MAT_C_DOUBLE MAT_T_DOUBLE [1, 1] [2]])) 0
        empty_state).2).2.file.lookup ["#refs#", "0"]).map H5Node.data
      = some (H5Data.values H5T_NATIVE_DOUBLE [1]) := by
  decide

/-! ## C7: names in the reference pool -/

/-- On a container whose objects have pairwise distinct paths, after any two
variables have been written one after the other with `Mat_VarWrite73`, the
members of the group `/#refs#` have pairwise distinct names: the encoders only
append objects that the engine accepts. -/
theorem pool_member_names_stay_distinct (cfg : CConfig) (junk : Nat) (m : mat_t)
    (v1 v2 : matvar_t) (c1 c2 : Int) (s : State) (hs : s.file.paths.Nodup) :
    ((Mat_VarWrite73 cfg junk (some m) (some v2) c2
        (Mat_VarWrite73 cfg junk (some m) (some v1) c1 s).2).2.file.member_names
      ["#refs#"]).Nodup := by
  apply member_names_nodup
  exact (grows_VarWrite cfg junk _ _ c2 _).2 ((grows_VarWrite cfg junk _ _ c1 s).2 hs)

/-- C8 (counterexample): a struct variable with dims `[1, 2]` and a payload of
three fields (3 is no multiple of 2) is written without complaint:
`Mat_VarWrite73` returns 0, nothing is reported, and the group carries a field
list of one name, the quotient of the truncating division. -/
theorem odd_payload_is_truncated :
    3 % [1, 2].prod ≠ 0 ∧
    (Mat_VarWrite73 cfg_lp64 0 (some root_mat)
      (some (sample_struct "s" [1, 2]
        [sample_numeric "a" MAT_C_DOUBLE MAT_T_DOUBLE [1, 1] [1],
         sample_numeric "b" MAT_C_DOUBLE MAT_T_DOUBLE [1, 1] [2],
         sample_numeric "a" MAT_C_DOUBLE MAT_T_DOUBLE [1, 1] [3]])) 0 empty_state).1 = 0 ∧
    (Mat_VarWrite73 cfg_lp64 0 (some root_mat)
      (some (sample_struct "s" [1, 2]
        [sample_numeric "a" MAT_C_DOUBLE MAT_T_DOUBLE [1, 1] [1],
         sample_numeric "b" MAT_C_DOUBLE MAT_T_DOUBLE [1, 1] [2],
         sample_numeric "a" MAT_C_DOUBLE MAT_T_DOUBLE [1, 1] [3]])) 0 empty_state).2.log = [] ∧
    ((Mat_VarWrite73 cfg_lp64 0 (some root_mat)
      (some (sample_struct "s" [1, 2]
        [sample_numeric "a" MAT_C_DOUBLE MAT_T_DOUBLE [1, 1] [1],
         sample_numeric "b" MAT_C_DOUBLE MAT_T_DOUBLE [1, 1] [2],
         sample_numeric "a" MAT_C_DOUBLE MAT_T_DOUBLE [1, 1] [3]])) 0 empty_state).2.file.lookup
        ["s"]).map (fun g => g.attrs)
      = some [("MATLAB_class", H5Attr.str "struct"), ("MATLAB_fields", H5Attr.vlen ["a"])] := by
  decide

/-- C8 (amended): `Mat_VarWrite73` makes no check of the payload length of a
struct variable against its element count.  For every struct variable of rank
at most 10 with positive dims and field-pointer size, a payload of
`nbytes / data_size` fields that are sized in the same way themselves,
`product(dims) * data_size` and `nbytes` below `2 ^ 64` (whether or not the payload length is a multiple of the element
count) and a name not yet used under the root, the machine computes the field
count `(nbytes / data_size) / product(dims)`, the quotient of the truncating
division, without wrap-around or trap, the call returns 0 and the group it
creates carries a `MATLAB_fields` list of that many names. -/
theorem struct_field_count_truncates (cfg : CConfig) (junk : Nat) (m : mat_t)
    (v : matvar_info) (fields : List matvar_t) (compress : Int) (s : State)
    (hroot : m.fp = hid_t.obj []) (hclass : v.class_type = MAT_C_STRUCT)
    (hrank : v.rank = v.dims.length) (hdims : v.dims ≠ [])
    (hpos : 0 < v.dims.prod * v.data_size)
    (hfresh : s.file.has [v.name] = false)
    (_h10 : v.rank ≤ 10) (hbytes : v.nbytes = fields.length * v.data_size)
    (hfit : v.dims.prod * v.data_size < 2 ^ 64) (hnb : v.nbytes < 2 ^ 64)
    (_hfields : sized_all fields = true) :
    nfields_hsize v = some (v.nbytes / v.data_size / v.dims.prod) ∧
    fieldnames_of fields (v.nbytes / v.data_size / v.dims.prod)
      = (fields.take (v.nbytes / v.data_size / v.dims.prod)).map matvar_t.name ∧
    (Mat_VarWrite73 cfg junk (some m) (some (matvar_t.mk v fields)) compress s).1 = 0 ∧
    ∃ g ∈ (Mat_VarWrite73 cfg junk (some m) (some (matvar_t.mk v fields)) compress s).2.file,
      g.path = [v.name] ∧ g.kind = H5G_GROUP ∧
      g.attrs.lookup "MATLAB_fields"
        = some (H5Attr.vlen (fieldnames_of fields (v.nbytes / v.data_size / v.dims.prod))) ∧
      (fieldnames_of fields (v.nbytes / v.data_size / v.dims.prod)).length
        = v.nbytes / v.data_size / v.dims.prod := by
  have hn : numeric_case v.class_type = false := by rw [hclass]; exact struct_not_numeric
  have hnc : v.class_type ≠ MAT_C_CHAR := by rw [hclass]; decide
  have hnf : nfields_of v = v.nbytes / v.data_size / v.dims.prod := by
    unfold nfields_of
    rw [nmemb_of_eq_prod v hrank hdims, Nat.div_div_eq_div_mul, Nat.mul_comm]
  have hg := H5Gcreate_ok s.file (hid_t.obj []) [] v.name (loc_root _) (is_group_root _)
    (by simpa using hfresh)
  simp only [List.nil_append] at hg
  have hhead : H5Acreate_write
      (H5Acreate_write (H5Gcreate s.file (hid_t.obj []) (H5Name.rel v.name)).2
        (H5Gcreate s.file (hid_t.obj []) (H5Name.rel v.name)).1 "MATLAB_class" (H5Attr.str "struct"))
      (H5Gcreate s.file (hid_t.obj []) (H5Name.rel v.name)).1 "MATLAB_fields"
        (H5Attr.vlen (fieldnames_of fields (nfields_of v)))
      = s.file ++ [⟨[v.name], H5G_GROUP, H5T.invalid, [],
          [("MATLAB_class", H5Attr.str "struct"),
           ("MATLAB_fields", H5Attr.vlen (fieldnames_of fields (nfields_of v)))], H5Data.empty⟩] := by
    rw [hg]
    simp only
    rw [H5Acreate_write_new s.file ⟨[v.name], H5G_GROUP, H5T.invalid, [], [], H5Data.empty⟩
      _ _ hfresh rfl]
    rw [H5Acreate_write_new s.file ⟨[v.name], H5G_GROUP, H5T.invalid, [],
      [] ++ [("MATLAB_class", H5Attr.str "struct")], H5Data.empty⟩ "MATLAB_fields" _ hfresh
      (by simp [List.lookup])]
    rfl
  have hlt : (H5Gcreate s.file (hid_t.obj []) (H5Name.rel v.name)).1.lt_zero = false := by
    rw [hg]; rfl
  have key : ∀ F : H5File,
      grows (s.file ++ [⟨[v.name], H5G_GROUP, H5T.invalid, [],
          [("MATLAB_class", H5Attr.str "struct"),
           ("MATLAB_fields", H5Attr.vlen (fieldnames_of fields (nfields_of v)))], H5Data.empty⟩]) F →
      ∃ g ∈ F, g.path = [v.name] ∧ g.kind = H5G_GROUP ∧
        g.attrs.lookup "MATLAB_fields"
          = some (H5Attr.vlen (fieldnames_of fields (v.nbytes / v.data_size / v.dims.prod))) ∧
        (fieldnames_of fields (v.nbytes / v.data_size / v.dims.prod)).length
          = v.nbytes / v.data_size / v.dims.prod := by
    intro F hF
    refine ⟨_, hF.1.subset (List.mem_append_right _ (List.mem_singleton_self _)), rfl, rfl, ?_,
      fieldnames_length _ _⟩
    rw [hnf]
    simp [List.lookup]
  have hle : v.nbytes / v.data_size / v.dims.prod ≤ fields.length := by
    rw [hbytes, Nat.mul_div_cancel _ (Nat.pos_of_mul_pos_left hpos)]
    exact Nat.div_le_self _ _
  refine ⟨by rw [(hsize_agrees v hrank hdims hpos hfit hnb).2, hnf],
    fieldnames_of_take fields _ hle, ?_⟩
  simp only [Mat_VarWrite73]
  rw [if_neg (by simp [hn]), if_neg hnc, if_pos hclass, hroot]
  simp only [hlt, Bool.false_eq_true, if_false]
  split_ifs
  · refine ⟨rfl, key _ ?_⟩
    rw [← hhead]
    exact grows_fields cfg junk fields _ _ ⟨_, _⟩
  · refine ⟨rfl, key _ ?_⟩
    rw [← hhead]
    exact grows_open_refs _ _
  · refine ⟨rfl, key _ ?_⟩
    rw [← hhead]
    exact grows_trans (grows_open_refs _ _)
      (grows_trans (grows_pool cfg junk fields _ _ _ _ _ ⟨⟨_, _⟩, _, _⟩)
        (grows_write_ref_datasets _ _ _ _ _ _))

/-- C8 (witness): the amended statement at a struct variable with dims
`[1, 2]` and a payload of three fields. -/
theorem struct_field_count_truncates_witness :
    nfields_hsize (sample_struct "s" [1, 2]
        [sample_numeric "a" MAT_C_DOUBLE MAT_T_DOUBLE [1, 1] [1],
         sample_numeric "b" MAT_C_DOUBLE MAT_T_DOUBLE [1, 1] [2],
         sample_numeric "a" MAT_C_DOUBLE MAT_T_DOUBLE [1, 1] [3]]).info
      = some (24 / 8 / [1, 2].prod) ∧
    fieldnames_of
        [sample_numeric "a" MAT_C_DOUBLE MAT_T_DOUBLE [1, 1] [1],
         sample_numeric "b" MAT_C_DOUBLE MAT_T_DOUBLE [1, 1] [2],
         sample_numeric "a" MAT_C_DOUBLE MAT_T_DOUBLE [1, 1] [3]] (24 / 8 / [1, 2].prod)
      = ([sample_numeric "a" MAT_C_DOUBLE MAT_T_DOUBLE [1, 1] [1],
          sample_numeric "b" MAT_C_DOUBLE MAT_T_DOUBLE [1, 1] [2],
          sample_numeric "a" MAT_C_DOUBLE MAT_T_DOUBLE [1, 1] [3]].take
            (24 / 8 / [1, 2].prod)).map matvar_t.name ∧
    (Mat_VarWrite73 cfg_lp64 0 (some root_mat)
      (some (sample_struct "s" [1, 2]
        [sample_numeric "a" MAT_C_DOUBLE MAT_T_DOUBLE [1, 1] [1],
         sample_numeric "b" MAT_C_DOUBLE MAT_T_DOUBLE [1, 1] [2],
         sample_numeric "a" MAT_C_DOUBLE MAT_T_DOUBLE [1, 1] [3]])) 0 empty_state).1 = 0 ∧
    ∃ g ∈ (Mat_VarWrite73 cfg_lp64 0 (some root_mat)
      (some (sample_struct "s" [1, 2]
        [sample_numeric "a" MAT_C_DOUBLE MAT_T_DOUBLE [1, 1] [1],
         sample_numeric "b" MAT_C_DOUBLE MAT_T_DOUBLE [1, 1] [2],
         sample_numeric "a" MAT_C_DOUBLE MAT_T_DOUBLE [1, 1] [3]])) 0 empty_state).2.file,
      g.path = ["s"] ∧ g.kind = H5G_GROUP ∧
      g.attrs.lookup "MATLAB_fields" = some (H5Attr.vlen ["a"]) ∧
      ["a"].length = 24 / 8 / [1, 2].prod :=
  struct_field_count_truncates cfg_lp64 0 root_mat _ _ 0 empty_state rfl rfl rfl
    (by decide) (by decide) (by decide) (by decide) (by decide) (by decide) (by decide)
    (by decide)

/-! ## C9: the return value -/

/-- C9 (evaluation at the failing input): when the container root already has
an object named `s`, writing a struct variable named `s` makes `H5Gcreate`
fail; `Mat_VarWrite73` reports it through `Mat_Critical`, writes nothing and
returns 0. -/
theorem group_creation_failure_returns_zero :
    H5Gcreate
      [{ path := ["s"], kind := H5G_GROUP, dtype := H5T.invalid, shape := [], attrs := [],
         data := H5Data.empty }]
      (hid_t.obj []) (H5Name.rel "s")
      = (hid_t.fail,
         [{ path := ["s"], kind := H5G_GROUP, dtype := H5T.invalid, shape := [], attrs := [],
            data := H5Data.empty }]) ∧
    Mat_VarWrite73 cfg_lp64 0 (some root_mat)
      (some (sample_struct "s" [1, 1]
        [sample_numeric "a" MAT_C_DOUBLE MAT_T_DOUBLE [1, 1] [7]]))
      0
      ⟨[{ path := ["s"], kind := H5G_GROUP, dtype := H5T.invalid, shape := [], attrs := [],
          data := H5Data.empty }], []⟩
      = (0,
         ⟨[{ path := ["s"], kind := H5G_GROUP, dtype := H5T.invalid, shape := [], attrs := [],
             data := H5Data.empty }],
          ["Error creating group for struct s"]⟩) := by
  decide

/-! ## C10: char variables -/

/-- C10 (counterexample): a char variable whose storage type is double, which
is none of UTF-32, int32, uint32, is written without any dataset being created:
the container stays empty. -/
theorem char_double_storage_creates_nothing :
    Mat_VarWrite73 cfg_lp64 0 (some root_mat)
      (some (sample_char "c" MAT_T_DOUBLE [1, 3] [104, 105, 33])) 0 empty_state
      = (0, empty_state) := by
  decide

/-- C10 (amended): for a char variable whose storage type is one of UTF-32,
int32, uint32, UTF-16, UTF-8, int16, uint16, int8, uint8, with rank at most 10
and a name not yet used under the root, on a build that has integer types of
32 and of 16 bits, `Mat_VarWrite73` returns 0 and adds exactly one object: a
dataset named after the variable, of the reversed dims, whose element type is
32 bits wide for the storage types UTF-32, int32 and uint32 and 16 bits wide
for the other six, and which carries the attributes `MATLAB_class` = "char"
and `MATLAB_int_decode` = 2. -/
theorem char_write_one_dataset (cfg : CConfig) (junk : Nat) (m : mat_t)
    (v : matvar_info) (fields : List matvar_t) (compress : Int) (s : State)
    (h32 : cfg.has_width 32) (h16 : cfg.has_width 16)
    (hroot : m.fp = hid_t.obj []) (hclass : v.class_type = MAT_C_CHAR)
    (hdt : v.data_type ∈ [MAT_T_UTF32, MAT_T_INT32, MAT_T_UINT32, MAT_T_UTF16, MAT_T_UTF8,
      MAT_T_INT16, MAT_T_UINT16, MAT_T_INT8, MAT_T_UINT8])
    (hrank : v.rank = v.dims.length) (h10 : v.rank ≤ 10)
    (hfresh : s.file.has [v.name] = false) :
    ∃ n : H5Node,
      Mat_VarWrite73 cfg junk (some m) (some (matvar_t.mk v fields)) compress s
        = (0, { s with file := s.file ++ [n] }) ∧
      n.path = [v.name] ∧ n.kind = H5G_DATASET ∧ n.shape = v.dims.reverse ∧
      n.dtype.int_bits cfg
        = (if v.data_type ∈ [MAT_T_UTF32, MAT_T_INT32, MAT_T_UINT32] then 32 else 16) ∧
      n.attrs = [("MATLAB_class", H5Attr.str "char"), ("MATLAB_int_decode", H5Attr.int 2)] := by
  have hty : Mat_class_type_to_hid_t cfg (char_storage_class v.data_type) ≠ H5T.invalid := by
    unfold char_storage_class
    split_ifs
    · exact (uint32_type cfg h32).2
    · exact (uint16_type cfg h16).2
  refine ⟨char_node cfg [] v.name v, ?_, rfl, rfl, rfl, ?_, ?_⟩
  · simp only [Mat_VarWrite73]
    rw [if_neg (by rw [hclass, char_not_numeric]; simp), if_pos hclass, hroot]
    rw [write_char_eq cfg junk s.file (hid_t.obj []) [] v.name v (loc_root _) (is_group_root _)
      (by simpa using hfresh) hdt hty hrank h10]
  · simp only [char_node, char_storage_class]
    split_ifs
    · exact (uint32_type cfg h32).1
    · exact (uint16_type cfg h16).1
  · simp [char_node, hclass, MAT_C_CHAR, Mat_class_names]

/-- C10 (witness): the amended statement at a UTF-8 char variable with dims
`[1, 3]` and the empty container. -/
theorem char_write_one_dataset_witness :
    ∃ n : H5Node,
      Mat_VarWrite73 cfg_lp64 0 (some root_mat)
        (some (sample_char "c" MAT_T_UTF8 [1, 3] [104, 105, 33])) 0 empty_state
        = (0, { empty_state with file := empty_state.file ++ [n] }) ∧
      n.path = ["c"] ∧ n.kind = H5G_DATASET ∧ n.shape = [3, 1] ∧
      n.dtype.int_bits cfg_lp64 = 16 ∧
      n.attrs = [("MATLAB_class", H5Attr.str "char"), ("MATLAB_int_decode", H5Attr.int 2)] :=
  char_write_one_dataset cfg_lp64 0 root_mat _ [] 0 empty_state
    (Or.inr (Or.inr (Or.inl rfl))) (Or.inr (Or.inl rfl)) rfl rfl (by decide) rfl
    (by decide) (by decide)

/-! ## C11: complex packing -/

/-- C11: take a complex variable of class int8, uint8, int16, uint16, int32 or
uint32 whose rank is the length of its dims, at most 10, with `n` the product
of its dims and split buffers `Re` and `Im` of `n` values each.  The count
`numel` of the packing loop is `n`, the packed buffer has `2 * n` values with
`Re[j]` at position `2 * j` and `Im[j]` at position `2 * j + 1` for every
`j < n`, and reading its even and its odd positions gives back `Re` and `Im`.
On a build with 8-bit bytes and under a name not yet used under the root,
both encoders, `Mat_VarWrite73` and `Mat_WriteNextStructField73` at the root,
return 0 and add one dataset, whose content is that buffer in the two-member
record type of the class. -/
theorem complex_buffer_interleaved (cfg : CConfig) (junk : Nat) (m : mat_t)
    (v : matvar_info) (fields : List matvar_t) (compress : Int) (s : State)
    (h8 : cfg.CHAR_BIT = 8) (hroot : m.fp = hid_t.obj [])
    (hclass : v.class_type ∈ [MAT_C_INT8, MAT_C_UINT8, MAT_C_INT16, MAT_C_UINT16,
      MAT_C_INT32, MAT_C_UINT32])
    (hcomplex : v.isComplex = true)
    (hrank : v.rank = v.dims.length) (h10 : v.rank ≤ 10)
    (hRe : v.Re.length = v.dims.prod) (hIm : v.Im.length = v.dims.prod)
    (hfresh : s.file.has [v.name] = false) :
    (permute_numel v).2 = v.dims.prod ∧
    (interleave (permute_numel v).2 v.Re v.Im).length = 2 * v.dims.prod ∧
    (∀ j, j < v.dims.prod →
      (interleave (permute_numel v).2 v.Re v.Im).get? (2 * j) = v.Re.get? j ∧
      (interleave (permute_numel v).2 v.Re v.Im).get? (2 * j + 1) = v.Im.get? j) ∧
    (List.range v.dims.prod).map
        (fun j => (interleave (permute_numel v).2 v.Re v.Im).getD (2 * j) 0) = v.Re ∧
    (List.range v.dims.prod).map
        (fun j => (interleave (permute_numel v).2 v.Re v.Im).getD (2 * j + 1) 0) = v.Im ∧
    Mat_VarWrite73 cfg junk (some m) (some (matvar_t.mk v fields)) compress s
      = (0, { s with file := s.file ++
          [{ path := [v.name]
             kind := H5G_DATASET
             dtype := H5T.compound (Mat_class_type_to_hid_t cfg v.class_type)
             shape := v.dims.reverse
             attrs := [("MATLAB_class", H5Attr.str (Mat_class_names.getD v.class_type ""))]
             data := H5Data.values (H5T.compound (Mat_class_type_to_hid_t cfg v.class_type))
               (interleave (permute_numel v).2 v.Re v.Im) }] }) ∧
    Mat_WriteNextStructField73 cfg junk m.fp (matvar_t.mk v fields) v.name s
      = Mat_VarWrite73 cfg junk (some m) (some (matvar_t.mk v fields)) compress s := by
  have hn := permute_numel_snd v hrank h10
  have hc : numeric_case v.class_type = true := by
    simp only [List.mem_cons, List.mem_singleton, List.not_mem_nil, or_false] at hclass
    rcases hclass with h | h | h | h | h | h <;> rw [h] <;> decide
  have hget : ∀ j, j < v.dims.prod →
      (interleave (permute_numel v).2 v.Re v.Im).get? (2 * j) = v.Re.get? j ∧
      (interleave (permute_numel v).2 v.Re v.Im).get? (2 * j + 1) = v.Im.get? j := by
    intro j hj
    rw [hn, ← hRe]
    exact interleave_get v.Re v.Im (by rw [hRe, hIm]) j (by rw [hRe]; exact hj)
  refine ⟨hn, ?_, hget, ?_, ?_, ?_, ?_⟩
  · rw [interleave_length, hn]
  · have h1 : (List.range v.dims.prod).map
        (fun j => (interleave (permute_numel v).2 v.Re v.Im).getD (2 * j) 0)
        = (List.range v.dims.prod).map (fun j => v.Re.getD j 0) := by
      apply List.map_congr_left
      intro j hj
      simp only [List.getD_eq_getElem?_getD, ← List.get?_eq_getElem?]
      rw [(hget j (List.mem_range.1 hj)).1]
    rw [h1, ← hRe]
    exact range_map_getD v.Re
  · have h1 : (List.range v.dims.prod).map
        (fun j => (interleave (permute_numel v).2 v.Re v.Im).getD (2 * j + 1) 0)
        = (List.range v.dims.prod).map (fun j => v.Im.getD j 0) := by
      apply List.map_congr_left
      intro j hj
      simp only [List.getD_eq_getElem?_getD, ← List.get?_eq_getElem?]
      rw [(hget j (List.mem_range.1 hj)).2]
    rw [h1, ← hIm]
    exact range_map_getD v.Im
  · simp only [Mat_VarWrite73, hc, if_true, hroot]
    rw [write_numeric_eq cfg s.file (hid_t.obj []) [] v.name v (loc_root _) (is_group_root _)
      (by simpa using hfresh) h8 hc hrank h10]
    simp [numeric_dataset, hcomplex]
  · rw [Mat_WriteNextStructField73]
    simp only [Mat_VarWrite73, hc, if_true, hroot]

/-- C11 (witness): a complex int16 variable with dims `[2, 2]`, real parts
1, 2, 3, 4 and imaginary parts 5, 6, 7, 8, written into the empty container. -/
theorem complex_buffer_interleaved_witness :
    (permute_numel (sample_complex "z" MAT_C_INT16 MAT_T_INT16 [2, 2] [1, 2, 3, 4]
      [5, 6, 7, 8]).info).2 = 4 ∧
    interleave 4 [1, 2, 3, 4] [5, 6, 7, 8] = [1, 5, 2, 6, 3, 7, 4, 8] ∧
    Mat_VarWrite73 cfg_lp64 0 (some root_mat)
      (some (sample_complex "z" MAT_C_INT16 MAT_T_INT16 [2, 2] [1, 2, 3, 4] [5, 6, 7, 8]))
      0 empty_state
      = (0, ⟨[{ path := ["z"]
                kind := H5G_DATASET
                dtype := H5T.compound H5T_NATIVE_SHORT
                shape := [2, 2]
                attrs := [("MATLAB_class", H5Attr.str "int16")]
                data := H5Data.values (H5T.compound H5T_NATIVE_SHORT)
                  [1, 5, 2, 6, 3, 7, 4, 8] }], []⟩) :=
  ⟨(complex_buffer_interleaved cfg_lp64 0 root_mat _ [] 0 empty_state rfl rfl
      (by decide) rfl rfl (by decide) (by decide) (by decide) (by decide)).1,
    by decide,
    (complex_buffer_interleaved cfg_lp64 0 root_mat _ [] 0 empty_state rfl rfl
      (by decide) rfl rfl (by decide) (by decide) (by decide) (by decide)).2.2.2.2.2.1⟩

/-! ## C12: the attributes of a struct group -/

/-- What the encoder does with a repeated field name, which the data model
excludes among the fields of one element: for a struct with dims `[1, 1]` and
two fields that are both named `a`, the `MATLAB_fields` attribute lists `a`
twice; no statement of the encoders compares or removes names. -/
theorem struct_fields_attribute_keeps_duplicates :
    nfields_of (sample_struct "s" [1, 1]
        [sample_numeric "a" MAT_C_DOUBLE MAT_T_DOUBLE [1, 1] [1],
         sample_numeric "a" MAT_C_DOUBLE MAT_T_DOUBLE [1, 1] [2]]).info = 2 ∧
    ((Mat_VarWrite73 cfg_lp64 0 (some root_mat)
      (some (sample_struct "s" [1, 1]
        [sample_numeric "a" MAT_C_DOUBLE MAT_T_DOUBLE [1, 1] [1],
         sample_numeric "a" MAT_C_DOUBLE MAT_T_DOUBLE [1, 1] [2]])) 0
      empty_state).2.file.lookup ["s"]).map (fun g => g.attrs)
      = some [("MATLAB_class", H5Attr.str "struct"),
              ("MATLAB_fields", H5Attr.vlen ["a", "a"])] ∧
    (["a", "a"] : List String).dedup = ["a"] ∧
    ¬ (["a", "a"] : List String).Nodup := by
  decide

/-- C13: the class tags cell, struct, object, char, sparse, double, single,
int8, uint8, int16, uint16, int32, uint32, int64, uint64 and function are the
numbers 1 to 16; for every class tag `c` among them `Mat_class_str_to_id`
applied to the name `Mat_class_names[c]` returns `c`; and the 16 names are
pairwise distinct. -/
theorem class_name_round_trip (c : Nat) (h1 : 1 ≤ c) (h16 : c ≤ 16) :
    Mat_class_str_to_id (some (Mat_class_names.getD c "")) = c ∧
    [MAT_C_CELL, MAT_C_STRUCT, MAT_C_OBJECT, MAT_C_CHAR, MAT_C_SPARSE, MAT_C_DOUBLE,
      MAT_C_SINGLE, MAT_C_INT8, MAT_C_UINT8, MAT_C_INT16, MAT_C_UINT16, MAT_C_INT32,
      MAT_C_UINT32, MAT_C_INT64, MAT_C_UINT64, MAT_C_FUNCTION] = List.range' 1 16 ∧
    (List.range' 1 16).map (fun k => Mat_class_names.getD k "")
      = ["cell", "struct", "object", "char", "sparse", "double", "single", "int8", "uint8",
         "int16", "uint16", "int32", "uint32", "int64", "uint64", "function"] ∧
    ((List.range' 1 16).map (fun k => Mat_class_names.getD k "")).Nodup := by
  refine ⟨?_, by decide, by decide, by decide⟩
  interval_cases c <;> decide

/-- C13 (witness): the class tag int64, number 14. -/
theorem class_name_round_trip_witness :
    Mat_class_str_to_id (some "int64") = MAT_C_INT64 :=
  (class_name_round_trip 14 (by decide) (by decide)).1

/-! ## C14: names that are no class name -/

/-- C14: for a name that is NULL (`none`) or a string other than the 16 names
`Mat_class_names[1]`, ..., `Mat_class_names[16]`, `Mat_class_str_to_id`
returns 0; so it does for NULL, for the empty string and for `Double`.  And
when the next dataset member of the root from the cursor `i` on is the member
`j`, whose attribute `MATLAB_class` is absent, is no string or is a string
other than the 16 names, `Mat_VarReadNextInfo73` on a container with pairwise
distinct paths returns a header, named after the dataset, whose class is 0,
and leaves the cursor at `j + 1`. -/
theorem unknown_class_name_is_unset (junk : Nat) (s : State) (i j : Nat)
    (name : Option String)
    (hname : ∀ c, 1 ≤ c → c ≤ 16 → name ≠ some (Mat_class_names.getD c ""))
    (hs : s.file.paths.Nodup)
    (hj : j < (s.file.children []).length) (hij : i ≤ j)
    (hkind : ((s.file.children [])[j]).kind = H5G_DATASET)
    (hskip : ∀ k (hk : k < (s.file.children []).length), i ≤ k → k < j →
      ((s.file.children [])[k]).kind ≠ H5G_DATASET)
    (hattr : ∀ class_str,
      ((s.file.children [])[j]).attrs.lookup "MATLAB_class" = some (H5Attr.str class_str) →
      ∀ c, 1 ≤ c → c ≤ 16 → class_str ≠ Mat_class_names.getD c "") :
    Mat_class_str_to_id name = 0 ∧
    Mat_class_str_to_id none = 0 ∧
    Mat_class_str_to_id (some "") = 0 ∧
    Mat_class_str_to_id (some "Double") = 0 ∧
    ∃ hdr, Mat_VarReadNextInfo73 junk (some ⟨hid_t.obj [], i⟩) s
        = (some hdr, some ⟨hid_t.obj [], j + 1⟩) ∧
      hdr.name = ((s.file.children [])[j]).name ∧
      hdr.info.class_type = 0 := by
  refine ⟨str_to_id_unknown name hname, rfl, by decide, by decide, ?_⟩
  refine ⟨_, read_header_at junk s i j hs hj hij hkind hskip, rfl, ?_⟩
  simp only [matvar_t.info, header_of]
  cases hl : List.lookup "MATLAB_class" ((s.file.children [])[j]).attrs with
  | none => rfl
  | some a =>
    cases a with
    | str class_str =>
      exact str_to_id_unknown (some class_str)
        (fun c h1 h2 hn => hattr class_str hl c h1 h2 (Option.some.inj hn))
    | int _ => rfl
    | vlen _ => rfl

/-- C14 (witness): the name `Struct`, and a container whose root holds a
dataset `x` tagged `Double`: the header read from it has the class 0. -/
theorem unknown_class_name_is_unset_witness :
    Mat_class_str_to_id (some "Struct") = 0 ∧
    ∃ hdr, Mat_VarReadNextInfo73 0 (some ⟨hid_t.obj [], 0⟩)
        ⟨[⟨["x"], H5G_DATASET, H5T_NATIVE_DOUBLE, [3, 2],
            [("MATLAB_class", H5Attr.str "Double")], H5Data.empty⟩], []⟩
        = (some hdr, some ⟨hid_t.obj [], 0 + 1⟩) ∧
      hdr.name = "x" ∧ hdr.info.class_type = 0 :=
  have h := unknown_class_name_is_unset 0
    ⟨[⟨["x"], H5G_DATASET, H5T_NATIVE_DOUBLE, [3, 2],
        [("MATLAB_class", H5Attr.str "Double")], H5Data.empty⟩], []⟩ 0 0 (some "Struct")
    (by intro c h1 h2; interval_cases c <;> decide) (by decide) (by decide) (le_refl _)
    (by decide) (by intro k _ h1 h2; omega)
    (by
      intro class_str hl c h1 h2
      have hc : class_str = "Double" := by
        have : some (H5Attr.str "Double") = some (H5Attr.str class_str) := hl
        injection this with h3
        injection h3 with h4
        exact h4.symm
      rw [hc]
      interval_cases c <;> decide)
  ⟨h.1, h.2.2.2.2⟩

/-! ## C15: the global flag -/

/-- C15: on a container with pairwise distinct paths, when the next dataset
member of the root from the cursor `i` on is the member `j` and that dataset
has no attribute `MATLAB_global`, `Mat_VarReadNextInfo73` returns a header
(not NULL), named after the dataset, whose `isGlobal` is 0, and leaves the
cursor at `j + 1`, one past that dataset. -/
theorem missing_global_reads_false (junk : Nat) (s : State) (i j : Nat)
    (hs : s.file.paths.Nodup)
    (hj : j < (s.file.children []).length) (hij : i ≤ j)
    (hkind : ((s.file.children [])[j]).kind = H5G_DATASET)
    (hskip : ∀ k (hk : k < (s.file.children []).length), i ≤ k → k < j →
      ((s.file.children [])[k]).kind ≠ H5G_DATASET)
    (hattr : ((s.file.children [])[j]).attrs.lookup "MATLAB_global" = none) :
    ∃ hdr, Mat_VarReadNextInfo73 junk (some ⟨hid_t.obj [], i⟩) s
        = (some hdr, some ⟨hid_t.obj [], j + 1⟩) ∧
      hdr.name = ((s.file.children [])[j]).name ∧
      hdr.info.isGlobal = 0 := by
  refine ⟨_, read_header_at junk s i j hs hj hij hkind hskip, rfl, ?_⟩
  simp only [matvar_t.info, header_of, hattr]

/-- C15 (witness): the sample container, whose root holds the dataset `x`, the
group `g` and the dataset `y`, none with the attribute: a call with the cursor
at 1 skips the group, returns the header of `y` and leaves the cursor at 3. -/
theorem missing_global_reads_false_witness :
    ∃ hdr, Mat_VarReadNextInfo73 0 (some ⟨hid_t.obj [], 1⟩) ⟨sample_file, []⟩
        = (some hdr, some ⟨hid_t.obj [], 2 + 1⟩) ∧
      hdr.name = "y" ∧
      hdr.info.isGlobal = 0 :=
  missing_global_reads_false 0 ⟨sample_file, []⟩ 1 2 (by decide) (by decide) (by decide)
    (by decide)
    (by
      intro k _ h1 h2
      have hk : k = 1 := by omega
      subst hk
      simp [sample_file, H5File.children])
    (by decide)

/-! ## C16: the native element types -/

/-- C16 (evaluation at the failing inputs): whatever the build configuration,
`Mat_data_type_to_hid_t` returns the error value `-1` for the storage types
UTF-8, UTF-16, UTF-32 and uint64, which have no case in its `switch`.  The
char encoder accepts the three UTF storage types: for a char variable with
storage type UTF-8 it creates the dataset and its two attributes, then hands
`-1` to `H5Dwrite` as memory type, and the payload is not written, while the
same payload with storage type uint16 is.  On the configuration `cfg_lp64`
the nine storage types with a case get the native type of their width,
signedness and kind. -/
theorem utf_storage_types_unmapped (cfg : CConfig) :
    Mat_data_type_to_hid_t cfg MAT_T_UTF8 = H5T.invalid ∧
    Mat_data_type_to_hid_t cfg MAT_T_UTF16 = H5T.invalid ∧
    Mat_data_type_to_hid_t cfg MAT_T_UTF32 = H5T.invalid ∧
    Mat_data_type_to_hid_t cfg MAT_T_UINT64 = H5T.invalid ∧
    (Mat_VarWrite73 cfg_lp64 0 (some root_mat)
      (some (sample_char "c" MAT_T_UTF8 [1, 2] [104, 105])) 0 empty_state).2.file
      = [{ path := ["c"]
           kind := H5G_DATASET
           dtype := H5T_NATIVE_USHORT
           shape := [2, 1]
           attrs := [("MATLAB_class", H5Attr.str "char"), ("MATLAB_int_decode", H5Attr.int 2)]
           data := H5Data.empty }] ∧
    (Mat_VarWrite73 cfg_lp64 0 (some root_mat)
      (some (sample_char "c" MAT_T_UINT16 [1, 2] [104, 105])) 0 empty_state).2.file
      = [{ path := ["c"]
           kind := H5G_DATASET
           dtype := H5T_NATIVE_USHORT
           shape := [2, 1]
           attrs := [("MATLAB_class", H5Attr.str "char"), ("MATLAB_int_decode", H5Attr.int 2)]
           data := H5Data.values H5T_NATIVE_USHORT [104, 105] }] ∧
    [MAT_T_DOUBLE, MAT_T_SINGLE, MAT_T_INT8, MAT_T_INT16, MAT_T_INT32, MAT_T_INT64,
      MAT_T_UINT8, MAT_T_UINT16, MAT_T_UINT32].map (Mat_data_type_to_hid_t cfg_lp64)
      = [H5T_NATIVE_DOUBLE, H5T_NATIVE_FLOAT, H5T_NATIVE_SCHAR, H5T_NATIVE_SHORT,
         H5T_NATIVE_INT, H5T_NATIVE_LONG, H5T_NATIVE_UCHAR, H5T_NATIVE_USHORT,
         H5T_NATIVE_UINT] ∧
    [MAT_C_DOUBLE, MAT_C_SINGLE, MAT_C_INT8, MAT_C_INT16, MAT_C_INT32, MAT_C_UINT8,
      MAT_C_UINT16, MAT_C_UINT32].map (Mat_class_type_to_hid_t cfg_lp64)
      = [H5T_NATIVE_DOUBLE, H5T_NATIVE_FLOAT, H5T_NATIVE_SCHAR, H5T_NATIVE_SHORT,
         H5T_NATIVE_INT, H5T_NATIVE_UCHAR, H5T_NATIVE_USHORT, H5T_NATIVE_UINT] := by
  refine ⟨rfl, rfl, rfl, rfl, by decide, by decide, by decide, by decide⟩

/-! ## C17: the handle of the pool -/

/-- C17 (evaluation at the failing input): in the container left by writing
the struct array `s` (dims `[1, 2]`, one double field `a`) the pool `/#refs#`
exists and `H5Gopen` on it succeeds, but the statement of lines 1057-1059
(546-547) leaves `refs_id` at 0, the value of the comparison, and creates no
group; 0 is no identifier of the pool, the count of its members cannot be read
through it.  Writing the struct array `t` next leaves the pool with the two
members of `s`, and so does writing the struct `u` of one element whose field
`f` is a struct array, through the nested encoder.  When the pool is absent it
is created and its identifier is used. -/
theorem pool_handle_is_comparison_result :
    H5Gopen
        (Mat_VarWrite73 cfg_lp64 7 (some root_mat)
          (some (sample_struct "s" [1, 2]
            [sample_numeric "a" MAT_C_DOUBLE MAT_T_DOUBLE [1, 1] [1],
             sample_numeric "a" MAT_C_DOUBLE MAT_T_DOUBLE [1, 1] [2]])) 0 empty_state).2.file
        (hid_t.obj []) refs_name = hid_t.obj ["#refs#"] ∧
    open_refs
        (Mat_VarWrite73 cfg_lp64 7 (some root_mat)
          (some (sample_struct "s" [1, 2]
            [sample_numeric "a" MAT_C_DOUBLE MAT_T_DOUBLE [1, 1] [1],
             sample_numeric "a" MAT_C_DOUBLE MAT_T_DOUBLE [1, 1] [2]])) 0 empty_state).2.file
        (hid_t.obj [])
      = (hid_t.stray 0,
         (Mat_VarWrite73 cfg_lp64 7 (some root_mat)
          (some (sample_struct "s" [1, 2]
            [sample_numeric "a" MAT_C_DOUBLE MAT_T_DOUBLE [1, 1] [1],
             sample_numeric "a" MAT_C_DOUBLE MAT_T_DOUBLE [1, 1] [2]])) 0
          empty_state).2.file) ∧
    H5Gget_num_objs
        (Mat_VarWrite73 cfg_lp64 7 (some root_mat)
          (some (sample_struct "s" [1, 2]
            [sample_numeric "a" MAT_C_DOUBLE MAT_T_DOUBLE [1, 1] [1],
             sample_numeric "a" MAT_C_DOUBLE MAT_T_DOUBLE [1, 1] [2]])) 0 empty_state).2.file
        (hid_t.stray 0) = none ∧
    ((Mat_VarWrite73 cfg_lp64 7 (some root_mat)
      (some (sample_struct "t" [1, 2]
        [sample_numeric "b" MAT_C_DOUBLE MAT_T_DOUBLE [1, 1] [3],
         sample_numeric "b" MAT_C_DOUBLE MAT_T_DOUBLE [1, 1] [4]])) 0
      (Mat_VarWrite73 cfg_lp64 7 (some root_mat)
        (some (sample_struct "s" [1, 2]
          [sample_numeric "a" MAT_C_DOUBLE MAT_T_DOUBLE [1, 1] [1],
           sample_numeric "a" MAT_C_DOUBLE MAT_T_DOUBLE [1, 1] [2]])) 0
        empty_state).2).2.file.children ["#refs#"]).map (fun n => (n.name, n.data))
      = [("0", H5Data.values H5T_NATIVE_DOUBLE [1]),
         ("1", H5Data.values H5T_NATIVE_DOUBLE [2])] ∧
    ((Mat_VarWrite73 cfg_lp64 7 (some root_mat)
      (some (sample_struct "u" [1, 1]
        [sample_struct "f" [1, 2]
          [sample_numeric "b" MAT_C_DOUBLE MAT_T_DOUBLE [1, 1] [3],
           sample_numeric "b" MAT_C_DOUBLE MAT_T_DOUBLE [1, 1] [4]]])) 0
      (Mat_VarWrite73 cfg_lp64 7 (some root_mat)
        (some (sample_struct "s" [1, 2]
          [sample_numeric "a" MAT_C_DOUBLE MAT_T_DOUBLE [1, 1] [1],
           sample_numeric "a" MAT_C_DOUBLE MAT_T_DOUBLE [1, 1] [2]])) 0
        empty_state).2).2.file.children ["#refs#"]).map (fun n => (n.name, n.data))
      = [("0", H5Data.values H5T_NATIVE_DOUBLE [1]),
         ("1", H5Data.values H5T_NATIVE_DOUBLE [2])] ∧
    open_refs [] (hid_t.obj []) = (hid_t.obj ["#refs#"], [pool_group]) := by
  refine ⟨by decide, by decide, by decide, by decide, by decide, by decide⟩

/-! ## C18: the permutation -/

/-- C18: for every rank and every dims of that rank, the values that the
permutation loops store, `dims[rank-1-k]` for `k < rank`, are the dims in
reversed order, and storing the values for them once more gives the dims
back.  For a rank up to 10, the size of the buffer `perm_dims`, the first
`rank` entries of the buffer after the loop are these values, so that the
shape handed to `H5Screate_simple`, permuted again, is the dims. -/
theorem permutation_involution (v : matvar_info) (hr : v.rank = v.dims.length) :
    (List.range v.rank).map (perm_value v) = v.dims.reverse ∧
    (List.range v.rank).map
        (perm_value { v with dims := (List.range v.rank).map (perm_value v) }) = v.dims ∧
    (v.rank ≤ 10 →
      H5Screate_simple v.rank (permute v) = (List.range v.rank).map (perm_value v) ∧
      H5Screate_simple v.rank
          (permute { v with dims := H5Screate_simple v.rank (permute v) }) = v.dims) := by
  have hmap : ∀ w : matvar_info, w.rank = w.dims.length →
      (List.range w.rank).map (perm_value w) = w.dims.reverse := by
    intro w hw
    have hf : perm_value w = fun k => w.dims.getD (w.dims.length - k - 1) 0 := by
      funext k
      simp [perm_value, hw]
    rw [hf, hw]
    exact range_map_rev w.dims
  have h1 := hmap v hr
  refine ⟨h1, ?_, ?_⟩
  · rw [h1]
    have h2 := hmap { v with dims := v.dims.reverse }
      (by simp only [List.length_reverse]; exact hr)
    simp only [List.reverse_reverse] at h2
    exact h2
  · intro h10
    have h3 := space_permute v hr h10
    refine ⟨by rw [h3, h1], ?_⟩
    rw [h3]
    have h4 := space_permute { v with dims := v.dims.reverse }
      (by simp only [List.length_reverse]; exact hr) h10
    simp only [List.reverse_reverse] at h4
    exact h4

/-- C18 (witness): dims `[2, 3, 4]`, rank 3. -/
theorem permutation_involution_witness :
    (List.range 3).map (perm_value (sample_numeric "x" MAT_C_DOUBLE MAT_T_DOUBLE [2, 3, 4]
      []).info) = [4, 3, 2] ∧
    (List.range 3).map
        (perm_value { (sample_numeric "x" MAT_C_DOUBLE MAT_T_DOUBLE [2, 3, 4] []).info with
          dims := (List.range 3).map
            (perm_value (sample_numeric "x" MAT_C_DOUBLE MAT_T_DOUBLE [2, 3, 4] []).info) })
      = [2, 3, 4] ∧
    H5Screate_simple 3
        (permute (sample_numeric "x" MAT_C_DOUBLE MAT_T_DOUBLE [2, 3, 4] []).info)
      = [4, 3, 2] :=
  have h := permutation_involution
    (sample_numeric "x" MAT_C_DOUBLE MAT_T_DOUBLE [2, 3, 4] []).info rfl
  ⟨h.1, h.2.1, (h.2.2 (by decide)).1⟩

/-! ## C19: the two encoders -/

/-- C19: for every container state, every configuration and every variable
`V`, `Mat_VarWrite73` on a handle on the container root returns the same value
and leaves the same container and the same messages as
`Mat_WriteNextStructField73` called with the root as scope and the name of
`V` as name, the uninitialised locals of both holding the same content
`junk`. -/
theorem standalone_writer_is_nested_writer (cfg : CConfig) (junk : Nat) (next_index : Nat)
    (V : matvar_t) (compress : Int) (s : State) :
    Mat_VarWrite73 cfg junk (some ⟨hid_t.obj [], next_index⟩) (some V) compress s
      = Mat_WriteNextStructField73 cfg junk (hid_t.obj []) V V.name s :=
  VarWrite_eq_field cfg junk next_index V compress s

/-! ## C20: the header read back -/

/-- C20: take a variable, real or complex, of class double, single, int8, int16, int32,
uint8, uint16 or uint32 whose rank is the length of its dims, at most 10.
After `Mat_VarWrite73` has written it into the empty container (build with
8-bit bytes), a call of `Mat_VarReadNextInfo73` on the handle, cursor at 0,
returns a header with the name and the class of the variable, whose rank is
the rank of the variable and whose dims are the dims of the variable in
reversed order; the cursor is left at 1. -/
theorem header_read_back_reversed (cfg : CConfig) (junk junk2 : Nat)
    (v : matvar_info) (fields : List matvar_t) (compress : Int)
    (h8 : cfg.CHAR_BIT = 8)
    (hclass : v.class_type ∈ [MAT_C_DOUBLE, MAT_C_SINGLE, MAT_C_INT8, MAT_C_INT16,
      MAT_C_INT32, MAT_C_UINT8, MAT_C_UINT16, MAT_C_UINT32])
    (hrank : v.rank = v.dims.length) (h10 : v.rank ≤ 10) :
    ∃ hdr, Mat_VarReadNextInfo73 junk2 (some root_mat)
        (Mat_VarWrite73 cfg junk (some root_mat) (some (matvar_t.mk v fields)) compress
          empty_state).2
        = (some hdr, some ⟨hid_t.obj [], 1⟩) ∧
      hdr.name = v.name ∧
      hdr.info.class_type = v.class_type ∧
      hdr.info.rank = v.rank ∧
      hdr.info.dims = v.dims.reverse := by
  have hc := mem_numeric_case v.class_type hclass
  have hw : (Mat_VarWrite73 cfg junk (some root_mat) (some (matvar_t.mk v fields)) compress
      empty_state).2 = ⟨[numeric_dataset cfg [] v.name v], []⟩ := by
    simp only [Mat_VarWrite73, hc, if_true, root_mat, empty_state]
    rw [write_numeric_eq cfg [] (hid_t.obj []) [] v.name v (loc_root _) (is_group_root _)
      (by simp [H5File.has, H5File.lookup]) h8 hc hrank h10]
    rfl
  have hlen : (numeric_dataset cfg [] v.name v).shape.length ≤ 10 := by
    simp only [numeric_dataset, List.length_reverse]; omega
  refine ⟨matvar_t.mk (header_of (numeric_dataset cfg [] v.name v)) [], ?_, ?_, ?_, ?_, ?_⟩
  · rw [hw]
    exact read_single_dataset junk2 _ [] v.name rfl rfl
  · simp only [matvar_t.name, matvar_t.info, header_of]
    exact node_name_of_path rfl
  · simp only [matvar_t.info, header_of, numeric_dataset]
    simp only [List.mem_cons, List.mem_singleton, List.not_mem_nil, or_false] at hclass
    rcases hclass with h | h | h | h | h | h | h | h <;> rw [h] <;> decide
  · simp only [matvar_t.info, header_of, numeric_dataset, List.length_reverse, hrank]
  · simp only [matvar_t.info, header_of]
    rw [copy_dims_small _ hlen]
    rfl

/-- C20 (witness): a real int32 variable with dims `[2, 3, 4]` comes back with
rank 3 and dims `[4, 3, 2]`. -/
theorem header_read_back_reversed_witness :
    ∃ hdr, Mat_VarReadNextInfo73 0 (some root_mat)
        (Mat_VarWrite73 cfg_lp64 0 (some root_mat)
          (some (sample_numeric "x" MAT_C_INT32 MAT_T_INT32 [2, 3, 4] (List.range 24)))
          0 empty_state).2
        = (some hdr, some ⟨hid_t.obj [], 1⟩) ∧
      hdr.name = "x" ∧
      hdr.info.class_type = MAT_C_INT32 ∧
      hdr.info.rank = 3 ∧
      hdr.info.dims = [4, 3, 2] :=
  header_read_back_reversed cfg_lp64 0 0 _ [] 0 rfl (by decide) rfl (by decide)

/-! ## C21: classes without a case -/

/-- C21: for a handle and a variable that are not NULL, when the class of the
variable is none of double, single, int8, int16, int32, uint8, uint16, uint32,
char and struct, `Mat_VarWrite73` returns 0 and leaves the container and the
messages as they were; cell, object, sparse, function, int64, uint64 and the
unset class 0 are such classes.  And for every handle and variable, NULL or
not, the return value is -1 exactly when the handle or the variable is NULL,
in which case nothing changes either. -/
theorem unhandled_class_writes_nothing (cfg : CConfig) (junk : Nat) (m : mat_t)
    (v : matvar_info) (fields : List matvar_t) (compress : Int) (s : State)
    (hclass : v.class_type ∉ [MAT_C_DOUBLE, MAT_C_SINGLE, MAT_C_INT8, MAT_C_INT16,
      MAT_C_INT32, MAT_C_UINT8, MAT_C_UINT16, MAT_C_UINT32, MAT_C_CHAR, MAT_C_STRUCT]) :
    Mat_VarWrite73 cfg junk (some m) (some (matvar_t.mk v fields)) compress s = (0, s) ∧
    (∀ c ∈ [MAT_C_CELL, MAT_C_OBJECT, MAT_C_SPARSE, MAT_C_FUNCTION, MAT_C_INT64,
        MAT_C_UINT64, 0],
      c ∉ [MAT_C_DOUBLE, MAT_C_SINGLE, MAT_C_INT8, MAT_C_INT16, MAT_C_INT32, MAT_C_UINT8,
        MAT_C_UINT16, MAT_C_UINT32, MAT_C_CHAR, MAT_C_STRUCT]) ∧
    (∀ (mat : Option mat_t) (matvar : Option matvar_t),
      ((Mat_VarWrite73 cfg junk mat matvar compress s).1 = -1 ↔
        (mat = none ∨ matvar = none)) ∧
      ((mat = none ∨ matvar = none) →
        (Mat_VarWrite73 cfg junk mat matvar compress s).2 = s)) := by
  simp only [List.mem_cons, List.mem_singleton, List.not_mem_nil, or_false, not_or] at hclass
  obtain ⟨h1, h2, h3, h4, h5, h6, h7, h8, h9, h10⟩ := hclass
  refine ⟨?_, by decide, ?_⟩
  · have hn : numeric_case v.class_type = false := by
      simp [numeric_case, h1, h2, h3, h4, h5, h6, h7, h8]
    simp only [Mat_VarWrite73]
    rw [if_neg (by rw [hn]; simp), if_neg h9, if_neg h10]
  · intro mat matvar
    cases mat with
    | none => simp [Mat_VarWrite73]
    | some m' =>
      cases matvar with
      | none => simp [Mat_VarWrite73]
      | some V =>
        cases V with
        | mk v' fields' =>
          simp only [Mat_VarWrite73, reduceCtorEq, or_self, iff_false, false_implies, and_true]
          split_ifs <;> simp

/-- C21 (witness): a variable of class cell written on the sample container:
the call returns 0 and the container is the sample container. -/
theorem unhandled_class_writes_nothing_witness :
    Mat_VarWrite73 cfg_lp64 0 (some root_mat)
        (some (sample_numeric "c" MAT_C_CELL MAT_T_UNKNOWN [1, 1] [])) 0 ⟨sample_file, []⟩
      = (0, ⟨sample_file, []⟩) :=
  (unhandled_class_writes_nothing cfg_lp64 0 root_mat _ [] 0 ⟨sample_file, []⟩
    (by decide)).1

/-! ## C22: the slots of the dimension buffers -/

/-- C22: on a build whose `unsigned long` has at least 32 bits, for a variable
of rank at most 10 every iteration of a permutation loop writes a slot
`k < 10` of `perm_dims` and reads the slot `rank - k - 1` of `dims`, which is
below `rank`, the subtraction not wrapping around; the value stored in slot
`k` is the one read.  For a dataset whose shape has at most 10 entries the
shape fits the local buffer of `Mat_VarReadNextInfo73` and every read
`dims[k]` of its copy loop has `k < 10`.  For a rank above 10 the slot 10,
outside `perm_dims`, is written, and for a shape of more than 10 entries the
slot 10 of the local buffer is read. -/
theorem dimension_buffer_slots (cfg : CConfig) (v : matvar_info) (shape : List Nat)
    (hw : 32 ≤ cfg.CHAR_BIT * cfg.SIZEOF_LONG)
    (h10 : v.rank ≤ 10) (hs10 : shape.length ≤ 10) :
    perm_dims_init.length = 10 ∧
    (∀ a ∈ perm_accesses (cfg.CHAR_BIT * cfg.SIZEOF_LONG) v,
      a.1 < perm_dims_init.length ∧ a.2 < v.rank ∧
      (a.2 : Int) = (v.rank : Int) - (a.1 : Int) - 1 ∧
      (permute v).getD a.1 0 = v.dims.getD a.2 0) ∧
    dims_buffer shape = shape ∧
    (∀ k ∈ copy_dims_reads shape.length, k < 10) ∧
    (∀ w : matvar_info, 10 < w.rank →
      ∃ a ∈ perm_accesses (cfg.CHAR_BIT * cfg.SIZEOF_LONG) w,
        a.1 = 10 ∧ ¬ a.1 < perm_dims_init.length) ∧
    (∀ shape2 : List Nat, 10 < shape2.length →
      (∃ k ∈ copy_dims_reads shape2.length, k = 10) ∧
      (dims_buffer shape2).length < shape2.length) := by
  refine ⟨by simp [perm_dims_init], ?_, ?_, ?_, ?_, ?_⟩
  · intro a ha
    obtain ⟨k, hk, rfl⟩ := List.mem_map.1 ha
    have hk2 := List.mem_range.1 hk
    have h2 := perm_access_small (cfg.CHAR_BIT * cfg.SIZEOF_LONG) v.rank k hw hk2 h10
    have h1 : (perm_access (cfg.CHAR_BIT * cfg.SIZEOF_LONG) v.rank k).1 = k := rfl
    rw [h1, h2]
    refine ⟨by simp [perm_dims_init]; omega, by omega, by omega, ?_⟩
    exact permute_getD v k hk2 h10
  · unfold dims_buffer
    exact List.take_of_length_le hs10
  · intro k hk
    have := List.mem_range.1 hk
    omega
  · intro w hw10
    refine ⟨perm_access (cfg.CHAR_BIT * cfg.SIZEOF_LONG) w.rank 10,
      List.mem_map.2 ⟨10, List.mem_range.2 hw10, rfl⟩, rfl, ?_⟩
    simp [perm_access, perm_dims_init]
  · intro shape2 h
    refine ⟨⟨10, List.mem_range.2 h, rfl⟩, ?_⟩
    unfold dims_buffer
    rw [List.length_take]
    omega

/-- C22 (witness): a variable with dims `[2, 3, 4]` on the configuration
`cfg_lp64`, and a shape of three entries. -/
theorem dimension_buffer_slots_witness :
    perm_accesses 64 (sample_numeric "x" MAT_C_DOUBLE MAT_T_DOUBLE [2, 3, 4] []).info
      = [(0, 2), (1, 1), (2, 0)] ∧
    (∀ a ∈ perm_accesses (cfg_lp64.CHAR_BIT * cfg_lp64.SIZEOF_LONG)
        (sample_numeric "x" MAT_C_DOUBLE MAT_T_DOUBLE [2, 3, 4] []).info,
      a.1 < perm_dims_init.length ∧
      a.2 < (sample_numeric "x" MAT_C_DOUBLE MAT_T_DOUBLE [2, 3, 4] []).info.rank ∧
      (a.2 : Int)
        = ((sample_numeric "x" MAT_C_DOUBLE MAT_T_DOUBLE [2, 3, 4] []).info.rank : Int)
          - (a.1 : Int) - 1 ∧
      (permute (sample_numeric "x" MAT_C_DOUBLE MAT_T_DOUBLE [2, 3, 4] []).info).getD a.1 0
        = (sample_numeric "x" MAT_C_DOUBLE MAT_T_DOUBLE [2, 3, 4] []).info.dims.getD a.2 0) ∧
    dims_buffer [4, 3, 2] = [4, 3, 2] ∧
    (∀ k ∈ copy_dims_reads [4, 3, 2].length, k < 10) :=
  have h := dimension_buffer_slots cfg_lp64
    (sample_numeric "x" MAT_C_DOUBLE MAT_T_DOUBLE [2, 3, 4] []).info [4, 3, 2]
    (by decide) (by decide) (by decide)
  ⟨by decide, h.2.1, h.2.2.1, h.2.2.2.1⟩

end Mat73
